import Mathlib

/-!
# Frame loop of `exercise4/main.cpp`

A shallow embedding of the frame driver in `src/exercise4/main.cpp`: the
local variables of `main` that the loop reads and writes form `MainState`,
every result that the outside world hands back during one pass through the
loop body (GLFW, the Vulkan driver, the `labutils` helpers) is a field of
`IterEnv`, and every call the loop makes is logged as an `Event`.
-/

namespace Exercise4

/-! ## Vulkan result codes and flag bits -/

/-- A `VkResult` is a signed 32-bit enumeration value. -/
abbrev VkResult := Int

def VK_SUCCESS : VkResult := 0
def VK_SUBOPTIMAL_KHR : VkResult := 1000001003
def VK_ERROR_OUT_OF_DATE_KHR : VkResult := -1000001004

inductive VkAccessFlagBits
  | VK_ACCESS_UNIFORM_READ_BIT
  | VK_ACCESS_TRANSFER_WRITE_BIT
  deriving DecidableEq, Repr

inductive VkPipelineStageFlagBits
  | VK_PIPELINE_STAGE_VERTEX_SHADER_BIT
  | VK_PIPELINE_STAGE_TRANSFER_BIT
  | VK_PIPELINE_STAGE_COLOR_ATTACHMENT_OUTPUT_BIT
  deriving DecidableEq, Repr

/-! ## Handles

Objects that are created once before the loop are told apart by the ordinal
of the call that created them. -/

structure VkCommandBuffer where
  handle : Nat
  deriving DecidableEq, Repr

structure VkFence where
  handle : Nat
  deriving DecidableEq, Repr

structure VkSemaphore where
  handle : Nat
  deriving DecidableEq, Repr

structure VkImageView where
  handle : Nat
  deriving DecidableEq, Repr

structure VkBuffer where
  handle : Nat
  deriving DecidableEq, Repr

structure VkDescriptorSet where
  handle : Nat
  deriving DecidableEq, Repr

structure VkPipelineLayout where
  handle : Nat
  deriving DecidableEq, Repr

structure VkSwapchainKHR where
  handle : Nat
  deriving DecidableEq, Repr

/-! ## The window (`lut::VulkanWindow`) -/

structure VkExtent2D where
  width : Nat
  height : Nat
  deriving DecidableEq, Repr

/-- The fields of `lut::VulkanWindow` that `main.cpp` reads. -/
structure VulkanWindow where
  swapchain : VkSwapchainKHR
  swapchainFormat : Nat
  swapchainExtent : VkExtent2D
  swapViews : List VkImageView
  deriving DecidableEq, Repr

/-- The report returned by `recreate_swapchain`. -/
structure SwapChanges where
  changedSize : Bool
  changedFormat : Bool
  deriving DecidableEq, Repr

/-! ## Objects that the loop may replace

Each of `renderPass`, `depthBuffer`, `pipe` and `alphaPipe` is a local of
`main` that is move-assigned a new object during a recreation. The field
`generation` counts the creations stored in that variable so far, so two
values of the variable are the same object exactly when their generations
agree. -/

structure RenderPass where
  generation : Nat
  format : Nat
  deriving DecidableEq, Repr

/-- The pair `depthBuffer`, `depthBufferView` made by `create_depth_buffer`. -/
structure DepthBuffer where
  generation : Nat
  extent : VkExtent2D
  deriving DecidableEq, Repr

structure Framebuffer where
  renderPass : RenderPass
  colorView : VkImageView
  depthView : DepthBuffer
  width : Nat
  height : Nat
  deriving DecidableEq, Repr

/-- A pipeline made by `create_pipeline` (`alpha = false`) or by
`create_alpha_pipeline` (`alpha = true`). -/
structure Pipeline where
  generation : Nat
  alpha : Bool
  renderPass : RenderPass
  layout : VkPipelineLayout
  viewport : VkExtent2D
  deriving DecidableEq, Repr

/-- The parameter block as the frame loop handles it: the block that
`update_scene_uniforms` computes for the given framebuffer width and height. -/
structure SceneUniformBlock where
  aFramebufferWidth : Nat
  aFramebufferHeight : Nat
  deriving DecidableEq, Repr

/-- Size of `glsl::SceneUniform`: three `glm::mat4`, each sixteen 4-byte floats. -/
def sizeof_SceneUniform : Nat := 3 * (16 * 4)

/-- A mesh as returned by `create_plane_mesh` and `create_sprite_mesh`. -/
structure TexturedMesh where
  positions : VkBuffer
  texcoords : VkBuffer
  vertexCount : Nat
  deriving DecidableEq, Repr

/-! ## Recording (`record_commands`) -/

/-- The eighteen arguments of `record_commands`, in source order. -/
structure RecordArgs where
  aCmdBuff : VkCommandBuffer
  aRenderPass : RenderPass
  aFramebuffer : Framebuffer
  aGraphicsPipe : Pipeline
  aImageExtent : VkExtent2D
  aPositionBuffer : VkBuffer
  aTexCoordBuffer : VkBuffer
  aVertexCount : Nat
  aSceneUBO : VkBuffer
  aSceneUniform : SceneUniformBlock
  aGraphicsLayout : VkPipelineLayout
  aSceneDescriptors : VkDescriptorSet
  aObjectDescriptors : VkDescriptorSet
  aSpritePosBuffer : VkBuffer
  aSpriteTexBuffer : VkBuffer
  aSpriteVertexCount : Nat
  aSpriteObjDescriptors : VkDescriptorSet
  aAlphaPipeline : Pipeline
  deriving DecidableEq, Repr

/-- The commands that `record_commands` puts into a command buffer. -/
inductive Cmd
  | buffer_barrier (aBuffer : VkBuffer) (aSrcAccess aDstAccess : VkAccessFlagBits)
      (aSrcStage aDstStage : VkPipelineStageFlagBits)
  | vkCmdUpdateBuffer (dstBuffer : VkBuffer) (dstOffset dataSize : Nat) (data : SceneUniformBlock)
  | vkCmdBeginRenderPass (renderPass : RenderPass) (framebuffer : Framebuffer)
      (renderArea : VkExtent2D) (clearValueCount : Nat)
  | vkCmdBindPipeline (pipeline : Pipeline)
  | vkCmdBindDescriptorSets (layout : VkPipelineLayout) (firstSet : Nat) (sets : List VkDescriptorSet)
  | vkCmdBindVertexBuffers (firstBinding : Nat) (buffers : List VkBuffer) (offsets : List Nat)
  | vkCmdDraw (vertexCount instanceCount firstVertex firstInstance : Nat)
  | vkCmdEndRenderPass
  deriving DecidableEq, Repr

/-- The commands between `vkBeginCommandBuffer` and `vkEndCommandBuffer`. -/
def recordedCommands (a : RecordArgs) : List Cmd :=
  [ .buffer_barrier a.aSceneUBO
      .VK_ACCESS_UNIFORM_READ_BIT .VK_ACCESS_TRANSFER_WRITE_BIT
      .VK_PIPELINE_STAGE_VERTEX_SHADER_BIT .VK_PIPELINE_STAGE_TRANSFER_BIT,
    .vkCmdUpdateBuffer a.aSceneUBO 0 sizeof_SceneUniform a.aSceneUniform,
    .buffer_barrier a.aSceneUBO
      .VK_ACCESS_TRANSFER_WRITE_BIT .VK_ACCESS_UNIFORM_READ_BIT
      .VK_PIPELINE_STAGE_TRANSFER_BIT .VK_PIPELINE_STAGE_VERTEX_SHADER_BIT,
    .vkCmdBeginRenderPass a.aRenderPass a.aFramebuffer a.aImageExtent 2,
    .vkCmdBindPipeline a.aGraphicsPipe,
    .vkCmdBindDescriptorSets a.aGraphicsLayout 0 [a.aSceneDescriptors],
    .vkCmdBindDescriptorSets a.aGraphicsLayout 1 [a.aObjectDescriptors],
    .vkCmdBindVertexBuffers 0 [a.aPositionBuffer, a.aTexCoordBuffer] [0, 0],
    .vkCmdDraw a.aVertexCount 1 0 0,
    .vkCmdBindPipeline a.aAlphaPipeline,
    .vkCmdBindDescriptorSets a.aGraphicsLayout 1 [a.aSpriteObjDescriptors],
    .vkCmdBindVertexBuffers 0 [a.aSpritePosBuffer, a.aSpriteTexBuffer] [0, 0],
    .vkCmdDraw a.aSpriteVertexCount 1 0 0,
    .vkCmdEndRenderPass ]

/-- The function `record_commands`: the commands recorded, or `none` when it
throws. `beginRes` and `endRes` are what `vkBeginCommandBuffer` and
`vkEndCommandBuffer` return. -/
def record_commands (a : RecordArgs) (beginRes endRes : VkResult) : Option (List Cmd) :=
  if VK_SUCCESS ≠ beginRes then none
  else if VK_SUCCESS ≠ endRes then none
  else some (recordedCommands a)

/-! ## Submission (`submit_commands`) and presentation -/

structure VkSubmitInfo where
  pCommandBuffers : List VkCommandBuffer
  pWaitSemaphores : List VkSemaphore
  pWaitDstStageMask : List VkPipelineStageFlagBits
  pSignalSemaphores : List VkSemaphore
  deriving DecidableEq, Repr

structure VkPresentInfoKHR where
  pWaitSemaphores : List VkSemaphore
  pSwapchains : List VkSwapchainKHR
  pImageIndices : List Nat
  deriving DecidableEq, Repr

/-- The `VkSubmitInfo` that `submit_commands` fills in. -/
def submitInfo (aCmdBuff : VkCommandBuffer) (aWaitSemaphore aSignalSemaphore : VkSemaphore) :
    VkSubmitInfo :=
  { pCommandBuffers := [aCmdBuff]
    pWaitSemaphores := [aWaitSemaphore]
    pWaitDstStageMask := [.VK_PIPELINE_STAGE_COLOR_ATTACHMENT_OUTPUT_BIT]
    pSignalSemaphores := [aSignalSemaphore] }

/-! ## Events: the calls made by the loop body, with what they returned -/

inductive Event
  | glfwPollEvents
  | update_scene_uniforms (aFramebufferWidth aFramebufferHeight : Nat)
  | vkDeviceWaitIdle
  | recreate_swapchain (changes : Option SwapChanges)
  | create_render_pass (made : Option RenderPass)
  | create_depth_buffer (made : Option DepthBuffer)
  | create_swapchain_framebuffers (made : Option (List Framebuffer))
  | create_pipeline (made : Option Pipeline)
  | create_alpha_pipeline (made : Option Pipeline)
  | vkAcquireNextImageKHR (semaphore : VkSemaphore) (res : VkResult) (imageIndex : Nat)
  | vkWaitForFences (fence : VkFence) (res : VkResult)
  | vkResetFences (fence : VkFence) (res : VkResult)
  | record_commands (args : RecordArgs) (recorded : Option (List Cmd))
  | vkQueueSubmit (info : VkSubmitInfo) (fence : VkFence) (res : VkResult)
  | vkQueuePresentKHR (info : VkPresentInfoKHR) (res : VkResult)
  deriving DecidableEq, Repr

/-- The function `submit_commands`: the one `vkQueueSubmit` call it makes,
and whether it returned normally (`true`) or threw (`false`). -/
def submit_commands (aCmdBuff : VkCommandBuffer) (aFence : VkFence)
    (aWaitSemaphore aSignalSemaphore : VkSemaphore) (res : VkResult) : Event × Bool :=
  (.vkQueueSubmit (submitInfo aCmdBuff aWaitSemaphore aSignalSemaphore) aFence res,
   decide (VK_SUCCESS = res))

/-! ## Creation helpers of `main.cpp`

Each returns `none` where the source throws `lut::Error`. -/

/-- The function `create_render_pass`; `res` is what `vkCreateRenderPass` returns. -/
def create_render_pass (aWindow : VulkanWindow) (generation : Nat) (res : VkResult) :
    Option RenderPass :=
  if VK_SUCCESS ≠ res then none
  else some { generation := generation, format := aWindow.swapchainFormat }

/-- The function `create_depth_buffer`; `imageRes` is what `vmaCreateImage`
returns and `viewRes` what `vkCreateImageView` returns. -/
def create_depth_buffer (aWindow : VulkanWindow) (generation : Nat)
    (imageRes viewRes : VkResult) : Option DepthBuffer :=
  if VK_SUCCESS ≠ imageRes then none
  else if VK_SUCCESS ≠ viewRes then none
  else some { generation := generation,
              extent := { width := aWindow.swapchainExtent.width,
                          height := aWindow.swapchainExtent.height } }

/-- The loop of `create_swapchain_framebuffers` from index `i` on, over the
remaining `swapViews`; `res i` is what the `i`-th `vkCreateFramebuffer` returns. -/
def createFramebuffersFrom (aWindow : VulkanWindow) (aRenderPass : RenderPass)
    (aDepthView : DepthBuffer) (res : Nat → VkResult) :
    Nat → List VkImageView → Option (List Framebuffer)
  | _, [] => some []
  | i, view :: views =>
    if VK_SUCCESS ≠ res i then none
    else
      match createFramebuffersFrom aWindow aRenderPass aDepthView res (i + 1) views with
      | none => none
      | some fbs =>
        some ({ renderPass := aRenderPass, colorView := view, depthView := aDepthView,
                width := aWindow.swapchainExtent.width,
                height := aWindow.swapchainExtent.height } :: fbs)

/-- The function `create_swapchain_framebuffers`, called on an empty vector
(both call sites pass one: a fresh vector, and one just cleared). -/
def create_swapchain_framebuffers (aWindow : VulkanWindow) (aRenderPass : RenderPass)
    (aDepthView : DepthBuffer) (res : Nat → VkResult) : Option (List Framebuffer) :=
  createFramebuffersFrom aWindow aRenderPass aDepthView res 0 aWindow.swapViews

/-- The function `create_pipeline`; `shaders` says whether both
`lut::load_shader_module` calls returned, `res` is what
`vkCreateGraphicsPipelines` returns. -/
def create_pipeline (aWindow : VulkanWindow) (aRenderPass : RenderPass)
    (aPipelineLayout : VkPipelineLayout) (generation : Nat) (shaders : Bool) (res : VkResult) :
    Option Pipeline :=
  if shaders = false then none
  else if VK_SUCCESS ≠ res then none
  else some { generation := generation, alpha := false, renderPass := aRenderPass,
              layout := aPipelineLayout,
              viewport := { width := aWindow.swapchainExtent.width,
                            height := aWindow.swapchainExtent.height } }

/-- The function `create_alpha_pipeline`, with the same parameters as `create_pipeline`. -/
def create_alpha_pipeline (aWindow : VulkanWindow) (aRenderPass : RenderPass)
    (aPipelineLayout : VkPipelineLayout) (generation : Nat) (shaders : Bool) (res : VkResult) :
    Option Pipeline :=
  if shaders = false then none
  else if VK_SUCCESS ≠ res then none
  else some { generation := generation, alpha := true, renderPass := aRenderPass,
              layout := aPipelineLayout,
              viewport := { width := aWindow.swapchainExtent.width,
                            height := aWindow.swapchainExtent.height } }

/-! ## The locals of `main` and the outside world -/

/-- The locals of `main` that the loop body reads or writes. -/
structure MainState where
  window : VulkanWindow
  renderPass : RenderPass
  pipeLayout : VkPipelineLayout
  pipe : Pipeline
  alphaPipe : Pipeline
  depthBuffer : DepthBuffer
  framebuffers : List Framebuffer
  cbuffers : List VkCommandBuffer
  cbfences : List VkFence
  imageAvailable : VkSemaphore
  renderFinished : VkSemaphore
  planeMesh : TexturedMesh
  spriteMesh : TexturedMesh
  sceneUBO : VkBuffer
  sceneDescriptors : VkDescriptorSet
  floorDescriptors : VkDescriptorSet
  spriteDescriptors : VkDescriptorSet
  recreateSwapchain : Bool
  deriving DecidableEq, Repr

/-- Everything the outside world returns during one pass through the loop:
the value of `glfwWindowShouldClose` at the loop condition, and the result of
each call the body can make (a body makes each call at most once). -/
structure IterEnv where
  glfwWindowShouldClose : Bool
  /-- The window after `recreate_swapchain` and its report; `none` when it throws. -/
  recreated : Option (VulkanWindow × SwapChanges)
  renderPassRes : VkResult
  depthImageRes : VkResult
  depthViewRes : VkResult
  framebufferRes : Nat → VkResult
  pipeShaders : Bool
  pipeRes : VkResult
  alphaShaders : Bool
  alphaPipeRes : VkResult
  acquireRes : VkResult
  imageIndex : Nat
  waitRes : VkResult
  resetRes : VkResult
  beginRes : VkResult
  endRes : VkResult
  submitRes : VkResult
  presentRes : VkResult

/-- How one pass through the loop body ends. -/
inductive Flow
  /-- Control is back at the loop condition, with these locals. -/
  | continues (s : MainState)
  /-- A `lut::Error` was thrown. -/
  | thrown
  /-- An `assert` failed. -/
  | assertFailed
  deriving DecidableEq, Repr

/-! ## The loop body of `main` -/

/-- The block `if( recreateSwapchain ) { ... continue; }` of the loop body. -/
def recreation (s : MainState) (e : IterEnv) : List Event × Flow :=
  match e.recreated with
  | none => ([.vkDeviceWaitIdle, .recreate_swapchain none], .thrown)
  | some (window, changes) =>
  let t0 : List Event := [.vkDeviceWaitIdle, .recreate_swapchain (some changes)]
  -- if (changes.changedFormat) renderPass = create_render_pass(window);
  let madePass := create_render_pass window (s.renderPass.generation + 1) e.renderPassRes
  let t1 := t0 ++ (if changes.changedFormat then [.create_render_pass madePass] else [])
  match (if changes.changedFormat then madePass else some s.renderPass) with
  | none => (t1, .thrown)
  | some renderPass =>
  -- if (changes.changedSize) std::tie(depthBuffer, depthBufferView) = create_depth_buffer(...);
  let madeDepth := create_depth_buffer window (s.depthBuffer.generation + 1)
    e.depthImageRes e.depthViewRes
  let t2 := t1 ++ (if changes.changedSize then [.create_depth_buffer madeDepth] else [])
  match (if changes.changedSize then madeDepth else some s.depthBuffer) with
  | none => (t2, .thrown)
  | some depthBuffer =>
  -- framebuffers.clear(); create_swapchain_framebuffers(...);
  let madeFbs := create_swapchain_framebuffers window renderPass depthBuffer e.framebufferRes
  let t3 := t2 ++ [.create_swapchain_framebuffers madeFbs]
  match madeFbs with
  | none => (t3, .thrown)
  | some framebuffers =>
  -- if (changes.changedSize) { pipe = create_pipeline(...); alphaPipe = create_alpha_pipeline(...); }
  let madePipe := create_pipeline window renderPass s.pipeLayout (s.pipe.generation + 1)
    e.pipeShaders e.pipeRes
  let t4 := t3 ++ (if changes.changedSize then [.create_pipeline madePipe] else [])
  match (if changes.changedSize then madePipe else some s.pipe) with
  | none => (t4, .thrown)
  | some pipe =>
  let madeAlpha := create_alpha_pipeline window renderPass s.pipeLayout
    (s.alphaPipe.generation + 1) e.alphaShaders e.alphaPipeRes
  let t5 := t4 ++ (if changes.changedSize then [.create_alpha_pipeline madeAlpha] else [])
  match (if changes.changedSize then madeAlpha else some s.alphaPipe) with
  | none => (t5, .thrown)
  | some alphaPipe =>
  -- recreateSwapchain = false; continue;
  (t5, .continues { s with window := window, renderPass := renderPass,
                           depthBuffer := depthBuffer, framebuffers := framebuffers,
                           pipe := pipe, alphaPipe := alphaPipe,
                           recreateSwapchain := false })

/-- The arguments of the `record_commands` call in `main`. -/
def recordArgs (s : MainState) (sceneUniforms : SceneUniformBlock)
    (cbuffer : VkCommandBuffer) (framebuffer : Framebuffer) : RecordArgs :=
  { aCmdBuff := cbuffer
    aRenderPass := s.renderPass
    aFramebuffer := framebuffer
    aGraphicsPipe := s.pipe
    aImageExtent := s.window.swapchainExtent
    aPositionBuffer := s.planeMesh.positions
    aTexCoordBuffer := s.planeMesh.texcoords
    aVertexCount := s.planeMesh.vertexCount
    aSceneUBO := s.sceneUBO
    aSceneUniform := sceneUniforms
    aGraphicsLayout := s.pipeLayout
    aSceneDescriptors := s.sceneDescriptors
    aObjectDescriptors := s.floorDescriptors
    aSpritePosBuffer := s.spriteMesh.positions
    aSpriteTexBuffer := s.spriteMesh.texcoords
    aSpriteVertexCount := s.spriteMesh.vertexCount
    aSpriteObjDescriptors := s.spriteDescriptors
    aAlphaPipeline := s.alphaPipe }

/-- The `VkPresentInfoKHR` that `main` fills in. -/
def presentInfo (s : MainState) (imageIndex : Nat) : VkPresentInfoKHR :=
  { pWaitSemaphores := [s.renderFinished]
    pSwapchains := [s.window.swapchain]
    pImageIndices := [imageIndex] }

/-- The loop body from `vkAcquireNextImageKHR` to its end. -/
def renderFrame (s : MainState) (e : IterEnv) (sceneUniforms : SceneUniformBlock) :
    List Event × Flow :=
  let imageIndex := e.imageIndex
  let acquire := Event.vkAcquireNextImageKHR s.imageAvailable e.acquireRes imageIndex
  if VK_SUBOPTIMAL_KHR = e.acquireRes ∨ VK_ERROR_OUT_OF_DATE_KHR = e.acquireRes then
    -- recreateSwapchain = true; continue;
    ([acquire], .continues { s with recreateSwapchain := true })
  else if VK_SUCCESS ≠ e.acquireRes then ([acquire], .thrown)
  else
  -- assert(std::size_t(imageIndex) < cbfences.size());
  match s.cbfences[imageIndex]? with
  | none => ([acquire], .assertFailed)
  | some fence =>
  let wait := Event.vkWaitForFences fence e.waitRes
  if VK_SUCCESS ≠ e.waitRes then ([acquire, wait], .thrown)
  else
  let reset := Event.vkResetFences fence e.resetRes
  if VK_SUCCESS ≠ e.resetRes then ([acquire, wait, reset], .thrown)
  else
  -- assert(std::size_t(imageIndex) < cbuffers.size());
  match s.cbuffers[imageIndex]? with
  | none => ([acquire, wait, reset], .assertFailed)
  | some cbuffer =>
  -- assert(std::size_t(imageIndex) < framebuffers.size());
  match s.framebuffers[imageIndex]? with
  | none => ([acquire, wait, reset], .assertFailed)
  | some framebuffer =>
  let args := recordArgs s sceneUniforms cbuffer framebuffer
  let recorded := record_commands args e.beginRes e.endRes
  let record := Event.record_commands args recorded
  if recorded = none then ([acquire, wait, reset, record], .thrown)
  else
  let submit := submit_commands cbuffer fence s.imageAvailable s.renderFinished e.submitRes
  if submit.2 = false then ([acquire, wait, reset, record, submit.1], .thrown)
  else
  let present := Event.vkQueuePresentKHR (presentInfo s imageIndex) e.presentRes
  let t := [acquire, wait, reset, record, submit.1, present]
  if VK_SUBOPTIMAL_KHR = e.presentRes ∨ VK_ERROR_OUT_OF_DATE_KHR = e.presentRes then
    (t, .continues { s with recreateSwapchain := true })
  else if VK_SUCCESS ≠ e.presentRes then (t, .thrown)
  else (t, .continues s)

/-- One pass through the body of the `while` loop of `main`. -/
def iteration (s : MainState) (e : IterEnv) : List Event × Flow :=
  let width := s.window.swapchainExtent.width
  let height := s.window.swapchainExtent.height
  -- glsl::SceneUniform sceneUniforms{}; update_scene_uniforms(sceneUniforms, width, height);
  let sceneUniforms : SceneUniformBlock :=
    { aFramebufferWidth := width, aFramebufferHeight := height }
  let t : List Event := [.glfwPollEvents, .update_scene_uniforms width height]
  if s.recreateSwapchain then
    let r := recreation s e
    (t ++ r.1, r.2)
  else
    let r := renderFrame s e sceneUniforms
    (t ++ r.1, r.2)

/-! ## The loop -/

/-- How far a run of the loop got. -/
inductive Outcome
  /-- The outside world has not answered further; the loop is still going. -/
  | running
  /-- The loop condition found the window-close flag set. -/
  | closed
  /-- A `lut::Error` left the loop. -/
  | error
  /-- An `assert` failed. -/
  | assertFailed
  deriving DecidableEq, Repr

/-- A run of the loop: the events of each pass through the body, in order,
how the run ended, and the locals at that point. -/
structure Run where
  iterations : List (List Event)
  outcome : Outcome
  final : MainState
  deriving DecidableEq, Repr

/-- The `while( !glfwWindowShouldClose( window.window ) )` loop of `main`,
driven by one `IterEnv` per evaluation of the loop condition. -/
def frameLoop : MainState → List IterEnv → Run
  | s, [] => { iterations := [], outcome := .running, final := s }
  | s, e :: es =>
    if e.glfwWindowShouldClose then { iterations := [], outcome := .closed, final := s }
    else
      match iteration s e with
      | (t, .continues s') =>
        let r := frameLoop s' es
        { iterations := t :: r.iterations, outcome := r.outcome, final := r.final }
      | (t, .thrown) => { iterations := [t], outcome := .error, final := s }
      | (t, .assertFailed) => { iterations := [t], outcome := .assertFailed, final := s }

/-- All events of a run, in order. -/
def Run.trace (r : Run) : List Event := r.iterations.flatten

/-! ## Entry to the loop -/

/-- The objects that `main` makes before the loop and never replaces. -/
structure Scene where
  pipeLayout : VkPipelineLayout
  planeMesh : TexturedMesh
  spriteMesh : TexturedMesh
  sceneUBO : VkBuffer
  sceneDescriptors : VkDescriptorSet
  floorDescriptors : VkDescriptorSet
  spriteDescriptors : VkDescriptorSet
  deriving DecidableEq, Repr

/-- The framebuffers that `create_swapchain_framebuffers` makes when every
`vkCreateFramebuffer` succeeds. -/
def framebuffersOf (aWindow : VulkanWindow) (aRenderPass : RenderPass)
    (aDepthView : DepthBuffer) : List Framebuffer :=
  (create_swapchain_framebuffers aWindow aRenderPass aDepthView (fun _ => VK_SUCCESS)).getD []

/-- The locals of `main` on entry to the loop when every call before the loop
succeeded: one command buffer and one fence per framebuffer, the `i`-th of
each having handle `i`, and the two semaphores `imageAvailable` and
`renderFinished`, created in this order. -/
def startup (window : VulkanWindow) (scene : Scene) : MainState :=
  let renderPass : RenderPass := { generation := 0, format := window.swapchainFormat }
  let extent : VkExtent2D :=
    { width := window.swapchainExtent.width, height := window.swapchainExtent.height }
  let depthBuffer : DepthBuffer := { generation := 0, extent := extent }
  let framebuffers := framebuffersOf window renderPass depthBuffer
  { window := window
    renderPass := renderPass
    pipeLayout := scene.pipeLayout
    pipe := { generation := 0, alpha := false, renderPass := renderPass,
              layout := scene.pipeLayout, viewport := extent }
    alphaPipe := { generation := 0, alpha := true, renderPass := renderPass,
                   layout := scene.pipeLayout, viewport := extent }
    depthBuffer := depthBuffer
    framebuffers := framebuffers
    cbuffers := (List.range framebuffers.length).map VkCommandBuffer.mk
    cbfences := (List.range framebuffers.length).map VkFence.mk
    imageAvailable := { handle := 0 }
    renderFinished := { handle := 1 }
    planeMesh := scene.planeMesh
    spriteMesh := scene.spriteMesh
    sceneUBO := scene.sceneUBO
    sceneDescriptors := scene.sceneDescriptors
    floorDescriptors := scene.floorDescriptors
    spriteDescriptors := scene.spriteDescriptors
    recreateSwapchain := false }

/-! ## The ways through the loop body -/

/-- The acquire call of a pass through the body. -/
def acquireEvent (s : MainState) (e : IterEnv) : Event :=
  .vkAcquireNextImageKHR s.imageAvailable e.acquireRes e.imageIndex

/-- The submit call of a pass through the body. -/
def submitEvent (s : MainState) (e : IterEnv) (cbuffer : VkCommandBuffer) (fence : VkFence) : Event :=
  .vkQueueSubmit (submitInfo cbuffer s.imageAvailable s.renderFinished) fence e.submitRes

/-- The present call of a pass through the body. -/
def presentEvent (s : MainState) (e : IterEnv) : Event :=
  .vkQueuePresentKHR (presentInfo s e.imageIndex) e.presentRes

/-- The ways through `renderFrame`, one constructor per exit of the source text. -/
inductive RenderPath (s : MainState) (e : IterEnv) (u : SceneUniformBlock) :
    List Event × Flow → Prop
  | acquireStale
      (ha : e.acquireRes = VK_SUBOPTIMAL_KHR ∨ e.acquireRes = VK_ERROR_OUT_OF_DATE_KHR) :
      RenderPath s e u ([acquireEvent s e], .continues { s with recreateSwapchain := true })
  | acquireError (h0 : e.acquireRes ≠ VK_SUCCESS) (h1 : e.acquireRes ≠ VK_SUBOPTIMAL_KHR)
      (h2 : e.acquireRes ≠ VK_ERROR_OUT_OF_DATE_KHR) :
      RenderPath s e u ([acquireEvent s e], .thrown)
  | fenceAssert (ha : e.acquireRes = VK_SUCCESS) (hf : s.cbfences[e.imageIndex]? = none) :
      RenderPath s e u ([acquireEvent s e], .assertFailed)
  | waitError (fence : VkFence) (ha : e.acquireRes = VK_SUCCESS)
      (hf : s.cbfences[e.imageIndex]? = some fence) (hw : e.waitRes ≠ VK_SUCCESS) :
      RenderPath s e u ([acquireEvent s e, .vkWaitForFences fence e.waitRes], .thrown)
  | resetError (fence : VkFence) (ha : e.acquireRes = VK_SUCCESS)
      (hf : s.cbfences[e.imageIndex]? = some fence) (hw : e.waitRes = VK_SUCCESS)
      (hr : e.resetRes ≠ VK_SUCCESS) :
      RenderPath s e u
        ([acquireEvent s e, .vkWaitForFences fence VK_SUCCESS, .vkResetFences fence e.resetRes],
         .thrown)
  | bufferAssert (fence : VkFence) (ha : e.acquireRes = VK_SUCCESS)
      (hf : s.cbfences[e.imageIndex]? = some fence) (hw : e.waitRes = VK_SUCCESS)
      (hr : e.resetRes = VK_SUCCESS)
      (hc : s.cbuffers[e.imageIndex]? = none ∨ s.framebuffers[e.imageIndex]? = none) :
      RenderPath s e u
        ([acquireEvent s e, .vkWaitForFences fence VK_SUCCESS, .vkResetFences fence VK_SUCCESS],
         .assertFailed)
  | recordError (fence : VkFence) (cbuffer : VkCommandBuffer) (framebuffer : Framebuffer)
      (ha : e.acquireRes = VK_SUCCESS)
      (hf : s.cbfences[e.imageIndex]? = some fence) (hw : e.waitRes = VK_SUCCESS)
      (hr : e.resetRes = VK_SUCCESS) (hc : s.cbuffers[e.imageIndex]? = some cbuffer)
      (hb : s.framebuffers[e.imageIndex]? = some framebuffer)
      (hrec : e.beginRes ≠ VK_SUCCESS ∨ e.endRes ≠ VK_SUCCESS) :
      RenderPath s e u
        ([acquireEvent s e, .vkWaitForFences fence VK_SUCCESS, .vkResetFences fence VK_SUCCESS,
          .record_commands (recordArgs s u cbuffer framebuffer) none],
         .thrown)
  | submitError (fence : VkFence) (cbuffer : VkCommandBuffer) (framebuffer : Framebuffer)
      (ha : e.acquireRes = VK_SUCCESS)
      (hf : s.cbfences[e.imageIndex]? = some fence) (hw : e.waitRes = VK_SUCCESS)
      (hr : e.resetRes = VK_SUCCESS) (hc : s.cbuffers[e.imageIndex]? = some cbuffer)
      (hb : s.framebuffers[e.imageIndex]? = some framebuffer)
      (hbeg : e.beginRes = VK_SUCCESS) (hend : e.endRes = VK_SUCCESS)
      (hs : e.submitRes ≠ VK_SUCCESS) :
      RenderPath s e u
        ([acquireEvent s e, .vkWaitForFences fence VK_SUCCESS, .vkResetFences fence VK_SUCCESS,
          .record_commands (recordArgs s u cbuffer framebuffer)
            (some (recordedCommands (recordArgs s u cbuffer framebuffer))),
          submitEvent s e cbuffer fence],
         .thrown)
  | presented (fence : VkFence) (cbuffer : VkCommandBuffer) (framebuffer : Framebuffer)
      (flow : Flow)
      (ha : e.acquireRes = VK_SUCCESS)
      (hf : s.cbfences[e.imageIndex]? = some fence) (hw : e.waitRes = VK_SUCCESS)
      (hr : e.resetRes = VK_SUCCESS) (hc : s.cbuffers[e.imageIndex]? = some cbuffer)
      (hb : s.framebuffers[e.imageIndex]? = some framebuffer)
      (hbeg : e.beginRes = VK_SUCCESS) (hend : e.endRes = VK_SUCCESS)
      (hs : e.submitRes = VK_SUCCESS)
      (hp : (e.presentRes = VK_SUBOPTIMAL_KHR ∨ e.presentRes = VK_ERROR_OUT_OF_DATE_KHR) ∧
              flow = .continues { s with recreateSwapchain := true }
            ∨ (e.presentRes ≠ VK_SUCCESS ∧ e.presentRes ≠ VK_SUBOPTIMAL_KHR ∧
                e.presentRes ≠ VK_ERROR_OUT_OF_DATE_KHR) ∧ flow = .thrown
            ∨ e.presentRes = VK_SUCCESS ∧ flow = .continues s) :
      RenderPath s e u
        ([acquireEvent s e, .vkWaitForFences fence VK_SUCCESS, .vkResetFences fence VK_SUCCESS,
          .record_commands (recordArgs s u cbuffer framebuffer)
            (some (recordedCommands (recordArgs s u cbuffer framebuffer))),
          submitEvent s e cbuffer fence, presentEvent s e],
         flow)

/-- The locals after a completed recreation that got `window` and `changes`
from `recreate_swapchain` and `framebuffers` from `create_swapchain_framebuffers`. -/
def recreatedState (s : MainState) (window : VulkanWindow) (changes : SwapChanges)
    (framebuffers : List Framebuffer) : MainState :=
  let renderPass : RenderPass :=
    if changes.changedFormat then
      { generation := s.renderPass.generation + 1, format := window.swapchainFormat }
    else s.renderPass
  let extent : VkExtent2D :=
    { width := window.swapchainExtent.width, height := window.swapchainExtent.height }
  { s with
    window := window
    renderPass := renderPass
    depthBuffer :=
      if changes.changedSize then { generation := s.depthBuffer.generation + 1, extent := extent }
      else s.depthBuffer
    framebuffers := framebuffers
    pipe :=
      if changes.changedSize then
        { generation := s.pipe.generation + 1, alpha := false, renderPass := renderPass,
          layout := s.pipeLayout, viewport := extent }
      else s.pipe
    alphaPipe :=
      if changes.changedSize then
        { generation := s.alphaPipe.generation + 1, alpha := true, renderPass := renderPass,
          layout := s.pipeLayout, viewport := extent }
      else s.alphaPipe
    recreateSwapchain := false }

/-- The events of a completed recreation. -/
def recreatedEvents (s : MainState) (window : VulkanWindow) (changes : SwapChanges)
    (framebuffers : List Framebuffer) : List Event :=
  let s' := recreatedState s window changes framebuffers
  [.vkDeviceWaitIdle, .recreate_swapchain (some changes)]
    ++ (if changes.changedFormat then [.create_render_pass (some s'.renderPass)] else [])
    ++ (if changes.changedSize then [.create_depth_buffer (some s'.depthBuffer)] else [])
    ++ [.create_swapchain_framebuffers (some framebuffers)]
    ++ (if changes.changedSize then
          [.create_pipeline (some s'.pipe), .create_alpha_pipeline (some s'.alphaPipe)]
        else [])

/-! ## Sample inputs -/

/-- A window with a chain of three images. -/
def demoWindow : VulkanWindow :=
  { swapchain := { handle := 0 }
    swapchainFormat := 50
    swapchainExtent := { width := 1280, height := 720 }
    swapViews := [{ handle := 0 }, { handle := 1 }, { handle := 2 }] }

/-- The window `demoWindow` after a resize. -/
def demoResized : VulkanWindow :=
  { swapchain := { handle := 1 }
    swapchainFormat := 50
    swapchainExtent := { width := 800, height := 600 }
    swapViews := [{ handle := 3 }, { handle := 4 }, { handle := 5 }] }

def demoScene : Scene :=
  { pipeLayout := { handle := 0 }
    planeMesh := { positions := { handle := 0 }, texcoords := { handle := 1 }, vertexCount := 6 }
    spriteMesh := { positions := { handle := 2 }, texcoords := { handle := 3 }, vertexCount := 6 }
    sceneUBO := { handle := 4 }
    sceneDescriptors := { handle := 0 }
    floorDescriptors := { handle := 1 }
    spriteDescriptors := { handle := 2 } }

/-- An outside world in which the window stays open, every call succeeds,
acquire delivers `imageIndex`, and `recreate_swapchain` (if called) yields
`window` with the report `changes`. -/
def okEnv (window : VulkanWindow) (changes : SwapChanges) (imageIndex : Nat) : IterEnv :=
  { glfwWindowShouldClose := false
    recreated := some (window, changes)
    renderPassRes := VK_SUCCESS
    depthImageRes := VK_SUCCESS
    depthViewRes := VK_SUCCESS
    framebufferRes := fun _ => VK_SUCCESS
    pipeShaders := true
    pipeRes := VK_SUCCESS
    alphaShaders := true
    alphaPipeRes := VK_SUCCESS
    acquireRes := VK_SUCCESS
    imageIndex := imageIndex
    waitRes := VK_SUCCESS
    resetRes := VK_SUCCESS
    beginRes := VK_SUCCESS
    endRes := VK_SUCCESS
    submitRes := VK_SUCCESS
    presentRes := VK_SUCCESS }

/-! ## Reading a trace -/

/-- The two calls at the top of every pass through the body. -/
def loopHead (s : MainState) : List Event :=
  [.glfwPollEvents,
   .update_scene_uniforms s.window.swapchainExtent.width s.window.swapchainExtent.height]

/-- Whether an event is one of the creation calls of a recreation. -/
def Event.isCreation : Event → Bool
  | .create_render_pass _ => true
  | .create_depth_buffer _ => true
  | .create_swapchain_framebuffers _ => true
  | .create_pipeline _ => true
  | .create_alpha_pipeline _ => true
  | _ => false

/-- Whether an event is a call of the frame proper: acquire, fence wait,
fence reset, record, submit or present. -/
def Event.isFrameCall : Event → Bool
  | .vkAcquireNextImageKHR _ _ _ => true
  | .vkWaitForFences _ _ => true
  | .vkResetFences _ _ => true
  | .record_commands _ _ => true
  | .vkQueueSubmit _ _ _ => true
  | .vkQueuePresentKHR _ _ => true
  | _ => false

/-- Whether an event is a `vkAcquireNextImageKHR` call. -/
def Event.isAcquire : Event → Bool
  | .vkAcquireNextImageKHR _ _ _ => true
  | _ => false

/-- A monitor reads a trace from state `q`; `Safe step ok q t` says that `ok`
holds of the monitor state and the event at every event of `t`. -/
def Safe {σ : Type} (step : σ → Event → σ) (ok : σ → Event → Prop) : σ → List Event → Prop
  | _, [] => True
  | q, ev :: t => ok q ev ∧ Safe step ok (step q ev) t

/-- Monitor step counting the submissions with completion fence `f` that are
not known to have finished: a successful `vkQueueSubmit` with fence `f` adds
one, a successful `vkWaitForFences` on `f` tells that all have finished. -/
def pendingStep (f : VkFence) (n : Nat) : Event → Nat
  | .vkQueueSubmit _ f' res => if f' = f ∧ res = VK_SUCCESS then n + 1 else n
  | .vkWaitForFences f' res => if f' = f ∧ res = VK_SUCCESS then 0 else n
  | _ => n

/-- The number of submissions with completion fence `f` in flight after the
trace `t`, every fence starting signaled with nothing submitted. -/
def pending (f : VkFence) (t : List Event) : Nat := t.foldl (pendingStep f) 0

/-- Whether an event is an acquire or a present call that returned
`VK_SUBOPTIMAL_KHR` or `VK_ERROR_OUT_OF_DATE_KHR`, the two results on which
`main` sets `recreateSwapchain`. -/
def Event.setsStale : Event → Bool
  | .vkAcquireNextImageKHR _ res _ =>
    decide (res = VK_SUBOPTIMAL_KHR ∨ res = VK_ERROR_OUT_OF_DATE_KHR)
  | .vkQueuePresentKHR _ res =>
    decide (res = VK_SUBOPTIMAL_KHR ∨ res = VK_ERROR_OUT_OF_DATE_KHR)
  | _ => false

/-- Monitor step following the stale flag along a trace: set by an event
that sets it, cleared by a `recreate_swapchain` call that returned. -/
def staleStep (stale : Bool) (ev : Event) : Bool :=
  if ev.setsStale then true
  else
    match ev with
    | .recreate_swapchain (some _) => false
    | _ => stale

/-- Monitor step for fence `f`: the state says whether `f` has been waited on
with no `vkQueueSubmit` passing `f` as its fence since. -/
def waitedStep (f : VkFence) (waited : Bool) : Event → Bool
  | .vkWaitForFences f' _ => if f' = f then true else waited
  | .vkQueueSubmit _ f' _ => if f' = f then false else waited
  | _ => waited

/-- Whether an event is a `vkWaitForFences` call on fence `f`. -/
def Event.isWaitOn (f : VkFence) : Event → Bool
  | .vkWaitForFences f' _ => decide (f' = f)
  | _ => false

/-- The command buffer and the fence at the same index carry the same handle
number, as they do on entry to the loop. -/
def Paired (s : MainState) : Prop :=
  ∀ (i : Nat) (c : VkCommandBuffer) (g : VkFence),
    s.cbuffers[i]? = some c → s.cbfences[i]? = some g → c.handle = g.handle

/-- What the in-flight monitor for fence `f` checks at an event: at most one
submission is in flight, and none when the event records into the command
buffer that goes with `f`. -/
def recordGuard (f : VkFence) (n : Nat) (ev : Event) : Prop :=
  n ≤ 1 ∧ ∀ (args : RecordArgs) (recorded : Option (List Cmd)),
    ev = .record_commands args recorded →
    args.aCmdBuff.handle = f.handle → n = 0

/-- The arguments with which frames on image 0 of `demoWindow` are recorded. -/
def demoArgs : RecordArgs :=
  recordArgs (startup demoWindow demoScene) ⟨1280, 720⟩ ⟨0⟩
    { renderPass := ⟨0, 50⟩, colorView := ⟨0⟩, depthView := ⟨0, ⟨1280, 720⟩⟩,
      width := 1280, height := 720 }

/-- Four passes in which every call succeeds and acquire delivers images 0, 1, 2, 0. -/
def demoFourFrames : List IterEnv :=
  [okEnv demoWindow ⟨false, false⟩ 0, okEnv demoWindow ⟨false, false⟩ 1,
   okEnv demoWindow ⟨false, false⟩ 2, okEnv demoWindow ⟨false, false⟩ 0]

/-- Whether an event is a `recreate_swapchain` call. -/
def Event.isRecreate : Event → Bool
  | .recreate_swapchain _ => true
  | _ => false

/-- Whether the events of a pass through the body are those of a normal
frame: poll, update of the parameters, then acquire, fence wait, fence reset,
record, submit and present, each returning success. -/
def isNormalFrame : List Event → Bool
  | [.glfwPollEvents, .update_scene_uniforms _ _, .vkAcquireNextImageKHR _ ra _,
     .vkWaitForFences _ rw, .vkResetFences _ rr, .record_commands _ (some _),
     .vkQueueSubmit _ _ rs, .vkQueuePresentKHR _ rp] =>
    decide (ra = VK_SUCCESS ∧ rw = VK_SUCCESS ∧ rr = VK_SUCCESS ∧ rs = VK_SUCCESS ∧
      rp = VK_SUCCESS)
  | _ => false

/-- The events of a pass in which every call succeeds, for the locals `s`,
the acquired index and the objects found at that index. -/
def frameEvents (s : MainState) (imageIndex : Nat) (fence : VkFence)
    (cbuffer : VkCommandBuffer) (framebuffer : Framebuffer) : List Event :=
  let args := recordArgs s
    ⟨s.window.swapchainExtent.width, s.window.swapchainExtent.height⟩ cbuffer framebuffer
  loopHead s ++
    [.vkAcquireNextImageKHR s.imageAvailable VK_SUCCESS imageIndex,
     .vkWaitForFences fence VK_SUCCESS,
     .vkResetFences fence VK_SUCCESS,
     .record_commands args (some (recordedCommands args)),
     .vkQueueSubmit (submitInfo cbuffer s.imageAvailable s.renderFinished) fence VK_SUCCESS,
     .vkQueuePresentKHR (presentInfo s imageIndex) VK_SUCCESS]

/-- Seven passes in which the window stays open and every call succeeds,
except that the acquire of the fifth pass returns `VK_ERROR_OUT_OF_DATE_KHR`;
`recreate_swapchain`, where called, yields `window` and `changes`; `idx k`
is the image index that the acquire of pass `k + 1` delivers. -/
def outOfDateAtFive (window : VulkanWindow) (changes : SwapChanges) (idx : Nat → Nat) :
    List IterEnv :=
  [okEnv window changes (idx 0), okEnv window changes (idx 1), okEnv window changes (idx 2),
   okEnv window changes (idx 3),
   { okEnv window changes (idx 4) with acquireRes := VK_ERROR_OUT_OF_DATE_KHR },
   okEnv window changes (idx 5), okEnv window changes (idx 6)]

/-- The run of the loop entered from `startup window scene` against
`outOfDateAtFive window' changes idx`. -/
def outOfDateRun (window window' : VulkanWindow) (scene : Scene) (changes : SwapChanges)
    (idx : Nat → Nat) : Run :=
  frameLoop (startup window scene) (outOfDateAtFive window' changes idx)

/-- The locals on entry to the loop for `demoWindow`, with the stale flag set. -/
def demoStale : MainState :=
  { startup demoWindow demoScene with recreateSwapchain := true }

/-- Whether an event is a `create_depth_buffer` call. -/
def Event.isDepthBufferCreation : Event → Bool
  | .create_depth_buffer _ => true
  | _ => false

/-- The semaphores an event passes to the driver. -/
def semaphoresOf : Event → List VkSemaphore
  | .vkAcquireNextImageKHR semaphore _ _ => [semaphore]
  | .vkQueueSubmit info _ _ => info.pWaitSemaphores ++ info.pSignalSemaphores
  | .vkQueuePresentKHR info _ => info.pWaitSemaphores
  | _ => []

/-- The semaphores passed to the driver along a trace, in order. -/
def semaphoresUsed (t : List Event) : List VkSemaphore := (t.map semaphoresOf).flatten

/-- An event uses `a` wherever an image-available semaphore goes (given to
acquire, waited on by submit) and `r` wherever a render-finished semaphore
goes (signaled by submit, waited on by present). -/
def usesSemaphores (a r : VkSemaphore) : Event → Prop
  | .vkAcquireNextImageKHR semaphore _ _ => semaphore = a
  | .vkQueueSubmit info _ _ => info.pWaitSemaphores = [a] ∧ info.pSignalSemaphores = [r]
  | .vkQueuePresentKHR info _ => info.pWaitSemaphores = [r]
  | _ => True

/-! ## Reading a recorded command sequence -/

/-- Whether a command is a draw call. -/
def Cmd.isDraw : Cmd → Bool
  | .vkCmdDraw _ _ _ _ => true
  | _ => false

/-- Whether a command is a buffer barrier. -/
def Cmd.isBarrier : Cmd → Bool
  | .buffer_barrier _ _ _ _ _ => true
  | _ => false

/-- Whether a command is an in-band buffer update. -/
def Cmd.isUpdate : Cmd → Bool
  | .vkCmdUpdateBuffer _ _ _ _ => true
  | _ => false

/-- The draw calls of a command sequence, each with the pipeline bound and
whether a render pass is open at that point; `bound` and `inPass` describe
the command buffer before the first command. -/
def drawContexts : Option Pipeline → Bool → List Cmd → List (Cmd × Option Pipeline × Bool)
  | _, _, [] => []
  | bound, inPass, c :: cs =>
    match c with
    | .vkCmdBindPipeline pipeline => drawContexts (some pipeline) inPass cs
    | .vkCmdBeginRenderPass _ _ _ _ => drawContexts bound true cs
    | .vkCmdEndRenderPass => drawContexts bound false cs
    | .vkCmdDraw _ _ _ _ => (c, bound, inPass) :: drawContexts bound inPass cs
    | _ => drawContexts bound inPass cs

/-- The byte counts passed to `vkCmdUpdateBuffer` in a command sequence. -/
def updateSizes : List Cmd → List Nat
  | [] => []
  | .vkCmdUpdateBuffer _ _ dataSize _ :: cs => dataSize :: updateSizes cs
  | _ :: cs => updateSizes cs

/-! ## Matrices of the parameter block (`glm`)

The scalar type `α` stands for `float`; the definitions use only its
arithmetic operations. A `mat4` is stored by columns, as in glm, and
`m.get i j` is the element `m[i][j]`: column `i`, row `j`. -/

/-- A `glm::vec4`. -/
structure vec4 (α : Type) where
  x : α
  y : α
  z : α
  w : α
  deriving DecidableEq, Repr

/-- A `glm::mat4`: four columns. -/
structure mat4 (α : Type) where
  col0 : vec4 α
  col1 : vec4 α
  col2 : vec4 α
  col3 : vec4 α
  deriving DecidableEq, Repr

/-- Component `v[j]`. -/
def vec4.get {α : Type} (v : vec4 α) : Fin 4 → α
  | 0 => v.x
  | 1 => v.y
  | 2 => v.z
  | 3 => v.w

/-- Assignment `v[j] = a`. -/
def vec4.set {α : Type} (v : vec4 α) (j : Fin 4) (a : α) : vec4 α :=
  match j with
  | 0 => { v with x := a }
  | 1 => { v with y := a }
  | 2 => { v with z := a }
  | 3 => { v with w := a }

/-- Column `m[i]`. -/
def mat4.col {α : Type} (m : mat4 α) : Fin 4 → vec4 α
  | 0 => m.col0
  | 1 => m.col1
  | 2 => m.col2
  | 3 => m.col3

/-- Element `m[i][j]`. -/
def mat4.get {α : Type} (m : mat4 α) (i j : Fin 4) : α := (m.col i).get j

/-- Assignment `m[i][j] = a`. -/
def mat4.set {α : Type} (m : mat4 α) (i j : Fin 4) (a : α) : mat4 α :=
  match i with
  | 0 => { m with col0 := m.col0.set j a }
  | 1 => { m with col1 := m.col1.set j a }
  | 2 => { m with col2 := m.col2.set j a }
  | 3 => { m with col3 := m.col3.set j a }

/-- The product `v * s` of a `vec4` and a scalar. -/
def vec4.scale {α : Type} [Mul α] (v : vec4 α) (s : α) : vec4 α :=
  { x := v.x * s, y := v.y * s, z := v.z * s, w := v.w * s }

/-- The sum of two `vec4`. -/
def vec4.add {α : Type} [Add α] (a b : vec4 α) : vec4 α :=
  { x := a.x + b.x, y := a.y + b.y, z := a.z + b.z, w := a.w + b.w }

/-- One column of glm's `operator*` on `mat4`:
`SrcA0 * SrcB[0] + SrcA1 * SrcB[1] + SrcA2 * SrcB[2] + SrcA3 * SrcB[3]`. -/
def mat4.mulCol {α : Type} [Add α] [Mul α] (m1 : mat4 α) (b : vec4 α) : vec4 α :=
  (((m1.col0.scale b.x).add (m1.col1.scale b.y)).add (m1.col2.scale b.z)).add
    (m1.col3.scale b.w)

/-- The library function `operator*` of glm on two `mat4`. -/
def mat4.mul {α : Type} [Add α] [Mul α] (m1 m2 : mat4 α) : mat4 α :=
  { col0 := m1.mulCol m2.col0, col1 := m1.mulCol m2.col1,
    col2 := m1.mulCol m2.col2, col3 := m1.mulCol m2.col3 }

/-- The matrix `mat4(s)` of glm: `s` on the diagonal, zero elsewhere. -/
def mat4.diagonal {α : Type} [Zero α] (s : α) : mat4 α :=
  { col0 := { x := s, y := 0, z := 0, w := 0 }
    col1 := { x := 0, y := s, z := 0, w := 0 }
    col2 := { x := 0, y := 0, z := s, w := 0 }
    col3 := { x := 0, y := 0, z := 0, w := s } }

/-- The mathematical matrix of a `mat4`: entry at row `r`, column `c` is `m[c][r]`. -/
def mat4.toMatrix {α : Type} (m : mat4 α) : Matrix (Fin 4) (Fin 4) α :=
  fun r c => m.get c r

/-- The library function `glm::perspectiveRH_ZO(fovy, aspect, zNear, zFar)`;
`tan` is the tangent function of the math library. -/
def perspectiveRH_ZO {α : Type} [Zero α] [One α] [Sub α] [Mul α] [Div α] [Neg α] [NatCast α]
    (tan : α → α) (fovy aspect zNear zFar : α) : mat4 α :=
  let tanHalfFovy := tan (fovy / ((2 : Nat) : α))
  let Result : mat4 α := mat4.diagonal 0
  let Result := Result.set 0 0 (1 / (aspect * tanHalfFovy))
  let Result := Result.set 1 1 (1 / tanHalfFovy)
  let Result := Result.set 2 2 (zFar / (zNear - zFar))
  let Result := Result.set 2 3 (-1)
  let Result := Result.set 3 2 (-(zFar * zNear) / (zFar - zNear))
  Result

/-- The library function `glm::translate(v)` for `v = (v0, v1, v2)`:
`translate(mat4(1), v)`, which replaces column 3 of `m = mat4(1)` by
`m[0] * v[0] + m[1] * v[1] + m[2] * v[2] + m[3]`. -/
def translate {α : Type} [Zero α] [One α] [Add α] [Mul α] (v0 v1 v2 : α) : mat4 α :=
  let m : mat4 α := mat4.diagonal 1
  { m with col3 := (((m.col0.scale v0).add (m.col1.scale v1)).add (m.col2.scale v2)).add m.col3 }

/-- The struct `glsl::SceneUniform`. -/
structure SceneUniform (α : Type) where
  camera : mat4 α
  projection : mat4 α
  projCam : mat4 α
  deriving DecidableEq, Repr

/-- What `update_scene_uniforms` takes from outside the repository's sources. -/
structure CameraMath (α : Type) where
  /-- The value of `lut::Radians(cfg::kCameraFov).value()`. -/
  kCameraFovRadians : α
  /-- The tangent function of the math library. -/
  tan : α → α

/-- The constant `cfg::kCameraNear`. -/
def kCameraNear {α : Type} [OfScientific α] : α := 0.1

/-- The constant `cfg::kCameraFar`. -/
def kCameraFar {α : Type} [OfScientific α] : α := 100.0

/-- The value of `aFramebufferWidth / float(aFramebufferHeight)`. -/
def aspectRatio {α : Type} [NatCast α] [Div α] (aFramebufferWidth aFramebufferHeight : Nat) : α :=
  (aFramebufferWidth : α) / (aFramebufferHeight : α)

/-- The function `update_scene_uniforms`: the block after the call, from the
block `aSceneUniforms` before it. -/
def update_scene_uniforms {α : Type} [Zero α] [One α] [Add α] [Sub α] [Mul α] [Div α] [Neg α]
    [NatCast α] [OfScientific α] (math : CameraMath α) (aSceneUniforms : SceneUniform α)
    (aFramebufferWidth aFramebufferHeight : Nat) : SceneUniform α :=
  let aspect : α := aspectRatio aFramebufferWidth aFramebufferHeight
  let u := { aSceneUniforms with
    projection := perspectiveRH_ZO math.tan math.kCameraFovRadians aspect kCameraNear kCameraFar }
  -- aSceneUniforms.projection[1][1] *= -1.f;
  let u := { u with projection := u.projection.set 1 1 (u.projection.get 1 1 * (-1)) }
  let u := { u with camera := translate 0 (-(0.3 : α)) (-1) }
  { u with projCam := u.projection.mul u.camera }

/-- A stand-in for the math library over the rationals: a field of view of
about sixty degrees and a tangent function that is constant at about the
tangent of thirty degrees. -/
def demoMath : CameraMath ℚ :=
  { kCameraFovRadians := 1047 / 1000, tan := fun _ => 577 / 1000 }

/-- A parameter block with all entries zero, as `glsl::SceneUniform sceneUniforms{}`. -/
def zeroUniform : SceneUniform ℚ :=
  { camera := mat4.diagonal 0, projection := mat4.diagonal 0, projCam := mat4.diagonal 0 }

/-! ## Counting frames per slot -/

/-- The framebuffer at index `i` of the locals (a framebuffer for image
view 0 of zero size where there is none). -/
def MainState.framebufferAt (s : MainState) (i : Nat) : Framebuffer :=
  s.framebuffers.getD i
    { renderPass := s.renderPass, colorView := ⟨0⟩, depthView := s.depthBuffer,
      width := 0, height := 0 }

/-- Whether an event is a `vkQueueSubmit` call that returned success. -/
def Event.isSubmitted : Event → Bool
  | .vkQueueSubmit _ _ res => decide (res = VK_SUCCESS)
  | _ => false

/-- Whether an event is a successful `vkQueueSubmit` of exactly the command
buffer with handle `i`, with the fence with handle `i`. -/
def Event.isSubmittedOn (i : Nat) : Event → Bool
  | .vkQueueSubmit info fence res =>
    decide (info.pCommandBuffers = [⟨i⟩] ∧ fence = ⟨i⟩ ∧ res = VK_SUCCESS)
  | _ => false

/-- Ten passes in which the window stays open, every call succeeds and
acquire delivers the image indices in rotation 0, 1, 2, 0, ... -/
def tenFrames (window : VulkanWindow) (changes : SwapChanges) : List IterEnv :=
  [0, 1, 2, 0, 1, 2, 0, 1, 2, 0].map (okEnv window changes)

/-! ## The whole of `main` -/

/-- The calls of `main` before the loop that can throw, in source order;
`alloc_command_buffer i` and `create_fence i` are the calls of pass `i` of
the loop over the framebuffers. -/
inductive StartupCall
  | make_vulkan_window
  | create_allocator
  | create_render_pass
  | create_scene_descriptor_layout
  | create_object_descriptor_layout
  | create_pipeline_layout
  | create_pipeline
  | create_alpha_pipeline
  | create_depth_buffer
  | create_swapchain_framebuffers
  | create_command_pool
  | alloc_command_buffer (i : Nat)
  | create_fence (i : Nat)
  | create_semaphore_imageAvailable
  | create_semaphore_renderFinished
  | create_plane_mesh
  | create_sprite_mesh
  | create_buffer_sceneUBO
  | create_descriptor_pool
  | alloc_desc_set_scene
  | create_command_pool_floor
  | load_image_texture2d_floor
  | create_image_view_texture2d_floor
  | create_default_sampler
  | alloc_desc_set_floor
  | create_command_pool_sprite
  | load_image_texture2d_sprite
  | create_image_view_texture2d_sprite
  | alloc_desc_set_sprite
  deriving DecidableEq, Repr

/-- The calls of the loop `for( i = 0; i < framebuffers.size(); ++i )`, from pass `i` on,
with `n` passes left. -/
def slotCalls : Nat → Nat → List StartupCall
  | _, 0 => []
  | i, n + 1 => .alloc_command_buffer i :: .create_fence i :: slotCalls (i + 1) n

/-- The calls of `main` before the loop, for `n` framebuffers. -/
def startupCalls (n : Nat) : List StartupCall :=
  [.make_vulkan_window, .create_allocator, .create_render_pass,
   .create_scene_descriptor_layout, .create_object_descriptor_layout,
   .create_pipeline_layout, .create_pipeline, .create_alpha_pipeline,
   .create_depth_buffer, .create_swapchain_framebuffers, .create_command_pool]
  ++ slotCalls 0 n ++
  [.create_semaphore_imageAvailable, .create_semaphore_renderFinished,
   .create_plane_mesh, .create_sprite_mesh, .create_buffer_sceneUBO,
   .create_descriptor_pool, .alloc_desc_set_scene,
   .create_command_pool_floor, .load_image_texture2d_floor,
   .create_image_view_texture2d_floor, .create_default_sampler, .alloc_desc_set_floor,
   .create_command_pool_sprite, .load_image_texture2d_sprite,
   .create_image_view_texture2d_sprite, .alloc_desc_set_sprite]

/-- What the outside world decides before the loop: the window that
`make_vulkan_window` yields, the objects made for the scene, and for each
call whether it returns (`true`) or throws (`false`). -/
structure StartupEnv where
  window : VulkanWindow
  scene : Scene
  returns : StartupCall → Bool

/-- What `main` does, seen from outside. -/
inductive MainEvent
  /-- A call before the loop, and whether it returned. -/
  | startup (call : StartupCall) (returned : Bool)
  /-- A call made by the loop body. -/
  | loop (ev : Event)
  /-- The `vkDeviceWaitIdle` call after the loop. -/
  | vkDeviceWaitIdle
  /-- The destructors of the locals of `main` run: on `return`, or while the
  stack is unwound for an exception, before the handler is entered. -/
  | destructors
  /-- The handler of the function-try-block prints the error. -/
  | handler
  deriving DecidableEq, Repr

/-- A run of `main`: its events and its exit status (`none` while the loop
is still going and when an `assert` aborted the program). -/
structure MainRun where
  trace : List MainEvent
  status : Option Nat
  deriving DecidableEq, Repr

/-- The calls before the loop up to and including the first that throws,
and whether all returned. -/
def runStartup (returns : StartupCall → Bool) : List StartupCall → List MainEvent × Bool
  | [] => ([], true)
  | c :: cs =>
    if returns c then
      let r := runStartup returns cs
      (.startup c true :: r.1, r.2)
    else ([.startup c false], false)

/-- The function `main`. -/
def main (se : StartupEnv) (envs : List IterEnv) : MainRun :=
  let pre := runStartup se.returns (startupCalls se.window.swapViews.length)
  if pre.2 = false then
    -- catch( std::exception const& eErr ) { ...; return 1; }
    { trace := pre.1 ++ [.destructors, .handler], status := some 1 }
  else
    let r := frameLoop (startup se.window se.scene) envs
    let t := pre.1 ++ r.trace.map .loop
    match r.outcome with
    | .running => { trace := t, status := none }
    | .closed =>
      -- vkDeviceWaitIdle( window.device ); return 0;
      { trace := t ++ [.vkDeviceWaitIdle, .destructors], status := some 0 }
    | .error =>
      -- catch( std::exception const& eErr ) { ...; return 1; }
      { trace := t ++ [.destructors, .handler], status := some 1 }
    | .assertFailed => { trace := t, status := none }

/-- Whether an event is a call whose result makes `main` throw: a creation
or `recreate_swapchain` that did not return, an acquire or present with a
result other than success, suboptimal and out-of-date, a fence wait, fence
reset or submit with a result other than success, a `record_commands` whose
begin or end of the command buffer failed. -/
def Event.raises : Event → Bool
  | .recreate_swapchain none => true
  | .create_render_pass none => true
  | .create_depth_buffer none => true
  | .create_swapchain_framebuffers none => true
  | .create_pipeline none => true
  | .create_alpha_pipeline none => true
  | .vkAcquireNextImageKHR _ res _ =>
    decide (res ≠ VK_SUCCESS ∧ res ≠ VK_SUBOPTIMAL_KHR ∧ res ≠ VK_ERROR_OUT_OF_DATE_KHR)
  | .vkWaitForFences _ res => decide (res ≠ VK_SUCCESS)
  | .vkResetFences _ res => decide (res ≠ VK_SUCCESS)
  | .record_commands _ none => true
  | .vkQueueSubmit _ _ res => decide (res ≠ VK_SUCCESS)
  | .vkQueuePresentKHR _ res =>
    decide (res ≠ VK_SUCCESS ∧ res ≠ VK_SUBOPTIMAL_KHR ∧ res ≠ VK_ERROR_OUT_OF_DATE_KHR)
  | _ => false

/-- Whether an event of `main` is a call that raised an error. -/
def MainEvent.raises : MainEvent → Bool
  | .startup _ returned => !returned
  | .loop ev => ev.raises
  | _ => false

/-- Whether an event of `main` is a call made before or by the loop. -/
def MainEvent.isCall : MainEvent → Bool
  | .startup _ _ => true
  | .loop _ => true
  | .vkDeviceWaitIdle => true
  | _ => false

/-- The events of a pass or run in which the last call raised an error and
no earlier one did. -/
def RaisedLast (t : List Event) : Prop :=
  t.getLast?.map Event.raises = some true ∧ ∀ x ∈ t.dropLast, x.raises = false

/-- Whether, in a trace of `main`, no call follows the first call that
raised an error. -/
def quietAfterRaise : List MainEvent → Bool
  | [] => true
  | ev :: t => if ev.raises then t.all (fun x => !x.isCall) else quietAfterRaise t

/-- Whether, in a trace of `main`, every run of the destructors finds the
device idle: `synced` says that a `vkDeviceWaitIdle` has returned since the
last successful `vkQueueSubmit` (or that nothing was submitted yet). -/
def syncedAtTeardown : Bool → List MainEvent → Bool
  | _, [] => true
  | synced, ev :: t =>
    match ev with
    | .loop (.vkQueueSubmit _ _ res) =>
      syncedAtTeardown (if res = VK_SUCCESS then false else synced) t
    | .loop .vkDeviceWaitIdle => syncedAtTeardown true t
    | .vkDeviceWaitIdle => syncedAtTeardown true t
    | .destructors => synced && syncedAtTeardown synced t
    | _ => syncedAtTeardown synced t

def VK_ERROR_SURFACE_LOST_KHR : VkResult := -1000000000

/-- A start in which every call before the loop returns, for `demoWindow`. -/
def demoStartup : StartupEnv :=
  { window := demoWindow, scene := demoScene, returns := fun _ => true }

/-- A start in which `create_pipeline` throws. -/
def demoStartupFails : StartupEnv :=
  { window := demoWindow, scene := demoScene,
    returns := fun c => decide (c ≠ .create_pipeline) }

/-- One frame on image 0, then an acquire that returns `VK_ERROR_SURFACE_LOST_KHR`. -/
def surfaceLostAfterFrame : List IterEnv :=
  [okEnv demoWindow ⟨false, false⟩ 0,
   { okEnv demoWindow ⟨false, false⟩ 1 with acquireRes := VK_ERROR_SURFACE_LOST_KHR }]

/-- One frame on image 0, then the window is closed. -/
def closedAfterFrame : List IterEnv :=
  [okEnv demoWindow ⟨false, false⟩ 0,
   { okEnv demoWindow ⟨false, false⟩ 1 with glfwWindowShouldClose := true }]


/-! ## Mesh data (`vertex_data.cpp`) -/

/-- The value of `sizeof(float)`. -/
def sizeof_float : Nat := 4

/-- The value of `sizeof` applied to a static `float` array with the given elements. -/
def sizeof_floats (a : List ℚ) : Nat := a.length * sizeof_float

/-- The array `positions` of `create_triangle_mesh`. -/
def create_triangle_mesh_positions : List ℚ :=
  [0.0, -0.8,
   -0.7, 0.8,
   0.7, 0.8]

/-- The array `colors` of `create_triangle_mesh`. -/
def create_triangle_mesh_colors : List ℚ :=
  [0, 0, 1,
   1, 0, 0,
   0, 1, 0]

/-- The array `positions` of `create_plane_mesh`. -/
def create_plane_mesh_positions : List ℚ :=
  [-1, 0, -6,
   -1, 0, 6,
   1, 0, 6,
   -1, 0, -6,
   1, 0, 6,
   1, 0, -6]

/-- The array `texcoord` of `create_plane_mesh`. -/
def create_plane_mesh_texcoord : List ℚ :=
  [0, -6,
   0, 6,
   1, 6,
   0, -6,
   1, 6,
   1, -6]

/-- The array `positions` of `create_sprite_mesh`. -/
def create_sprite_mesh_positions : List ℚ :=
  [-1.5, 1.5, -4,
   -1.5, -0.5, -4,
   1.5, -0.5, -4,
   -1.5, 1.5, -4,
   1.5, -0.5, -4,
   1.5, 1.5, -4]

/-- The array `texcoord` of `create_sprite_mesh`. -/
def create_sprite_mesh_texcoord : List ℚ :=
  [0, 1,
   0, 0,
   1, 0,
   0, 1,
   1, 0,
   1, 1]

/-- A mesh as returned by `create_triangle_mesh`. -/
structure ColorizedMesh where
  positions : VkBuffer
  colors : VkBuffer
  vertexCount : Nat
  deriving DecidableEq, Repr

/-- The function `create_triangle_mesh`. `uploaded` says whether every Vulkan
call of the upload returned success (the function throws otherwise);
`vertexPosGPU` and `vertexColGPU` are the two buffers it creates. -/
def create_triangle_mesh (uploaded : Bool) (vertexPosGPU vertexColGPU : VkBuffer) :
    Option ColorizedMesh :=
  if uploaded = false then none
  else some { positions := vertexPosGPU, colors := vertexColGPU,
              vertexCount := sizeof_floats create_triangle_mesh_positions / sizeof_float / 3 }

/-- The function `create_plane_mesh`, with the parameters of `create_triangle_mesh`. -/
def create_plane_mesh (uploaded : Bool) (vertexPosGPU vertexColGPU : VkBuffer) :
    Option TexturedMesh :=
  if uploaded = false then none
  else some { positions := vertexPosGPU, texcoords := vertexColGPU,
              vertexCount := sizeof_floats create_plane_mesh_positions / sizeof_float / 3 }

/-- The function `create_sprite_mesh`, with the parameters of `create_triangle_mesh`. -/
def create_sprite_mesh (uploaded : Bool) (vertexPosGPU vertexColGPU : VkBuffer) :
    Option TexturedMesh :=
  if uploaded = false then none
  else some { positions := vertexPosGPU, texcoords := vertexColGPU,
              vertexCount := sizeof_floats create_sprite_mesh_positions / sizeof_float / 3 }


/-! ## Recreations that change the chain -/

/-- The window `demoWindow` after a resize that left the chain with four images. -/
def demoFourImages : VulkanWindow :=
  { swapchain := { handle := 1 }
    swapchainFormat := 50
    swapchainExtent := { width := 800, height := 600 }
    swapViews := [{ handle := 3 }, { handle := 4 }, { handle := 5 }, { handle := 6 }] }

/-- Three passes: the acquire of the first returns `VK_ERROR_OUT_OF_DATE_KHR`;
in the second `recreate_swapchain` yields `demoFourImages` and reports a
changed size; the acquire of the third delivers image 3. Every other call
succeeds. -/
def fourthImageAcquired : List IterEnv :=
  [{ okEnv demoFourImages ⟨true, false⟩ 0 with acquireRes := VK_ERROR_OUT_OF_DATE_KHR },
   okEnv demoFourImages ⟨true, false⟩ 0,
   okEnv demoFourImages ⟨true, false⟩ 3]

/-- The window `demoWindow` after a recreation that changed the format of the
images and left their size as it was. -/
def demoReformatted : VulkanWindow :=
  { swapchain := { handle := 1 }
    swapchainFormat := 44
    swapchainExtent := { width := 1280, height := 720 }
    swapViews := [{ handle := 3 }, { handle := 4 }, { handle := 5 }] }

/-- Three passes: the acquire of the first returns `VK_ERROR_OUT_OF_DATE_KHR`;
in the second `recreate_swapchain` yields `demoReformatted` and reports a
changed format and an unchanged size; the third is a frame on image 0. Every
other call succeeds. -/
def formatChanged : List IterEnv :=
  [{ okEnv demoReformatted ⟨false, true⟩ 0 with acquireRes := VK_ERROR_OUT_OF_DATE_KHR },
   okEnv demoReformatted ⟨false, true⟩ 0,
   okEnv demoReformatted ⟨false, true⟩ 0]

/-- For a `record_commands` call: the render pass passed to it, and the
render passes against which the two pipelines passed to it were created. -/
def recordedRenderPasses : Event → Option (RenderPass × RenderPass × RenderPass)
  | .record_commands args _ =>
    some (args.aRenderPass, args.aGraphicsPipe.renderPass, args.aAlphaPipeline.renderPass)
  | _ => none

/-! ## The image-available semaphore -/

instance Safe.decidable {σ : Type} (step : σ → Event → σ) (ok : σ → Event → Prop)
    [∀ q ev, Decidable (ok q ev)] : ∀ q t, Decidable (Safe step ok q t)
  | _, [] => isTrue trivial
  | q, ev :: t =>
    have := Safe.decidable step ok (step q ev) t
    inferInstanceAs (Decidable (ok q ev ∧ Safe step ok (step q ev) t))

/-- Monitor step for semaphore `a`: the state says whether `a` has been
signaled, or is going to be, with no wait on it since. An acquire that is
given `a` and delivers an image (`VK_SUCCESS` or `VK_SUBOPTIMAL_KHR`) signals
it; a submission that was accepted and waits on `a` unsignals it. -/
def signaledStep (a : VkSemaphore) (signaled : Bool) : Event → Bool
  | .vkAcquireNextImageKHR semaphore res _ =>
    if semaphore = a ∧ (res = VK_SUCCESS ∨ res = VK_SUBOPTIMAL_KHR) then true else signaled
  | .vkQueueSubmit info _ res =>
    if a ∈ info.pWaitSemaphores ∧ res = VK_SUCCESS then false else signaled
  | _ => signaled

/-- What the monitor for a semaphore checks at an event: an acquire call
finds the semaphore unsignaled. -/
def unsignaledAtAcquire (signaled : Bool) (ev : Event) : Prop :=
  ev.isAcquire = true → signaled = false

instance unsignaledAtAcquire.decidable (signaled : Bool) (ev : Event) :
    Decidable (unsignaledAtAcquire signaled ev) :=
  inferInstanceAs (Decidable (ev.isAcquire = true → signaled = false))

/-- Three passes: the acquire of the first returns `VK_SUBOPTIMAL_KHR`; the
second is the recreation, yielding `demoResized`; the third is a frame on
image 0. Every other call succeeds. -/
def suboptimalAcquire : List IterEnv :=
  [{ okEnv demoResized ⟨true, false⟩ 0 with acquireRes := VK_SUBOPTIMAL_KHR },
   okEnv demoResized ⟨true, false⟩ 0,
   okEnv demoResized ⟨true, false⟩ 0]


/-! ## Pipeline descriptions (`create_pipeline`, `create_alpha_pipeline`)

The structures carry the members that the two functions assign, and for the
blend state of the colour attachment all members; a member that the source
leaves out of a structure it value-initialises (`{}`) holds the zero of its
type, which for the enumerations below is the first constructor. -/

inductive VkShaderStageFlagBits
  | VK_SHADER_STAGE_VERTEX_BIT
  | VK_SHADER_STAGE_FRAGMENT_BIT
  deriving DecidableEq, Repr

inductive VkVertexInputRate
  | VK_VERTEX_INPUT_RATE_VERTEX
  | VK_VERTEX_INPUT_RATE_INSTANCE
  deriving DecidableEq, Repr

inductive VkFormat
  | VK_FORMAT_R32G32_SFLOAT
  | VK_FORMAT_R32G32B32_SFLOAT
  deriving DecidableEq, Repr

inductive VkPrimitiveTopology
  | VK_PRIMITIVE_TOPOLOGY_POINT_LIST
  | VK_PRIMITIVE_TOPOLOGY_LINE_LIST
  | VK_PRIMITIVE_TOPOLOGY_LINE_STRIP
  | VK_PRIMITIVE_TOPOLOGY_TRIANGLE_LIST
  deriving DecidableEq, Repr

inductive VkPolygonMode
  | VK_POLYGON_MODE_FILL
  | VK_POLYGON_MODE_LINE
  | VK_POLYGON_MODE_POINT
  deriving DecidableEq, Repr

inductive VkCullModeFlagBits
  | VK_CULL_MODE_NONE
  | VK_CULL_MODE_FRONT_BIT
  | VK_CULL_MODE_BACK_BIT
  deriving DecidableEq, Repr

inductive VkFrontFace
  | VK_FRONT_FACE_COUNTER_CLOCKWISE
  | VK_FRONT_FACE_CLOCKWISE
  deriving DecidableEq, Repr

inductive VkSampleCountFlagBits
  | VK_SAMPLE_COUNT_1_BIT
  deriving DecidableEq, Repr

inductive VkCompareOp
  | VK_COMPARE_OP_NEVER
  | VK_COMPARE_OP_LESS
  | VK_COMPARE_OP_EQUAL
  | VK_COMPARE_OP_LESS_OR_EQUAL
  deriving DecidableEq, Repr

inductive VkBlendFactor
  | VK_BLEND_FACTOR_ZERO
  | VK_BLEND_FACTOR_ONE
  | VK_BLEND_FACTOR_SRC_COLOR
  | VK_BLEND_FACTOR_ONE_MINUS_SRC_COLOR
  | VK_BLEND_FACTOR_DST_COLOR
  | VK_BLEND_FACTOR_ONE_MINUS_DST_COLOR
  | VK_BLEND_FACTOR_SRC_ALPHA
  | VK_BLEND_FACTOR_ONE_MINUS_SRC_ALPHA
  deriving DecidableEq, Repr

inductive VkBlendOp
  | VK_BLEND_OP_ADD
  | VK_BLEND_OP_SUBTRACT
  deriving DecidableEq, Repr

inductive VkColorComponentFlagBits
  | VK_COLOR_COMPONENT_R_BIT
  | VK_COLOR_COMPONENT_G_BIT
  | VK_COLOR_COMPONENT_B_BIT
  | VK_COLOR_COMPONENT_A_BIT
  deriving DecidableEq, Repr

/-- The constant `SHADERDIR_` of namespace `cfg`. -/
def SHADERDIR_ : String := "assets/exercise4/shaders/"

def kVertShaderPath : String := SHADERDIR_ ++ "shaderTex.vert.spv"

def kFragShaderPath : String := SHADERDIR_ ++ "shaderTex.frag.spv"

def kAlphaVertShaderPath : String := SHADERDIR_ ++ "shaderTex.vert.spv"

def kAlphaFragShaderPath : String := SHADERDIR_ ++ "shaderTexAlpha.frag.spv"

/-- A shader stage; `module` is the path from which `lut::load_shader_module`
loaded the module. -/
structure VkPipelineShaderStageCreateInfo where
  stage : VkShaderStageFlagBits
  module : String
  pName : String
  deriving DecidableEq, Repr

structure VkVertexInputBindingDescription where
  binding : Nat
  stride : Nat
  inputRate : VkVertexInputRate
  deriving DecidableEq, Repr

structure VkVertexInputAttributeDescription where
  binding : Nat
  location : Nat
  format : VkFormat
  offset : Nat
  deriving DecidableEq, Repr

structure VkPipelineVertexInputStateCreateInfo where
  vertexBindingDescriptionCount : Nat
  pVertexBindingDescriptions : List VkVertexInputBindingDescription
  vertexAttributeDescriptionCount : Nat
  pVertexAttributeDescriptions : List VkVertexInputAttributeDescription
  deriving DecidableEq, Repr

structure VkPipelineInputAssemblyStateCreateInfo where
  topology : VkPrimitiveTopology
  primitiveRestartEnable : Bool
  deriving DecidableEq, Repr

/-- A `VkViewport`. The members `width` and `height` hold the integers that
the source converts with `float( ... )`; the other members hold the `float`
constants of the source, all of them whole numbers. -/
structure VkViewport where
  x : Nat
  y : Nat
  width : Nat
  height : Nat
  minDepth : Nat
  maxDepth : Nat
  deriving DecidableEq, Repr

structure VkRect2D where
  offset : Int × Int
  extent : VkExtent2D
  deriving DecidableEq, Repr

structure VkPipelineViewportStateCreateInfo where
  viewportCount : Nat
  pViewports : List VkViewport
  scissorCount : Nat
  pScissors : List VkRect2D
  deriving DecidableEq, Repr

/-- The rasterization state; `lineWidth` holds the `float` constant of the
source, a whole number. -/
structure VkPipelineRasterizationStateCreateInfo where
  depthClampEnable : Bool
  rasterizerDiscardEnable : Bool
  polygonMode : VkPolygonMode
  cullMode : VkCullModeFlagBits
  frontFace : VkFrontFace
  depthBiasEnable : Bool
  lineWidth : Nat
  deriving DecidableEq, Repr

structure VkPipelineMultisampleStateCreateInfo where
  rasterizationSamples : VkSampleCountFlagBits
  deriving DecidableEq, Repr

/-- The depth state; the two bounds hold the `float` constants of the
source, whole numbers. -/
structure VkPipelineDepthStencilStateCreateInfo where
  depthTestEnable : Bool
  depthWriteEnable : Bool
  depthCompareOp : VkCompareOp
  minDepthBounds : Nat
  maxDepthBounds : Nat
  deriving DecidableEq, Repr

/-- All members of `VkPipelineColorBlendAttachmentState`; `colorWriteMask`
lists the bits that are or-ed together. -/
structure VkPipelineColorBlendAttachmentState where
  blendEnable : Bool
  srcColorBlendFactor : VkBlendFactor
  dstColorBlendFactor : VkBlendFactor
  colorBlendOp : VkBlendOp
  srcAlphaBlendFactor : VkBlendFactor
  dstAlphaBlendFactor : VkBlendFactor
  alphaBlendOp : VkBlendOp
  colorWriteMask : List VkColorComponentFlagBits
  deriving DecidableEq, Repr

structure VkPipelineColorBlendStateCreateInfo where
  logicOpEnable : Bool
  attachmentCount : Nat
  pAttachments : List VkPipelineColorBlendAttachmentState
  deriving DecidableEq, Repr

/-- The description passed to `vkCreateGraphicsPipelines`. The members
`pTessellationState` and `pDynamicState`, which both functions set to
`nullptr`, say whether such a state is given. -/
structure VkGraphicsPipelineCreateInfo where
  stageCount : Nat
  pStages : List VkPipelineShaderStageCreateInfo
  pVertexInputState : VkPipelineVertexInputStateCreateInfo
  pInputAssemblyState : VkPipelineInputAssemblyStateCreateInfo
  pTessellationState : Bool
  pViewportState : VkPipelineViewportStateCreateInfo
  pRasterizationState : VkPipelineRasterizationStateCreateInfo
  pMultisampleState : VkPipelineMultisampleStateCreateInfo
  pDepthStencilState : VkPipelineDepthStencilStateCreateInfo
  pColorBlendState : VkPipelineColorBlendStateCreateInfo
  pDynamicState : Bool
  layout : VkPipelineLayout
  renderPass : RenderPass
  subpass : Nat
  deriving DecidableEq, Repr

/-- The local `pipeInfo` of `create_pipeline` at the call of
`vkCreateGraphicsPipelines`. -/
def create_pipeline_pipeInfo (aWindow : VulkanWindow) (aRenderPass : RenderPass)
    (aPipelineLayout : VkPipelineLayout) : VkGraphicsPipelineCreateInfo :=
  let vert := kVertShaderPath
  let frag := kFragShaderPath
  let depthInfo : VkPipelineDepthStencilStateCreateInfo :=
    { depthTestEnable := true
      depthWriteEnable := true
      depthCompareOp := .VK_COMPARE_OP_LESS_OR_EQUAL
      minDepthBounds := 0
      maxDepthBounds := 1 }
  let stages : List VkPipelineShaderStageCreateInfo :=
    [{ stage := .VK_SHADER_STAGE_VERTEX_BIT, module := vert, pName := "main" },
     { stage := .VK_SHADER_STAGE_FRAGMENT_BIT, module := frag, pName := "main" }]
  let vertexInputs : List VkVertexInputBindingDescription :=
    [{ binding := 0, stride := sizeof_float * 3, inputRate := .VK_VERTEX_INPUT_RATE_VERTEX },
     { binding := 1, stride := sizeof_float * 2, inputRate := .VK_VERTEX_INPUT_RATE_VERTEX }]
  let vertexAttributes : List VkVertexInputAttributeDescription :=
    [{ binding := 0, location := 0, format := .VK_FORMAT_R32G32B32_SFLOAT, offset := 0 },
     { binding := 1, location := 1, format := .VK_FORMAT_R32G32_SFLOAT, offset := 0 }]
  let inputInfo : VkPipelineVertexInputStateCreateInfo :=
    { vertexBindingDescriptionCount := 2
      pVertexBindingDescriptions := vertexInputs
      vertexAttributeDescriptionCount := 2
      pVertexAttributeDescriptions := vertexAttributes }
  let assemblyInfo : VkPipelineInputAssemblyStateCreateInfo :=
    { topology := .VK_PRIMITIVE_TOPOLOGY_TRIANGLE_LIST, primitiveRestartEnable := false }
  let viewport : VkViewport :=
    { x := 0, y := 0
      width := aWindow.swapchainExtent.width
      height := aWindow.swapchainExtent.height
      minDepth := 0, maxDepth := 1 }
  let scissor : VkRect2D :=
    { offset := (0, 0)
      extent := { width := aWindow.swapchainExtent.width,
                  height := aWindow.swapchainExtent.height } }
  let viewportInfo : VkPipelineViewportStateCreateInfo :=
    { viewportCount := 1, pViewports := [viewport], scissorCount := 1, pScissors := [scissor] }
  let rasterInfo : VkPipelineRasterizationStateCreateInfo :=
    { depthClampEnable := false
      rasterizerDiscardEnable := false
      polygonMode := .VK_POLYGON_MODE_FILL
      cullMode := .VK_CULL_MODE_BACK_BIT
      frontFace := .VK_FRONT_FACE_COUNTER_CLOCKWISE
      depthBiasEnable := false
      lineWidth := 1 }
  let samplingInfo : VkPipelineMultisampleStateCreateInfo :=
    { rasterizationSamples := .VK_SAMPLE_COUNT_1_BIT }
  let blendStates : List VkPipelineColorBlendAttachmentState :=
    [{ blendEnable := false
       srcColorBlendFactor := .VK_BLEND_FACTOR_ZERO
       dstColorBlendFactor := .VK_BLEND_FACTOR_ZERO
       colorBlendOp := .VK_BLEND_OP_ADD
       srcAlphaBlendFactor := .VK_BLEND_FACTOR_ZERO
       dstAlphaBlendFactor := .VK_BLEND_FACTOR_ZERO
       alphaBlendOp := .VK_BLEND_OP_ADD
       colorWriteMask := [.VK_COLOR_COMPONENT_R_BIT, .VK_COLOR_COMPONENT_G_BIT,
                          .VK_COLOR_COMPONENT_B_BIT, .VK_COLOR_COMPONENT_A_BIT] }]
  let blendInfo : VkPipelineColorBlendStateCreateInfo :=
    { logicOpEnable := false, attachmentCount := 1, pAttachments := blendStates }
  { stageCount := 2
    pStages := stages
    pVertexInputState := inputInfo
    pInputAssemblyState := assemblyInfo
    pTessellationState := false
    pViewportState := viewportInfo
    pRasterizationState := rasterInfo
    pMultisampleState := samplingInfo
    pDepthStencilState := depthInfo
    pColorBlendState := blendInfo
    pDynamicState := false
    layout := aPipelineLayout
    renderPass := aRenderPass
    subpass := 0 }

/-- The local `pipeInfo` of `create_alpha_pipeline` at the call of
`vkCreateGraphicsPipelines`. -/
def create_alpha_pipeline_pipeInfo (aWindow : VulkanWindow) (aRenderPass : RenderPass)
    (aPipelineLayout : VkPipelineLayout) : VkGraphicsPipelineCreateInfo :=
  let vert := kAlphaVertShaderPath
  let frag := kAlphaFragShaderPath
  let depthInfo : VkPipelineDepthStencilStateCreateInfo :=
    { depthTestEnable := true
      depthWriteEnable := true
      depthCompareOp := .VK_COMPARE_OP_LESS_OR_EQUAL
      minDepthBounds := 0
      maxDepthBounds := 1 }
  let stages : List VkPipelineShaderStageCreateInfo :=
    [{ stage := .VK_SHADER_STAGE_VERTEX_BIT, module := vert, pName := "main" },
     { stage := .VK_SHADER_STAGE_FRAGMENT_BIT, module := frag, pName := "main" }]
  let vertexInputs : List VkVertexInputBindingDescription :=
    [{ binding := 0, stride := sizeof_float * 3, inputRate := .VK_VERTEX_INPUT_RATE_VERTEX },
     { binding := 1, stride := sizeof_float * 2, inputRate := .VK_VERTEX_INPUT_RATE_VERTEX }]
  let vertexAttributes : List VkVertexInputAttributeDescription :=
    [{ binding := 0, location := 0, format := .VK_FORMAT_R32G32B32_SFLOAT, offset := 0 },
     { binding := 1, location := 1, format := .VK_FORMAT_R32G32_SFLOAT, offset := 0 }]
  let inputInfo : VkPipelineVertexInputStateCreateInfo :=
    { vertexBindingDescriptionCount := 2
      pVertexBindingDescriptions := vertexInputs
      vertexAttributeDescriptionCount := 2
      pVertexAttributeDescriptions := vertexAttributes }
  let assemblyInfo : VkPipelineInputAssemblyStateCreateInfo :=
    { topology := .VK_PRIMITIVE_TOPOLOGY_TRIANGLE_LIST, primitiveRestartEnable := false }
  let viewport : VkViewport :=
    { x := 0, y := 0
      width := aWindow.swapchainExtent.width
      height := aWindow.swapchainExtent.height
      minDepth := 0, maxDepth := 1 }
  let scissor : VkRect2D :=
    { offset := (0, 0)
      extent := { width := aWindow.swapchainExtent.width,
                  height := aWindow.swapchainExtent.height } }
  let viewportInfo : VkPipelineViewportStateCreateInfo :=
    { viewportCount := 1, pViewports := [viewport], scissorCount := 1, pScissors := [scissor] }
  let rasterInfo : VkPipelineRasterizationStateCreateInfo :=
    { depthClampEnable := false
      rasterizerDiscardEnable := false
      polygonMode := .VK_POLYGON_MODE_FILL
      cullMode := .VK_CULL_MODE_BACK_BIT
      frontFace := .VK_FRONT_FACE_COUNTER_CLOCKWISE
      depthBiasEnable := false
      lineWidth := 1 }
  let samplingInfo : VkPipelineMultisampleStateCreateInfo :=
    { rasterizationSamples := .VK_SAMPLE_COUNT_1_BIT }
  let blendStates : List VkPipelineColorBlendAttachmentState :=
    [{ blendEnable := true
       srcColorBlendFactor := .VK_BLEND_FACTOR_SRC_ALPHA
       dstColorBlendFactor := .VK_BLEND_FACTOR_ONE_MINUS_SRC_ALPHA
       colorBlendOp := .VK_BLEND_OP_ADD
       srcAlphaBlendFactor := .VK_BLEND_FACTOR_ZERO
       dstAlphaBlendFactor := .VK_BLEND_FACTOR_ZERO
       alphaBlendOp := .VK_BLEND_OP_ADD
       colorWriteMask := [.VK_COLOR_COMPONENT_R_BIT, .VK_COLOR_COMPONENT_G_BIT,
                          .VK_COLOR_COMPONENT_B_BIT, .VK_COLOR_COMPONENT_A_BIT] }]
  let blendInfo : VkPipelineColorBlendStateCreateInfo :=
    { logicOpEnable := false, attachmentCount := 1, pAttachments := blendStates }
  { stageCount := 2
    pStages := stages
    pVertexInputState := inputInfo
    pInputAssemblyState := assemblyInfo
    pTessellationState := false
    pViewportState := viewportInfo
    pRasterizationState := rasterInfo
    pMultisampleState := samplingInfo
    pDepthStencilState := depthInfo
    pColorBlendState := blendInfo
    pDynamicState := false
    layout := aPipelineLayout
    renderPass := aRenderPass
    subpass := 0 }


/-! ## The state of a fence -/

inductive VkFenceCreateFlagBits
  | VK_FENCE_CREATE_SIGNALED_BIT
  deriving DecidableEq, Repr

/-- What the host knows of a fence. -/
inductive FenceState
  /-- The fence is signaled. -/
  | signaled
  /-- The fence is unsignaled and no submission is enqueued that signals it. -/
  | unsignaled
  /-- The fence is the completion fence of a submission that has been
  enqueued and whose completion has not been waited for. -/
  | pending
  deriving DecidableEq, Repr

/-- The flags that `main` passes to `lut::create_fence` for each element of `cbfences`. -/
def cbfencesFlags : List VkFenceCreateFlagBits := [.VK_FENCE_CREATE_SIGNALED_BIT]

/-- The state of a fence created with the given flags. -/
def createdFenceState (flags : List VkFenceCreateFlagBits) : FenceState :=
  if .VK_FENCE_CREATE_SIGNALED_BIT ∈ flags then .signaled else .unsignaled

/-- Monitor step for fence `f`. The state pairs what is known of `f` with
whether `f` has been waited on. A wait on `f` that returns success tells
that `f` is signaled; a reset of `f` that returns success unsignals it; a
submission with completion fence `f` that is accepted will signal it. -/
def fenceStep (f : VkFence) (q : FenceState × Bool) : Event → FenceState × Bool
  | .vkWaitForFences f' res =>
    if f' = f then (if res = VK_SUCCESS then .signaled else q.1, true) else q
  | .vkResetFences f' res => if f' = f ∧ res = VK_SUCCESS then (.unsignaled, q.2) else q
  | .vkQueueSubmit _ f' res => if f' = f ∧ res = VK_SUCCESS then (.pending, q.2) else q
  | _ => q

/-- What the monitor for fence `f` checks at an event: a wait on `f` finds
it signaled or pending, and signaled when it is the first wait on `f`. -/
def fenceGuard (f : VkFence) (q : FenceState × Bool) (ev : Event) : Prop :=
  ev.isWaitOn f = true → q.1 ≠ .unsignaled ∧ (q.2 = false → q.1 = .signaled)


/-! ## The extent in use -/

/-- Modelled from the spec: the report of `recreate_swapchain`, a function of
`labutils` whose definition is not part of `exercise4`: "a recreate operation
returning which of {format, size} changed", for the window before the call
(`old`) and after it (`new`). -/
def reportedChanges (old new : VulkanWindow) : SwapChanges :=
  { changedSize := decide (new.swapchainExtent ≠ old.swapchainExtent)
    changedFormat := decide (new.swapchainFormat ≠ old.swapchainFormat) }

/-- Whether, in the run of the loop from the locals `s` against the given
outside world, every `recreate_swapchain` call that returns reports the
changes that `reportedChanges` gives for the window before and after. -/
def reportsChanges : MainState → List IterEnv → Bool
  | _, [] => true
  | s, e :: es =>
    if e.glfwWindowShouldClose then true
    else
      (match s.recreateSwapchain, e.recreated with
        | true, some (window, changes) => decide (changes = reportedChanges s.window window)
        | _, _ => true) &&
      (match (iteration s e).2 with
        | .continues s' => reportsChanges s' es
        | _ => true)

/-- The framebuffers and both pipelines of the locals were built for the
extent of the window of the locals. -/
def SizedForWindow (s : MainState) : Prop :=
  (∀ fb ∈ s.framebuffers,
    fb.width = s.window.swapchainExtent.width ∧ fb.height = s.window.swapchainExtent.height) ∧
  s.pipe.viewport = s.window.swapchainExtent ∧
  s.alphaPipe.viewport = s.window.swapchainExtent

/-- What holds of a `record_commands` call with arguments `args` and outcome
`recorded` in a pass whose `update_scene_uniforms` call was given `width` and
`height`: the parameter block passed is the one computed by that call, the
image extent passed, the framebuffer passed and the viewports of both
pipelines passed have that width and height, and the commands recorded
write that block into the buffer and open the render pass on that area. -/
def RecordedForExtent (width height : Nat) (args : RecordArgs)
    (recorded : Option (List Cmd)) : Prop :=
  args.aSceneUniform = ⟨width, height⟩ ∧
  args.aImageExtent = ⟨width, height⟩ ∧
  args.aFramebuffer.width = width ∧ args.aFramebuffer.height = height ∧
  args.aGraphicsPipe.viewport = ⟨width, height⟩ ∧
  args.aAlphaPipeline.viewport = ⟨width, height⟩ ∧
  ∀ cmds, recorded = some cmds →
    Cmd.vkCmdUpdateBuffer args.aSceneUBO 0 sizeof_SceneUniform ⟨width, height⟩ ∈ cmds ∧
    Cmd.vkCmdBeginRenderPass args.aRenderPass args.aFramebuffer ⟨width, height⟩ 2 ∈ cmds

/-- Passes: a frame on image 0 whose present returns `VK_SUBOPTIMAL_KHR`, the
recreation, which yields `demoResized` and reports a changed size, and a
frame on image 1. -/
def resizedBetweenFrames : List IterEnv :=
  [{ okEnv demoResized ⟨true, false⟩ 0 with presentRes := VK_SUBOPTIMAL_KHR },
   okEnv demoResized ⟨true, false⟩ 0,
   okEnv demoResized ⟨true, false⟩ 1]


/-! ## Single-precision arithmetic (`float`)

The type `float` of the sources is IEEE 754 binary32: 24 significant bits,
the last place of a finite value worth at least `2 ^ (-149)`, finite values
below `2 ^ 128` in magnitude. Every operation gives the exact result rounded
to the nearest value of the type, to the one with an even last bit when two
are equally near. -/

/-- The integer nearest to `y`; the even one of the two when `y` lies halfway. -/
def roundHalfEven (y : ℚ) : ℤ :=
  if y - ⌊y⌋ < 1 / 2 then ⌊y⌋
  else if 1 / 2 < y - ⌊y⌋ then ⌊y⌋ + 1
  else if ⌊y⌋ % 2 = 0 then ⌊y⌋
  else ⌊y⌋ + 1

/-- A value of type `float`: a finite value given by its sign and magnitude
(so that the two zeros are apart), an infinity, or a NaN. -/
inductive float
  | finite (negative : Bool) (magnitude : ℚ)
  | infinite (negative : Bool)
  | nan
  deriving DecidableEq, Repr

/-- The `float` with the given sign that is nearest to the magnitude `m`:
`m` is rounded to a multiple of the unit in the last place, which is
`2 ^ (e - 23)` for `m` from `2 ^ e` up to `2 ^ (e + 1)` and `2 ^ (-149)`
below `2 ^ (-126)`; a result of `2 ^ 128` or more is an infinity. -/
def float.round (negative : Bool) (m : ℚ) : float :=
  if m = 0 then .finite negative 0
  else
    let e : ℤ := max (Int.log 2 m) (-126)
    let ulp : ℚ := 2 ^ (e - 23)
    let r : ℚ := roundHalfEven (m / ulp) * ulp
    if (2 : ℚ) ^ (128 : ℕ) ≤ r then .infinite negative else .finite negative r

/-- The `float` nearest to the rational `q`; `negativeZero` is the sign of
the result when `q` is zero. -/
def float.ofRat (q : ℚ) (negativeZero : Bool) : float :=
  if q = 0 then .finite negativeZero 0 else float.round (decide (q < 0)) |q|

/-- The rational with the given sign and magnitude. -/
def float.signed (negative : Bool) (magnitude : ℚ) : ℚ :=
  if negative then -magnitude else magnitude

/-- Unary minus on `float`. -/
def float.neg : float → float
  | .finite s m => .finite (!s) m
  | .infinite s => .infinite (!s)
  | .nan => .nan

/-- Addition on `float`. An exact sum of zero is the negative zero only when
both operands are negative zeros. -/
def float.add : float → float → float
  | .nan, _ => .nan
  | _, .nan => .nan
  | .infinite s, .infinite t => if s = t then .infinite s else .nan
  | .infinite s, .finite _ _ => .infinite s
  | .finite _ _, .infinite t => .infinite t
  | .finite s m, .finite t n => float.ofRat (float.signed s m + float.signed t n) (s && t)

/-- Multiplication on `float`. -/
def float.mul : float → float → float
  | .nan, _ => .nan
  | _, .nan => .nan
  | .infinite s, .infinite t => .infinite (xor s t)
  | .infinite s, .finite t n => if n = 0 then .nan else .infinite (xor s t)
  | .finite s m, .infinite t => if m = 0 then .nan else .infinite (xor s t)
  | .finite s m, .finite t n => float.ofRat (float.signed s m * float.signed t n) (xor s t)

/-- Division on `float`. -/
def float.div : float → float → float
  | .nan, _ => .nan
  | _, .nan => .nan
  | .infinite _, .infinite _ => .nan
  | .infinite s, .finite t _ => .infinite (xor s t)
  | .finite s _, .infinite t => .finite (xor s t) 0
  | .finite s m, .finite t n =>
    if n = 0 then (if m = 0 then .nan else .infinite (xor s t))
    else float.ofRat (float.signed s m / float.signed t n) (xor s t)

instance : Zero float := ⟨.finite false 0⟩

instance : One float := ⟨.finite false 1⟩

instance : Neg float := ⟨float.neg⟩

instance : Add float := ⟨float.add⟩

instance : Sub float := ⟨fun a b => float.add a (float.neg b)⟩

instance : Mul float := ⟨float.mul⟩

instance : Div float := ⟨float.div⟩

/-- The conversion of an unsigned integer to `float`. -/
instance : NatCast float := ⟨fun n => float.ofRat n false⟩

/-- A decimal literal of type `float`. -/
instance : OfScientific float :=
  ⟨fun m s e => float.ofRat (OfScientific.ofScientific m s e) false⟩

/-- A stand-in for the math library in single precision: sixty degrees in
radians, and a tangent function that is constant at the `float` nearest to
the tangent of thirty degrees. -/
def floatMath : CameraMath float :=
  { kCameraFovRadians := .finite false (8784530 / 8388608)
    tan := fun _ => .finite false (9686330 / 16777216) }

/-- A parameter block of `float` with all entries zero. -/
def zeroFloatUniform : SceneUniform float :=
  { camera := mat4.diagonal 0, projection := mat4.diagonal 0, projCam := mat4.diagonal 0 }

/-! # Theorems -/

/-! ## The loop body, path by path -/

theorem record_commands_success (a : RecordArgs) (b n : VkResult)
    (hb : b = VK_SUCCESS) (hn : n = VK_SUCCESS) :
    record_commands a b n = some (recordedCommands a) := by
  simp [record_commands, hb, hn]

theorem record_commands_failure (a : RecordArgs) (b n : VkResult)
    (h : b ≠ VK_SUCCESS ∨ n ≠ VK_SUCCESS) : record_commands a b n = none := by
  unfold record_commands
  by_cases hb : VK_SUCCESS = b
  · have hn : ¬ VK_SUCCESS = n := by
      rcases h with h | h
      · exact absurd hb.symm h
      · exact fun h2 => h h2.symm
    rw [if_neg (not_not.mpr hb), if_pos hn]
  · rw [if_pos hb]

theorem renderFrame_path (s : MainState) (e : IterEnv) (u : SceneUniformBlock) :
    RenderPath s e u (renderFrame s e u) := by
  unfold renderFrame
  dsimp only []
  split
  next ha => exact .acquireStale (by rcases ha with h | h <;> simp [h])
  next ha =>
  have ha1 : e.acquireRes ≠ VK_SUBOPTIMAL_KHR := fun h => ha (Or.inl h.symm)
  have ha2 : e.acquireRes ≠ VK_ERROR_OUT_OF_DATE_KHR := fun h => ha (Or.inr h.symm)
  split
  next h0 => exact .acquireError (fun h => h0 h.symm) ha1 ha2
  next h0 =>
  have ha0 : e.acquireRes = VK_SUCCESS := (not_not.mp h0).symm
  split
  next hf => exact .fenceAssert ha0 hf
  next fence hf =>
  split
  next hw => exact .waitError fence ha0 hf (fun h => hw h.symm)
  next hw =>
  have hw0 : e.waitRes = VK_SUCCESS := (not_not.mp hw).symm
  rw [hw0]
  split
  next hr => exact .resetError fence ha0 hf hw0 (fun h => hr h.symm)
  next hr =>
  have hr0 : e.resetRes = VK_SUCCESS := (not_not.mp hr).symm
  rw [hr0]
  split
  next hc => exact .bufferAssert fence ha0 hf hw0 hr0 (Or.inl hc)
  next cbuffer hc =>
  split
  next hb => exact .bufferAssert fence ha0 hf hw0 hr0 (Or.inr hb)
  next framebuffer hb =>
  by_cases hrec : e.beginRes = VK_SUCCESS ∧ e.endRes = VK_SUCCESS
  swap
  · have hrec2 : e.beginRes ≠ VK_SUCCESS ∨ e.endRes ≠ VK_SUCCESS := by
      by_cases hb2 : e.beginRes = VK_SUCCESS
      · exact Or.inr fun h => hrec ⟨hb2, h⟩
      · exact Or.inl hb2
    rw [record_commands_failure _ _ _ hrec2, if_pos rfl]
    exact .recordError fence cbuffer framebuffer ha0 hf hw0 hr0 hc hb hrec2
  rw [record_commands_success _ _ _ hrec.1 hrec.2, if_neg (by simp)]
  unfold submit_commands
  dsimp only []
  by_cases hs : e.submitRes = VK_SUCCESS
  swap
  · rw [if_pos (by simpa using fun h => hs h.symm)]
    exact .submitError fence cbuffer framebuffer ha0 hf hw0 hr0 hc hb hrec.1 hrec.2 hs
  rw [if_neg (by simp [hs])]
  split
  next hp =>
    exact .presented fence cbuffer framebuffer _ ha0 hf hw0 hr0 hc hb hrec.1 hrec.2 hs
      (Or.inl ⟨by rcases hp with h | h <;> simp [h], rfl⟩)
  next hp =>
  split
  next hp0 =>
    exact .presented fence cbuffer framebuffer _ ha0 hf hw0 hr0 hc hb hrec.1 hrec.2 hs
      (Or.inr (Or.inl ⟨⟨fun h => hp0 h.symm, fun h => hp (Or.inl h.symm),
        fun h => hp (Or.inr h.symm)⟩, rfl⟩))
  next hp0 =>
    exact .presented fence cbuffer framebuffer _ ha0 hf hw0 hr0 hc hb hrec.1 hrec.2 hs
      (Or.inr (Or.inr ⟨(not_not.mp hp0).symm, rfl⟩))


theorem create_render_pass_some {w : VulkanWindow} {g : Nat} {r : VkResult} {rp : RenderPass}
    (h : create_render_pass w g r = some rp) : rp = ⟨g, w.swapchainFormat⟩ := by
  unfold create_render_pass at h
  split at h
  · exact absurd h (by simp)
  · exact (Option.some.inj h).symm

theorem create_depth_buffer_some {w : VulkanWindow} {g : Nat} {r1 r2 : VkResult}
    {db : DepthBuffer} (h : create_depth_buffer w g r1 r2 = some db) :
    db = ⟨g, ⟨w.swapchainExtent.width, w.swapchainExtent.height⟩⟩ := by
  unfold create_depth_buffer at h
  split at h
  · exact absurd h (by simp)
  · split at h
    · exact absurd h (by simp)
    · exact (Option.some.inj h).symm

theorem create_pipeline_some {w : VulkanWindow} {rp : RenderPass} {l : VkPipelineLayout}
    {g : Nat} {b : Bool} {r : VkResult} {p : Pipeline}
    (h : create_pipeline w rp l g b r = some p) :
    p = ⟨g, false, rp, l, ⟨w.swapchainExtent.width, w.swapchainExtent.height⟩⟩ := by
  unfold create_pipeline at h
  split at h
  · exact absurd h (by simp)
  · split at h
    · exact absurd h (by simp)
    · exact (Option.some.inj h).symm

theorem create_alpha_pipeline_some {w : VulkanWindow} {rp : RenderPass} {l : VkPipelineLayout}
    {g : Nat} {b : Bool} {r : VkResult} {p : Pipeline}
    (h : create_alpha_pipeline w rp l g b r = some p) :
    p = ⟨g, true, rp, l, ⟨w.swapchainExtent.width, w.swapchainExtent.height⟩⟩ := by
  unfold create_alpha_pipeline at h
  split at h
  · exact absurd h (by simp)
  · split at h
    · exact absurd h (by simp)
    · exact (Option.some.inj h).symm

theorem recreation_continues {s s' : MainState} {e : IterEnv} {t : List Event}
    (h : recreation s e = (t, .continues s')) :
    ∃ w ch fbs, e.recreated = some (w, ch) ∧
      create_swapchain_framebuffers w (recreatedState s w ch fbs).renderPass
        (recreatedState s w ch fbs).depthBuffer e.framebufferRes = some fbs ∧
      s' = recreatedState s w ch fbs ∧ t = recreatedEvents s w ch fbs := by
  unfold recreation at h
  split at h
  · simp at h
  next w ch hre =>
  dsimp only [] at h
  split at h
  · simp at h
  next rp hrp =>
  split at h
  · simp at h
  next db hdb =>
  split at h
  · simp at h
  next fbs hfbs =>
  split at h
  · simp at h
  next p hp =>
  split at h
  · simp at h
  next ap hap =>
  have h1 := congrArg Prod.fst h
  have h2 := congrArg Prod.snd h
  dsimp only [] at h1 h2
  have h3 := Flow.continues.inj h2
  clear h h2
  refine ⟨w, ch, fbs, hre, ?_⟩
  rw [← h1, ← h3]
  clear h1 h3
  rcases ch with ⟨cs, cf⟩
  dsimp only [] at hrp hdb hp hap ⊢
  cases cf <;> cases cs
  all_goals
    simp only [if_true, if_false, Bool.false_eq_true, Option.some.injEq] at hrp hdb hp hap
  all_goals first
    | subst hrp
    | (have hrp := create_render_pass_some hrp; subst hrp)
  all_goals first
    | subst hdb
    | (have hdb := create_depth_buffer_some hdb; subst hdb)
  all_goals first
    | subst hp
    | (have hp := create_pipeline_some hp; subst hp)
  all_goals first
    | subst hap
    | (have hap := create_alpha_pipeline_some hap; subst hap)
  all_goals
    simp [recreatedState, recreatedEvents, *]

theorem recreation_events (s : MainState) (e : IterEnv) :
    ∃ r rest, (recreation s e).1 = .vkDeviceWaitIdle :: .recreate_swapchain r :: rest ∧
      (∀ ev ∈ rest, ev.isCreation = true) ∧ (recreation s e).2 ≠ .assertFailed := by
  unfold recreation
  split
  · exact ⟨none, [], rfl, by simp, by simp⟩
  next w ch hre =>
  dsimp only []
  refine ⟨some ch, ?_⟩
  rcases ch with ⟨cs, cf⟩
  cases cf <;> cases cs <;> dsimp only [] <;>
    simp only [if_true, if_false, Bool.false_eq_true] <;>
    (repeat' split) <;>
    exact ⟨_, rfl, by simp [Event.isCreation], by simp⟩

theorem iteration_stale (s : MainState) (e : IterEnv) (h : s.recreateSwapchain = true) :
    iteration s e = (loopHead s ++ (recreation s e).1, (recreation s e).2) := by
  simp [iteration, loopHead, h]

theorem iteration_fresh (s : MainState) (e : IterEnv) (h : s.recreateSwapchain = false) :
    ∃ r, RenderPath s e
        ⟨s.window.swapchainExtent.width, s.window.swapchainExtent.height⟩ r ∧
      iteration s e = (loopHead s ++ r.1, r.2) :=
  ⟨_, renderFrame_path s e _, by simp [iteration, loopHead, h]⟩

/-! ## Acquire and present outcomes -/

/-- C2: in a pass through the body that reaches the acquire step (stale flag
clear), a `VK_SUCCESS` result is followed by the wait on the fence of the
acquired index and, when every later call succeeds, by reset, record, submit
and present; `VK_SUBOPTIMAL_KHR` or `VK_ERROR_OUT_OF_DATE_KHR` sets the stale
flag and ends the pass right after the acquire call; any other result throws
right after the acquire call; and the pass throws right after the acquire call
exactly when the result is none of the three. -/
theorem acquire_outcomes (s : MainState) (e : IterEnv) (h : s.recreateSwapchain = false) :
    (e.acquireRes = VK_SUCCESS →
      (∀ fence, s.cbfences[e.imageIndex]? = some fence →
        ∃ rest, (iteration s e).1 =
          loopHead s ++ acquireEvent s e :: .vkWaitForFences fence e.waitRes :: rest) ∧
      (∀ fence cbuffer framebuffer, s.cbfences[e.imageIndex]? = some fence →
        s.cbuffers[e.imageIndex]? = some cbuffer →
        s.framebuffers[e.imageIndex]? = some framebuffer →
        e.waitRes = VK_SUCCESS → e.resetRes = VK_SUCCESS → e.beginRes = VK_SUCCESS →
        e.endRes = VK_SUCCESS → e.submitRes = VK_SUCCESS →
        (iteration s e).1 =
          loopHead s ++
            [acquireEvent s e, .vkWaitForFences fence VK_SUCCESS,
             .vkResetFences fence VK_SUCCESS,
             .record_commands
               (recordArgs s ⟨s.window.swapchainExtent.width, s.window.swapchainExtent.height⟩
                 cbuffer framebuffer)
               (some (recordedCommands
                 (recordArgs s ⟨s.window.swapchainExtent.width, s.window.swapchainExtent.height⟩
                   cbuffer framebuffer))),
             submitEvent s e cbuffer fence, presentEvent s e])) ∧
    (e.acquireRes = VK_SUBOPTIMAL_KHR ∨ e.acquireRes = VK_ERROR_OUT_OF_DATE_KHR →
      iteration s e =
        (loopHead s ++ [acquireEvent s e], .continues { s with recreateSwapchain := true })) ∧
    (e.acquireRes ≠ VK_SUCCESS → e.acquireRes ≠ VK_SUBOPTIMAL_KHR →
      e.acquireRes ≠ VK_ERROR_OUT_OF_DATE_KHR →
      iteration s e = (loopHead s ++ [acquireEvent s e], .thrown)) ∧
    (iteration s e = (loopHead s ++ [acquireEvent s e], .thrown) ↔
      e.acquireRes ≠ VK_SUCCESS ∧ e.acquireRes ≠ VK_SUBOPTIMAL_KHR ∧
        e.acquireRes ≠ VK_ERROR_OUT_OF_DATE_KHR) := by
  obtain ⟨r, hpath, hit⟩ := iteration_fresh s e h
  rw [hit]
  have hne1 : VK_SUCCESS ≠ VK_SUBOPTIMAL_KHR := by decide
  have hne2 : VK_SUCCESS ≠ VK_ERROR_OUT_OF_DATE_KHR := by decide
  refine ⟨fun ha => ⟨fun fence hf => ?_, fun fence cbuffer framebuffer hf hc hb hw hr hbeg hend hs => ?_⟩,
    fun ha => ?_, fun h0 h1 h2 => ?_, ⟨fun hthrow => ?_, fun hnone => ?_⟩⟩
  · cases hpath <;> simp_all
  · cases hpath <;> simp_all
  · cases hpath <;> simp_all
  · cases hpath <;> simp_all
  · cases hpath <;> simp_all
  · cases hpath <;> simp_all

theorem acquire_outcomes_witness :
    (startup demoWindow demoScene).recreateSwapchain = false ∧
    iteration (startup demoWindow demoScene)
        { okEnv demoWindow ⟨false, false⟩ 0 with acquireRes := VK_ERROR_OUT_OF_DATE_KHR } =
      (loopHead (startup demoWindow demoScene) ++
          [.vkAcquireNextImageKHR ⟨0⟩ VK_ERROR_OUT_OF_DATE_KHR 0],
       .continues { startup demoWindow demoScene with recreateSwapchain := true }) :=
  ⟨rfl, (acquire_outcomes (startup demoWindow demoScene)
    { okEnv demoWindow ⟨false, false⟩ 0 with acquireRes := VK_ERROR_OUT_OF_DATE_KHR } rfl).2.1
      (Or.inr rfl)⟩

theorem recreation_no_frameCall (s : MainState) (e : IterEnv) :
    ∀ ev ∈ (recreation s e).1, ev.isFrameCall = false := by
  obtain ⟨r, rest, hev, hrest, _⟩ := recreation_events s e
  rw [hev]
  intro ev hmem
  simp only [List.mem_cons] at hmem
  rcases hmem with rfl | rfl | hmem
  · rfl
  · rfl
  · have := hrest ev hmem
    cases ev <;> simp_all [Event.isCreation, Event.isFrameCall]

theorem stale_no_frameCall (s : MainState) (e : IterEnv) (h : s.recreateSwapchain = true) :
    ∀ ev ∈ (iteration s e).1, ev.isFrameCall = false := by
  rw [iteration_stale s e h]
  intro ev hmem
  simp only [List.mem_append, loopHead, List.mem_cons, List.mem_singleton] at hmem
  rcases hmem with (rfl | rfl | hmem) | hmem
  · rfl
  · rfl
  · simp at hmem
  · exact recreation_no_frameCall s e ev hmem

/-- C3: when a pass through the body makes the present call, the call is the
last of the pass and returns the result the driver gave; `VK_SUBOPTIMAL_KHR`
or `VK_ERROR_OUT_OF_DATE_KHR` sets the stale flag and the loop goes on;
`VK_SUCCESS` leaves the locals, the (clear) stale flag among them, as they
were; any other result throws; and the pass throws exactly when the result is
none of the three. -/
theorem present_outcomes (s : MainState) (e : IterEnv) (info : VkPresentInfoKHR)
    (res : VkResult) (h : Event.vkQueuePresentKHR info res ∈ (iteration s e).1) :
    res = e.presentRes ∧ s.recreateSwapchain = false ∧
    (∃ pre, (iteration s e).1 = pre ++ [.vkQueuePresentKHR info res]) ∧
    (res = VK_SUBOPTIMAL_KHR ∨ res = VK_ERROR_OUT_OF_DATE_KHR →
      (iteration s e).2 = .continues { s with recreateSwapchain := true }) ∧
    (res = VK_SUCCESS → (iteration s e).2 = .continues s) ∧
    (res ≠ VK_SUCCESS → res ≠ VK_SUBOPTIMAL_KHR → res ≠ VK_ERROR_OUT_OF_DATE_KHR →
      (iteration s e).2 = .thrown) ∧
    ((iteration s e).2 = .thrown ↔
      res ≠ VK_SUCCESS ∧ res ≠ VK_SUBOPTIMAL_KHR ∧ res ≠ VK_ERROR_OUT_OF_DATE_KHR) := by
  have hne1 : VK_SUCCESS ≠ VK_SUBOPTIMAL_KHR := by decide
  have hne2 : VK_SUCCESS ≠ VK_ERROR_OUT_OF_DATE_KHR := by decide
  cases hflag : s.recreateSwapchain
  swap
  · exact absurd (stale_no_frameCall s e hflag _ h) (by simp [Event.isFrameCall])
  obtain ⟨r, hpath, hit⟩ := iteration_fresh s e hflag
  rw [hit] at h ⊢
  cases hpath <;>
    simp [loopHead, acquireEvent, submitEvent, presentEvent] at h
  obtain ⟨rfl, rfl⟩ := h
  rename_i fence cbuffer framebuffer flow ha hf hw hr hc hb hbeg hend hs hp
  dsimp only []
  refine ⟨rfl, rfl, ⟨loopHead s ++ [acquireEvent s e, .vkWaitForFences fence VK_SUCCESS,
      .vkResetFences fence VK_SUCCESS,
      .record_commands
        (recordArgs s ⟨s.window.swapchainExtent.width, s.window.swapchainExtent.height⟩
          cbuffer framebuffer)
        (some (recordedCommands
          (recordArgs s ⟨s.window.swapchainExtent.width, s.window.swapchainExtent.height⟩
            cbuffer framebuffer))),
      submitEvent s e cbuffer fence], by simp [presentEvent]⟩, ?_, ?_, ?_, ?_⟩
  · intro hstale
    rcases hp with ⟨_, rfl⟩ | ⟨⟨_, h1, h2⟩, rfl⟩ | ⟨h0, rfl⟩
    · rfl
    · rcases hstale with h | h
      · exact absurd h h1
      · exact absurd h h2
    · rcases hstale with h | h
      · exact absurd (h0.symm.trans h) hne1
      · exact absurd (h0.symm.trans h) hne2
  · intro hok
    rcases hp with ⟨h | h, rfl⟩ | ⟨⟨h0, _, _⟩, rfl⟩ | ⟨_, rfl⟩
    · exact absurd (hok.symm.trans h) hne1
    · exact absurd (hok.symm.trans h) hne2
    · exact absurd hok h0
    · rfl
  · intro h0 h1 h2
    rcases hp with ⟨h | h, rfl⟩ | ⟨_, rfl⟩ | ⟨h, rfl⟩
    · exact absurd h h1
    · exact absurd h h2
    · rfl
    · exact absurd h h0
  · rcases hp with ⟨h | h, rfl⟩ | ⟨hn, rfl⟩ | ⟨h, rfl⟩
    · simp [h]
    · simp [h]
    · simp [hn]
    · simp [h]

theorem present_outcomes_witness :
    Event.vkQueuePresentKHR (presentInfo (startup demoWindow demoScene) 1) VK_SUBOPTIMAL_KHR ∈
        (iteration (startup demoWindow demoScene)
          { okEnv demoWindow ⟨false, false⟩ 1 with presentRes := VK_SUBOPTIMAL_KHR }).1 ∧
    (iteration (startup demoWindow demoScene)
        { okEnv demoWindow ⟨false, false⟩ 1 with presentRes := VK_SUBOPTIMAL_KHR }).2 =
      .continues { startup demoWindow demoScene with recreateSwapchain := true } :=
  ⟨by decide,
   (present_outcomes (startup demoWindow demoScene)
      { okEnv demoWindow ⟨false, false⟩ 1 with presentRes := VK_SUBOPTIMAL_KHR }
      (presentInfo (startup demoWindow demoScene) 1) VK_SUBOPTIMAL_KHR (by decide)).2.2.2.1
      (Or.inl rfl)⟩

/-! ## Monitors along the loop -/

theorem Safe_append {σ : Type} (step : σ → Event → σ) (ok : σ → Event → Prop) (q : σ)
    (t1 t2 : List Event) :
    Safe step ok q (t1 ++ t2) ↔ Safe step ok q t1 ∧ Safe step ok (t1.foldl step q) t2 := by
  induction t1 generalizing q with
  | nil => simp [Safe]
  | cons ev t ih => simp [Safe, ih, and_assoc]

theorem Safe_at {σ : Type} {step : σ → Event → σ} {ok : σ → Event → Prop} {q : σ}
    {pre post : List Event} {ev : Event} (h : Safe step ok q (pre ++ ev :: post)) :
    ok (pre.foldl step q) ev :=
  ((Safe_append step ok q pre (ev :: post)).1 h).2.1

theorem foldl_true_false (step : Bool → Event → Bool) (mid : List Event)
    (h : mid.foldl step true = false) : ∃ ev ∈ mid, step true ev = false := by
  induction mid with
  | nil => simp at h
  | cons ev t ih =>
    cases hstep : step true ev
    · exact ⟨ev, by simp, hstep⟩
    · rw [List.foldl_cons, hstep] at h
      obtain ⟨ev', hmem, h'⟩ := ih h
      exact ⟨ev', by simp [hmem], h'⟩

theorem frameLoop_nil (s : MainState) :
    frameLoop s [] = { iterations := [], outcome := .running, final := s } := rfl

theorem frameLoop_closed (s : MainState) (e : IterEnv) (es : List IterEnv)
    (h : e.glfwWindowShouldClose = true) :
    frameLoop s (e :: es) = { iterations := [], outcome := .closed, final := s } := by
  simp [frameLoop, h]

theorem frameLoop_continues (s s' : MainState) (e : IterEnv) (es : List IterEnv)
    (t : List Event) (h : e.glfwWindowShouldClose = false)
    (hit : iteration s e = (t, .continues s')) :
    frameLoop s (e :: es) =
      { iterations := t :: (frameLoop s' es).iterations,
        outcome := (frameLoop s' es).outcome, final := (frameLoop s' es).final } := by
  simp [frameLoop, h, hit]

theorem frameLoop_thrown (s : MainState) (e : IterEnv) (es : List IterEnv)
    (t : List Event) (h : e.glfwWindowShouldClose = false)
    (hit : iteration s e = (t, .thrown)) :
    frameLoop s (e :: es) = { iterations := [t], outcome := .error, final := s } := by
  simp [frameLoop, h, hit]

theorem frameLoop_assertFailed (s : MainState) (e : IterEnv) (es : List IterEnv)
    (t : List Event) (h : e.glfwWindowShouldClose = false)
    (hit : iteration s e = (t, .assertFailed)) :
    frameLoop s (e :: es) = { iterations := [t], outcome := .assertFailed, final := s } := by
  simp [frameLoop, h, hit]

/-- Loop induction for a monitor: if every pass through the body is safe from
any monitor state related to the locals by `Inv`, ends in a monitor state
satisfying `Fin`, and re-establishes `Inv` when the loop goes on, then the
whole trace is safe and ends in a monitor state satisfying `Fin`. -/
theorem frameLoop_safe {σ : Type} (step : σ → Event → σ) (ok : σ → Event → Prop)
    (Inv : MainState → σ → Prop) (Fin : σ → Prop)
    (h0 : ∀ s q, Inv s q → Fin q)
    (hiter : ∀ s e q, Inv s q →
      Safe step ok q (iteration s e).1 ∧ Fin ((iteration s e).1.foldl step q) ∧
      ∀ s', (iteration s e).2 = .continues s' → Inv s' ((iteration s e).1.foldl step q))
    (envs : List IterEnv) :
    ∀ s q, Inv s q →
      Safe step ok q (frameLoop s envs).trace ∧
      Fin ((frameLoop s envs).trace.foldl step q) := by
  induction envs with
  | nil =>
    intro s q hinv
    simp [frameLoop_nil, Run.trace, Safe, h0 s q hinv]
  | cons e es ih =>
    intro s q hinv
    cases hclose : e.glfwWindowShouldClose
    swap
    · simp [frameLoop_closed s e es hclose, Run.trace, Safe, h0 s q hinv]
    obtain ⟨hsafe, hfin, hnext⟩ := hiter s e q hinv
    rcases hit : iteration s e with ⟨t, flow⟩
    rw [hit] at hsafe hfin hnext
    cases flow with
    | continues s' =>
      rw [frameLoop_continues s s' e es t hclose hit]
      have := ih s' _ (hnext s' rfl)
      simp only [Run.trace, List.flatten_cons, List.foldl_append, Safe_append] at this ⊢
      exact ⟨⟨hsafe, this.1⟩, this.2⟩
    | thrown =>
      rw [frameLoop_thrown s e es t hclose hit]
      simpa [Run.trace] using And.intro hsafe hfin
    | assertFailed =>
      rw [frameLoop_assertFailed s e es t hclose hit]
      simpa [Run.trace] using And.intro hsafe hfin

theorem Safe_of_forall {σ : Type} (step : σ → Event → σ) (ok : σ → Event → Prop)
    (t : List Event) (h : ∀ q, ∀ ev ∈ t, ok q ev) : ∀ q, Safe step ok q t := by
  induction t with
  | nil => intro q; trivial
  | cons ev t ih =>
    intro q
    exact ⟨h q ev (by simp), ih (fun q' ev' hmem => h q' ev' (by simp [hmem])) _⟩

/-! ## The stale flag -/

theorem staleStep_recreatedEvents (s : MainState) (w : VulkanWindow) (ch : SwapChanges)
    (fbs : List Framebuffer) (q : Bool) :
    (loopHead s ++ recreatedEvents s w ch fbs).foldl staleStep q = false := by
  rcases ch with ⟨cs, cf⟩
  cases cs <;> cases cf <;> simp [loopHead, recreatedEvents, staleStep, Event.setsStale]

theorem stale_monitor_iteration (s : MainState) (e : IterEnv) :
    Safe staleStep (fun q ev => ev.isAcquire = true → q = false) s.recreateSwapchain
        (iteration s e).1 ∧
      ∀ s', (iteration s e).2 = .continues s' →
        s'.recreateSwapchain = (iteration s e).1.foldl staleStep s.recreateSwapchain := by
  cases hflag : s.recreateSwapchain
  · obtain ⟨r, hpath, hit⟩ := iteration_fresh s e hflag
    rw [hit]
    have hne1 : VK_SUCCESS ≠ VK_SUBOPTIMAL_KHR := by decide
    have hne2 : VK_SUCCESS ≠ VK_ERROR_OUT_OF_DATE_KHR := by decide
    cases hpath
    case presented fence cbuffer framebuffer flow ha hf hw hr hc hb hbeg hend hs hp =>
      rcases hp with ⟨h | h, rfl⟩ | ⟨⟨h0, h1, h2⟩, rfl⟩ | ⟨h, rfl⟩ <;>
        simp [Safe, staleStep, Event.setsStale, Event.isAcquire, loopHead, acquireEvent,
          submitEvent, presentEvent, *]
    all_goals
      simp_all [Safe, staleStep, Event.setsStale, Event.isAcquire, loopHead, acquireEvent,
        submitEvent, presentEvent]
  · constructor
    · refine Safe_of_forall _ _ _ (fun q ev hmem hacq => ?_) _
      have := stale_no_frameCall s e hflag ev hmem
      cases ev <;> simp_all [Event.isFrameCall, Event.isAcquire]
    · intro s' hcont
      rw [iteration_stale s e hflag] at hcont ⊢
      obtain ⟨w, ch, fbs, -, -, rfl, ht⟩ :=
        recreation_continues (t := (recreation s e).1) (Prod.ext rfl hcont)
      dsimp only []
      rw [ht, staleStep_recreatedEvents]
      simp [recreatedState]

theorem stale_monitor_run (s : MainState) (envs : List IterEnv) :
    Safe staleStep (fun q ev => ev.isAcquire = true → q = false) s.recreateSwapchain
      (frameLoop s envs).trace :=
  (frameLoop_safe staleStep (fun q ev => ev.isAcquire = true → q = false)
    (fun s q => q = s.recreateSwapchain) (fun _ => True) (fun _ _ _ => trivial)
    (fun s e q hq => by
      subst hq
      exact ⟨(stale_monitor_iteration s e).1, trivial,
        fun s' h => ((stale_monitor_iteration s e).2 s' h).symm⟩)
    envs s _ rfl).1

/-- C4: a pass through the body that starts with the stale flag set makes no
acquire call; if it runs to its end it has called `recreate_swapchain` and
leaves the flag clear; and in every run of the loop, between an acquire or
present call that set the flag and any later acquire call there is a
`recreate_swapchain` call that returned. -/
theorem acquire_never_while_stale :
    (∀ (s : MainState) (e : IterEnv), s.recreateSwapchain = true →
      ∀ ev ∈ (iteration s e).1, ev.isAcquire = false) ∧
    (∀ (s s' : MainState) (e : IterEnv), s.recreateSwapchain = true →
      (iteration s e).2 = .continues s' →
      s'.recreateSwapchain = false ∧
        ∃ ch, Event.recreate_swapchain (some ch) ∈ (iteration s e).1) ∧
    (∀ (s : MainState) (envs : List IterEnv) (pre mid post : List Event) (ev acq : Event),
      (frameLoop s envs).trace = pre ++ ev :: (mid ++ acq :: post) →
      ev.setsStale = true → acq.isAcquire = true →
      ∃ ch, Event.recreate_swapchain (some ch) ∈ mid) := by
  refine ⟨fun s e h ev hmem => ?_, fun s s' e h hcont => ?_,
    fun s envs pre mid post ev acq htrace hev hacq => ?_⟩
  · have := stale_no_frameCall s e h ev hmem
    cases ev <;> simp_all [Event.isFrameCall, Event.isAcquire]
  · rw [iteration_stale s e h] at hcont ⊢
    obtain ⟨w, ch, fbs, -, -, rfl, ht⟩ :=
      recreation_continues (t := (recreation s e).1) (Prod.ext rfl hcont)
    dsimp only []
    refine ⟨by simp [recreatedState], ch, ?_⟩
    rw [ht]
    simp [recreatedEvents]
  · have hsafe := stale_monitor_run s envs
    rw [htrace, ← List.cons_append, ← List.append_assoc] at hsafe
    have hq := Safe_at hsafe hacq
    rw [List.foldl_append, List.foldl_cons] at hq
    have hset : staleStep (List.foldl staleStep s.recreateSwapchain pre) ev = true := by
      simp [staleStep, hev]
    rw [hset] at hq
    obtain ⟨ev', hmem, hstep⟩ := foldl_true_false staleStep mid hq
    unfold staleStep at hstep
    split at hstep
    · simp at hstep
    · split at hstep
      next ch _ => exact ⟨ch, hmem⟩
      next => simp at hstep

theorem acquire_never_while_stale_witness :
    ({ startup demoWindow demoScene with recreateSwapchain := true } : MainState).recreateSwapchain
        = true ∧
    ∀ ev ∈ (iteration { startup demoWindow demoScene with recreateSwapchain := true }
        (okEnv demoResized ⟨true, false⟩ 0)).1, ev.isAcquire = false :=
  ⟨rfl, acquire_never_while_stale.1 _ _ rfl⟩

/-! ## Fences: waits and submits -/

theorem foldl_step_of_forall {σ : Type} (step : σ → Event → σ) (t : List Event) (q : σ)
    (h : ∀ ev ∈ t, ∀ q, step q ev = q) : t.foldl step q = q := by
  induction t generalizing q with
  | nil => rfl
  | cons ev t ih =>
    rw [List.foldl_cons, h ev (by simp) q]
    exact ih q (fun ev' hmem => h ev' (by simp [hmem]))

theorem waited_monitor_iteration (f : VkFence) (s : MainState) (e : IterEnv) :
    Safe (waitedStep f) (fun q ev => ev.isWaitOn f = true → q = false) false
        (iteration s e).1 ∧
      ∀ s', (iteration s e).2 = .continues s' →
        (iteration s e).1.foldl (waitedStep f) false = false := by
  cases hflag : s.recreateSwapchain
  · obtain ⟨r, hpath, hit⟩ := iteration_fresh s e hflag
    rw [hit]
    cases hpath
    case presented fence cbuffer framebuffer flow ha hf hw hr hc hb hbeg hend hs hp =>
      by_cases hfe : fence = f <;>
        simp [Safe, waitedStep, Event.isWaitOn, loopHead, acquireEvent, submitEvent,
          presentEvent, hfe]
    all_goals
      simp [Safe, waitedStep, Event.isWaitOn, loopHead, acquireEvent, submitEvent,
        presentEvent]
  · have hnone := stale_no_frameCall s e hflag
    constructor
    · refine Safe_of_forall _ _ _ (fun q ev hmem hw => ?_) _
      have := hnone ev hmem
      cases ev <;> simp_all [Event.isFrameCall, Event.isWaitOn]
    · intro s' _
      refine foldl_step_of_forall _ _ _ (fun ev hmem q => ?_)
      have := hnone ev hmem
      cases ev <;> simp_all [Event.isFrameCall, waitedStep]

theorem waited_monitor_run (f : VkFence) (s : MainState) (envs : List IterEnv) :
    Safe (waitedStep f) (fun q ev => ev.isWaitOn f = true → q = false) false
      (frameLoop s envs).trace :=
  (frameLoop_safe (waitedStep f) (fun q ev => ev.isWaitOn f = true → q = false)
    (fun _ q => q = false) (fun _ => True) (fun _ _ _ => trivial)
    (fun s e q hq => by
      subst hq
      exact ⟨(waited_monitor_iteration f s e).1, trivial, (waited_monitor_iteration f s e).2⟩)
    envs s _ rfl).1

/-- C8: in every run of the loop, between two `vkWaitForFences` calls on the
same fence there is a `vkQueueSubmit` call that passes this fence; and a pass
through the body that waits on a fence and ends without a fatal error makes,
in this order, the calls acquire, wait on the fence of the acquired index,
reset of that fence, record into the command buffer of that index, submit of
that command buffer with that fence, present. -/
theorem wait_then_submit :
    (∀ (s : MainState) (envs : List IterEnv) (f : VkFence) (pre mid post : List Event)
        (r1 r2 : VkResult),
      (frameLoop s envs).trace =
          pre ++ .vkWaitForFences f r1 :: (mid ++ .vkWaitForFences f r2 :: post) →
      ∃ info res, Event.vkQueueSubmit info f res ∈ mid) ∧
    (∀ (s s' : MainState) (e : IterEnv) (f : VkFence) (r : VkResult),
      Event.vkWaitForFences f r ∈ (iteration s e).1 →
      (iteration s e).2 = .continues s' →
      ∃ cbuffer framebuffer,
        s.cbfences[e.imageIndex]? = some f ∧ s.cbuffers[e.imageIndex]? = some cbuffer ∧
        s.framebuffers[e.imageIndex]? = some framebuffer ∧
        (iteration s e).1 =
          loopHead s ++
            [.vkAcquireNextImageKHR s.imageAvailable VK_SUCCESS e.imageIndex,
             .vkWaitForFences f VK_SUCCESS,
             .vkResetFences f VK_SUCCESS,
             .record_commands
               (recordArgs s ⟨s.window.swapchainExtent.width, s.window.swapchainExtent.height⟩
                 cbuffer framebuffer)
               (some (recordedCommands
                 (recordArgs s ⟨s.window.swapchainExtent.width, s.window.swapchainExtent.height⟩
                   cbuffer framebuffer))),
             .vkQueueSubmit (submitInfo cbuffer s.imageAvailable s.renderFinished) f VK_SUCCESS,
             .vkQueuePresentKHR (presentInfo s e.imageIndex) e.presentRes]) := by
  refine ⟨fun s envs f pre mid post r1 r2 htrace => ?_, fun s s' e f r hmem hcont => ?_⟩
  · have hsafe := waited_monitor_run f s envs
    rw [htrace, ← List.cons_append, ← List.append_assoc] at hsafe
    have hq := Safe_at hsafe (by simp [Event.isWaitOn])
    rw [List.foldl_append, List.foldl_cons] at hq
    have hset : waitedStep f (List.foldl (waitedStep f) false pre) (.vkWaitForFences f r1)
        = true := by simp [waitedStep]
    rw [hset] at hq
    obtain ⟨ev', hmem, hstep⟩ := foldl_true_false (waitedStep f) mid hq
    cases ev' <;> simp [waitedStep] at hstep
    case vkQueueSubmit info f' res =>
      subst hstep
      exact ⟨info, res, hmem⟩
  · cases hflag : s.recreateSwapchain
    swap
    · exact absurd (stale_no_frameCall s e hflag _ hmem) (by simp [Event.isFrameCall])
    obtain ⟨p, hpath, hit⟩ := iteration_fresh s e hflag
    rw [hit] at hmem hcont ⊢
    cases hpath <;> simp [loopHead, acquireEvent, submitEvent, presentEvent] at hmem hcont
    case presented fence cbuffer framebuffer flow ha hf hw hr hc hb hbeg hend hs hp =>
      obtain ⟨rfl, -⟩ := hmem
      exact ⟨cbuffer, framebuffer, hf, hc, hb, by
        simp [acquireEvent, submitEvent, presentEvent, ha, hs]⟩

theorem wait_then_submit_witness :
    Event.vkWaitForFences ⟨2⟩ VK_SUCCESS ∈
        (iteration (startup demoWindow demoScene) (okEnv demoWindow ⟨false, false⟩ 2)).1 ∧
    ∃ cbuffer framebuffer,
      (startup demoWindow demoScene).cbfences[2]? = some ⟨2⟩ ∧
      (startup demoWindow demoScene).cbuffers[2]? = some cbuffer ∧
      (startup demoWindow demoScene).framebuffers[2]? = some framebuffer ∧
      (iteration (startup demoWindow demoScene) (okEnv demoWindow ⟨false, false⟩ 2)).1 =
        loopHead (startup demoWindow demoScene) ++
          [.vkAcquireNextImageKHR ⟨0⟩ VK_SUCCESS 2,
           .vkWaitForFences ⟨2⟩ VK_SUCCESS,
           .vkResetFences ⟨2⟩ VK_SUCCESS,
           .record_commands
             (recordArgs (startup demoWindow demoScene) ⟨1280, 720⟩ cbuffer framebuffer)
             (some (recordedCommands
               (recordArgs (startup demoWindow demoScene) ⟨1280, 720⟩ cbuffer framebuffer))),
           .vkQueueSubmit (submitInfo cbuffer ⟨0⟩ ⟨1⟩) ⟨2⟩ VK_SUCCESS,
           .vkQueuePresentKHR (presentInfo (startup demoWindow demoScene) 2) VK_SUCCESS] :=
  ⟨by decide,
   wait_then_submit.2 (startup demoWindow demoScene) (startup demoWindow demoScene)
     (okEnv demoWindow ⟨false, false⟩ 2) ⟨2⟩ VK_SUCCESS (by decide) (by decide)⟩

theorem iteration_continues_fixed {s s' : MainState} {e : IterEnv}
    (h : (iteration s e).2 = .continues s') :
    s'.cbuffers = s.cbuffers ∧ s'.cbfences = s.cbfences ∧
      s'.imageAvailable = s.imageAvailable ∧ s'.renderFinished = s.renderFinished := by
  cases hflag : s.recreateSwapchain
  · obtain ⟨r, hpath, hit⟩ := iteration_fresh s e hflag
    rw [hit] at h
    cases hpath <;> simp at h
    case acquireStale => subst h; simp
    case presented fence cbuffer framebuffer flow ha hf hw hr hc hb hbeg hend hs hp =>
      subst h
      rcases hp with ⟨_, h⟩ | ⟨_, h⟩ | ⟨_, h⟩
      · rw [Flow.continues.inj h]; simp
      · simp at h
      · rw [Flow.continues.inj h]; simp
  · rw [iteration_stale s e hflag] at h
    obtain ⟨w, ch, fbs, -, -, rfl, -⟩ :=
      recreation_continues (t := (recreation s e).1) (Prod.ext rfl h)
    simp [recreatedState]

theorem Safe_of_inert {σ : Type} (step : σ → Event → σ) (ok : σ → Event → Prop)
    (t : List Event) (q : σ) (h : ∀ ev ∈ t, step q ev = q ∧ ok q ev) : Safe step ok q t := by
  induction t with
  | nil => trivial
  | cons ev t ih =>
    refine ⟨(h ev (by simp)).2, ?_⟩
    rw [(h ev (by simp)).1]
    exact ih (fun ev' hmem => h ev' (by simp [hmem]))

theorem pending_monitor_iteration (f : VkFence) (s : MainState) (e : IterEnv) (n : Nat)
    (hn : n ≤ 1) (hpair : Paired s) :
    Safe (pendingStep f) (recordGuard f) n (iteration s e).1 ∧
      (iteration s e).1.foldl (pendingStep f) n ≤ 1 := by
  cases hflag : s.recreateSwapchain
  · obtain ⟨r, hpath, hit⟩ := iteration_fresh s e hflag
    rw [hit]
    cases hpath
    case recordError fence cbuffer framebuffer ha hf hw hr hc hb hrec =>
      have hp := hpair _ _ _ hc hf
      by_cases hfe : fence = f
      · simp [Safe, pendingStep, recordGuard, loopHead, acquireEvent, hfe, hn]
      · have hne : cbuffer.handle ≠ f.handle := fun h => hfe (by
          cases fence; cases f; simp_all)
        simp [Safe, pendingStep, recordGuard, loopHead, acquireEvent, hfe, hn, recordArgs, hne]
    case submitError fence cbuffer framebuffer ha hf hw hr hc hb hbeg hend hs =>
      have hp := hpair _ _ _ hc hf
      by_cases hfe : fence = f
      · simp [Safe, pendingStep, recordGuard, loopHead, acquireEvent, submitEvent, hfe, hn, hs]
      · have hne : cbuffer.handle ≠ f.handle := fun h => hfe (by
          cases fence; cases f; simp_all)
        simp [Safe, pendingStep, recordGuard, loopHead, acquireEvent, submitEvent, hfe, hn,
          recordArgs, hne]
    case presented fence cbuffer framebuffer flow ha hf hw hr hc hb hbeg hend hs hp =>
      have hp := hpair _ _ _ hc hf
      by_cases hfe : fence = f
      · simp [Safe, pendingStep, recordGuard, loopHead, acquireEvent, submitEvent,
          presentEvent, hfe, hn, hs]
      · have hne : cbuffer.handle ≠ f.handle := fun h => hfe (by
          cases fence; cases f; simp_all)
        simp [Safe, pendingStep, recordGuard, loopHead, acquireEvent, submitEvent,
          presentEvent, hfe, hn, recordArgs, hne]
    all_goals
      simp only [Safe, pendingStep, recordGuard, loopHead, acquireEvent, List.cons_append,
        List.nil_append, List.foldl_cons, List.foldl_nil]
      first
        | (split_ifs <;> simp [hn])
        | simp [hn]
  · have hnone := stale_no_frameCall s e hflag
    constructor
    · refine Safe_of_inert _ _ _ _ (fun ev hmem => ?_)
      have := hnone ev hmem
      cases ev <;> simp_all [Event.isFrameCall, pendingStep, recordGuard]
    · rw [foldl_step_of_forall _ _ _ (fun ev hmem q => ?_)]
      · exact hn
      · have := hnone ev hmem
        cases ev <;> simp_all [Event.isFrameCall, pendingStep]

theorem startup_paired (window : VulkanWindow) (scene : Scene) :
    Paired (startup window scene) := by
  intro i c g hc hg
  simp only [startup, List.getElem?_map, Option.map_eq_some'] at hc hg
  obtain ⟨a, ha, rfl⟩ := hc
  obtain ⟨b, hb, rfl⟩ := hg
  rw [List.getElem?_eq_some_iff] at ha hb
  obtain ⟨_, ha⟩ := ha
  obtain ⟨_, hb⟩ := hb
  simp only [List.getElem_range] at ha hb
  simp [← ha, ← hb]

theorem pending_monitor_run (f : VkFence) (s : MainState) (envs : List IterEnv)
    (hpair : Paired s) :
    Safe (pendingStep f) (recordGuard f) 0 (frameLoop s envs).trace ∧
      (frameLoop s envs).trace.foldl (pendingStep f) 0 ≤ 1 :=
  frameLoop_safe (pendingStep f) (recordGuard f)
    (fun s n => n ≤ 1 ∧ Paired s) (fun n => n ≤ 1) (fun _ _ h => h.1)
    (fun s e n hinv =>
      ⟨(pending_monitor_iteration f s e n hinv.1 hinv.2).1,
       (pending_monitor_iteration f s e n hinv.1 hinv.2).2,
       fun s' hcont => ⟨(pending_monitor_iteration f s e n hinv.1 hinv.2).2, by
         intro i c g hc hg
         obtain ⟨h1, h2, -, -⟩ := iteration_continues_fixed hcont
         rw [h1] at hc
         rw [h2] at hg
         exact hinv.2 i c g hc hg⟩⟩)
    envs s 0 ⟨Nat.zero_le 1, hpair⟩

/-- C1: a pass through the body that calls `record_commands` has, right
before that call, waited with success on the fence at the acquired index and
reset it, the command buffer recorded being the one at the same index, so no
submit lies between the wait and the record; and in every run of the loop
entered from `startup`, counting for each fence the submissions made with it
since its last successful wait, the count never exceeds one and is zero
whenever the command buffer with the same number is recorded. -/
theorem record_only_after_wait :
    (∀ (s : MainState) (e : IterEnv) (args : RecordArgs) (recorded : Option (List Cmd)),
      Event.record_commands args recorded ∈ (iteration s e).1 →
      ∃ fence post,
        s.cbfences[e.imageIndex]? = some fence ∧
        s.cbuffers[e.imageIndex]? = some args.aCmdBuff ∧
        (iteration s e).1 =
          loopHead s ++
            [.vkAcquireNextImageKHR s.imageAvailable VK_SUCCESS e.imageIndex,
             .vkWaitForFences fence VK_SUCCESS, .vkResetFences fence VK_SUCCESS,
             .record_commands args recorded] ++ post ∧
        ∀ ev ∈ post, ev ≠ .record_commands args recorded) ∧
    (∀ (window : VulkanWindow) (scene : Scene) (envs : List IterEnv) (f : VkFence)
        (pre post : List Event),
      (frameLoop (startup window scene) envs).trace = pre ++ post → pending f pre ≤ 1) ∧
    (∀ (window : VulkanWindow) (scene : Scene) (envs : List IterEnv) (i : Nat)
        (pre post : List Event) (args : RecordArgs) (recorded : Option (List Cmd)),
      (frameLoop (startup window scene) envs).trace =
          pre ++ .record_commands args recorded :: post →
      args.aCmdBuff = ⟨i⟩ → pending ⟨i⟩ pre = 0) := by
  refine ⟨fun s e args recorded hmem => ?_, fun window scene envs f pre post htrace => ?_,
    fun window scene envs i pre post args recorded htrace hbuf => ?_⟩
  · cases hflag : s.recreateSwapchain
    swap
    · exact absurd (stale_no_frameCall s e hflag _ hmem) (by simp [Event.isFrameCall])
    obtain ⟨p, hpath, hit⟩ := iteration_fresh s e hflag
    rw [hit] at hmem ⊢
    cases hpath <;> simp [loopHead, acquireEvent, submitEvent, presentEvent] at hmem
    case recordError fence cbuffer framebuffer ha hf hw hr hc hb hrec =>
      obtain ⟨rfl, rfl⟩ := hmem
      exact ⟨fence, [], hf, hc, by simp [loopHead, acquireEvent, ha], by simp⟩
    case submitError fence cbuffer framebuffer ha hf hw hr hc hb hbeg hend hs =>
      obtain ⟨rfl, rfl⟩ := hmem
      exact ⟨fence, [submitEvent s e cbuffer fence], hf, hc,
        by simp [loopHead, acquireEvent, ha], by simp [submitEvent]⟩
    case presented fence cbuffer framebuffer flow ha hf hw hr hc hb hbeg hend hs hp =>
      obtain ⟨rfl, rfl⟩ := hmem
      exact ⟨fence, [submitEvent s e cbuffer fence, presentEvent s e], hf, hc,
        by simp [loopHead, acquireEvent, ha], by simp [submitEvent, presentEvent]⟩
  · have hrun := pending_monitor_run f (startup window scene) envs (startup_paired window scene)
    rw [htrace] at hrun
    cases post with
    | nil => simpa [pending] using hrun.2
    | cons ev post => exact (Safe_at hrun.1).1
  · have hrun := pending_monitor_run ⟨i⟩ (startup window scene) envs
      (startup_paired window scene)
    rw [htrace] at hrun
    exact (Safe_at hrun.1).2 args recorded rfl (by rw [hbuf])

theorem record_only_after_wait_witness :
    (frameLoop (startup demoWindow demoScene) demoFourFrames).trace =
        (frameLoop (startup demoWindow demoScene) demoFourFrames).trace.take 29 ++
          .record_commands demoArgs (some (recordedCommands demoArgs)) ::
            (frameLoop (startup demoWindow demoScene) demoFourFrames).trace.drop 30 ∧
    pending ⟨0⟩ ((frameLoop (startup demoWindow demoScene) demoFourFrames).trace.take 29) = 0 :=
  ⟨by decide,
   record_only_after_wait.2.2 demoWindow demoScene demoFourFrames 0
     ((frameLoop (startup demoWindow demoScene) demoFourFrames).trace.take 29)
     ((frameLoop (startup demoWindow demoScene) demoFourFrames).trace.drop 30) demoArgs
     (some (recordedCommands demoArgs)) (by decide) rfl⟩

/-! ## Passes in which every call succeeds -/

theorem createFramebuffersFrom_success (w : VulkanWindow) (rp : RenderPass) (db : DepthBuffer)
    (res : Nat → VkResult) (hres : ∀ j, res j = VK_SUCCESS) (views : List VkImageView) :
    ∀ i, createFramebuffersFrom w rp db res i views =
      some (views.map fun v =>
        { renderPass := rp, colorView := v, depthView := db,
          width := w.swapchainExtent.width, height := w.swapchainExtent.height }) := by
  induction views with
  | nil => intro i; rfl
  | cons v vs ih =>
    intro i
    simp [createFramebuffersFrom, hres i, ih (i + 1)]

theorem framebuffersOf_eq (w : VulkanWindow) (rp : RenderPass) (db : DepthBuffer) :
    create_swapchain_framebuffers w rp db (fun _ => VK_SUCCESS) =
      some (framebuffersOf w rp db) := by
  simp [framebuffersOf, create_swapchain_framebuffers,
    createFramebuffersFrom_success w rp db (fun _ => VK_SUCCESS) (fun _ => rfl)]

theorem framebuffersOf_length (w : VulkanWindow) (rp : RenderPass) (db : DepthBuffer) :
    (framebuffersOf w rp db).length = w.swapViews.length := by
  simp [framebuffersOf, create_swapchain_framebuffers,
    createFramebuffersFrom_success w rp db (fun _ => VK_SUCCESS) (fun _ => rfl)]

theorem iteration_acquire_stale (s : MainState) (e : IterEnv)
    (h : s.recreateSwapchain = false)
    (ha : e.acquireRes = VK_SUBOPTIMAL_KHR ∨ e.acquireRes = VK_ERROR_OUT_OF_DATE_KHR) :
    iteration s e =
      (loopHead s ++ [acquireEvent s e], .continues { s with recreateSwapchain := true }) := by
  obtain ⟨r, hpath, hit⟩ := iteration_fresh s e h
  rw [hit]
  have hne1 : VK_SUCCESS ≠ VK_SUBOPTIMAL_KHR := by decide
  have hne2 : VK_SUCCESS ≠ VK_ERROR_OUT_OF_DATE_KHR := by decide
  cases hpath <;> simp_all

theorem iteration_okEnv (s : MainState) (w : VulkanWindow) (ch : SwapChanges) (i : Nat)
    (fence : VkFence) (cbuffer : VkCommandBuffer) (framebuffer : Framebuffer)
    (hflag : s.recreateSwapchain = false)
    (hf : s.cbfences[i]? = some fence) (hc : s.cbuffers[i]? = some cbuffer)
    (hb : s.framebuffers[i]? = some framebuffer) :
    iteration s (okEnv w ch i) = (frameEvents s i fence cbuffer framebuffer, .continues s) := by
  obtain ⟨r, hpath, hit⟩ := iteration_fresh s (okEnv w ch i) hflag
  rw [hit]
  have hne1 : VK_SUCCESS ≠ VK_SUBOPTIMAL_KHR := by decide
  have hne2 : VK_SUCCESS ≠ VK_ERROR_OUT_OF_DATE_KHR := by decide
  cases hpath <;> simp_all [okEnv, frameEvents, acquireEvent, submitEvent, presentEvent]

theorem iteration_okEnv_stale (s : MainState) (w : VulkanWindow) (ch : SwapChanges) (i : Nat)
    (hflag : s.recreateSwapchain = true) :
    iteration s (okEnv w ch i) =
      (loopHead s ++ recreatedEvents s w ch
          (framebuffersOf w (recreatedState s w ch []).renderPass
            (recreatedState s w ch []).depthBuffer),
       .continues (recreatedState s w ch
          (framebuffersOf w (recreatedState s w ch []).renderPass
            (recreatedState s w ch []).depthBuffer))) := by
  rw [iteration_stale s _ hflag]
  rcases ch with ⟨cs, cf⟩
  cases cs <;> cases cf <;>
    simp [recreation, okEnv, create_render_pass, create_depth_buffer, create_pipeline,
      create_alpha_pipeline, framebuffersOf_eq, recreatedState, recreatedEvents]

theorem startup_cbfences (w : VulkanWindow) (sc : Scene) (i : Nat)
    (h : i < w.swapViews.length) : (startup w sc).cbfences[i]? = some ⟨i⟩ := by
  simp [startup, framebuffersOf_length, List.getElem?_range, h]

theorem startup_cbuffers (w : VulkanWindow) (sc : Scene) (i : Nat)
    (h : i < w.swapViews.length) : (startup w sc).cbuffers[i]? = some ⟨i⟩ := by
  simp [startup, framebuffersOf_length, List.getElem?_range, h]

theorem framebuffersOf_get (w : VulkanWindow) (rp : RenderPass) (db : DepthBuffer) (i : Nat)
    (h : i < w.swapViews.length) : ∃ fb, (framebuffersOf w rp db)[i]? = some fb := by
  have : i < (framebuffersOf w rp db).length := by rw [framebuffersOf_length]; exact h
  exact ⟨_, List.getElem?_eq_getElem this⟩

theorem isNormalFrame_frameEvents (s : MainState) (i : Nat) (fence : VkFence)
    (cbuffer : VkCommandBuffer) (framebuffer : Framebuffer) :
    isNormalFrame (frameEvents s i fence cbuffer framebuffer) = true := by
  simp [isNormalFrame, frameEvents, loopHead]

theorem outOfDateRun_iterations (window window' : VulkanWindow) (scene : Scene)
    (changes : SwapChanges) (idx : Nat → Nat)
    (h0 : ∀ k, idx k < window.swapViews.length) (h1 : idx 6 < window'.swapViews.length) :
    ∃ f0 f1 f2 f3 f6 fbs s6,
      s6 = recreatedState { startup window scene with recreateSwapchain := true }
        window' changes fbs ∧
      outOfDateRun window window' scene changes idx =
        { iterations :=
            [frameEvents (startup window scene) (idx 0) ⟨idx 0⟩ ⟨idx 0⟩ f0,
             frameEvents (startup window scene) (idx 1) ⟨idx 1⟩ ⟨idx 1⟩ f1,
             frameEvents (startup window scene) (idx 2) ⟨idx 2⟩ ⟨idx 2⟩ f2,
             frameEvents (startup window scene) (idx 3) ⟨idx 3⟩ ⟨idx 3⟩ f3,
             loopHead (startup window scene) ++
               [.vkAcquireNextImageKHR ⟨0⟩ VK_ERROR_OUT_OF_DATE_KHR (idx 4)],
             loopHead (startup window scene) ++
               recreatedEvents { startup window scene with recreateSwapchain := true }
                 window' changes fbs,
             frameEvents s6 (idx 6) ⟨idx 6⟩ ⟨idx 6⟩ f6],
          outcome := .running,
          final := s6 } := by
  obtain ⟨f0, hf0⟩ := framebuffersOf_get window (startup window scene).renderPass
    (startup window scene).depthBuffer (idx 0) (h0 0)
  obtain ⟨f1, hf1⟩ := framebuffersOf_get window (startup window scene).renderPass
    (startup window scene).depthBuffer (idx 1) (h0 1)
  obtain ⟨f2, hf2⟩ := framebuffersOf_get window (startup window scene).renderPass
    (startup window scene).depthBuffer (idx 2) (h0 2)
  obtain ⟨f3, hf3⟩ := framebuffersOf_get window (startup window scene).renderPass
    (startup window scene).depthBuffer (idx 3) (h0 3)
  have hstale := iteration_okEnv_stale
    { startup window scene with recreateSwapchain := true } window' changes (idx 5) rfl
  generalize hfbs : framebuffersOf window'
    (recreatedState { startup window scene with recreateSwapchain := true }
      window' changes []).renderPass
    (recreatedState { startup window scene with recreateSwapchain := true }
      window' changes []).depthBuffer = fbs at hstale
  obtain ⟨f6, hf6⟩ : ∃ fb, fbs[idx 6]? = some fb := by
    rw [← hfbs]; exact framebuffersOf_get _ _ _ _ h1
  refine ⟨f0, f1, f2, f3, f6, fbs, _, rfl, ?_⟩
  have hs : ∀ k f, (framebuffersOf window (startup window scene).renderPass
      (startup window scene).depthBuffer)[idx k]? = some f →
      iteration (startup window scene) (okEnv window' changes (idx k)) =
        (frameEvents (startup window scene) (idx k) ⟨idx k⟩ ⟨idx k⟩ f,
          .continues (startup window scene)) :=
    fun k f hf => iteration_okEnv _ _ _ _ _ _ _ rfl (startup_cbfences window scene _ (h0 k))
      (startup_cbuffers window scene _ (h0 k)) hf
  have h5 := iteration_acquire_stale (startup window scene)
    { okEnv window' changes (idx 4) with acquireRes := VK_ERROR_OUT_OF_DATE_KHR } rfl
      (Or.inr rfl)
  have h7 := iteration_okEnv
    (recreatedState { startup window scene with recreateSwapchain := true } window' changes fbs)
    window' changes (idx 6) ⟨idx 6⟩ ⟨idx 6⟩ f6 rfl
    (startup_cbfences window scene (idx 6) (h0 6))
    (startup_cbuffers window scene (idx 6) (h0 6)) hf6
  unfold outOfDateRun outOfDateAtFive
  rw [frameLoop_continues _ _ _ _ _ rfl (hs 0 f0 hf0),
    frameLoop_continues _ _ _ _ _ rfl (hs 1 f1 hf1),
    frameLoop_continues _ _ _ _ _ rfl (hs 2 f2 hf2),
    frameLoop_continues _ _ _ _ _ rfl (hs 3 f3 hf3),
    frameLoop_continues _ _ _ _ _ rfl h5,
    frameLoop_continues _ _ _ _ _ rfl hstale,
    frameLoop_continues _ _ _ _ _ rfl h7, frameLoop_nil]
  rfl

/-! ## An out-of-date acquire in the fifth pass -/

theorem recreatedEvents_no_frameCall (s s0 : MainState) (w : VulkanWindow) (ch : SwapChanges)
    (fbs : List Framebuffer) :
    ∀ ev ∈ loopHead s0 ++ recreatedEvents s w ch fbs, ev.isFrameCall = false := by
  rcases ch with ⟨cs, cf⟩
  cases cs <;> cases cf <;> simp [loopHead, recreatedEvents, Event.isFrameCall]

/-- C5, as stated, fails: with `VK_ERROR_OUT_OF_DATE_KHR` from the acquire of
the fifth pass and success everywhere else, the sixth pass is not a normal
frame. -/
theorem sixth_pass_not_normal_frame :
    ¬ ∃ t, (outOfDateRun demoWindow demoResized demoScene ⟨true, false⟩
        (fun k => k % 3)).iterations[5]? = some t ∧ isNormalFrame t = true := by
  rintro ⟨t, ht, hn⟩
  have h : ((outOfDateRun demoWindow demoResized demoScene ⟨true, false⟩
      (fun k => k % 3)).iterations[5]?).map isNormalFrame = some false := by decide
  rw [ht] at h
  simp [hn] at h

/-- C5, amended: with `VK_ERROR_OUT_OF_DATE_KHR` from the acquire of the
fifth pass and success everywhere else, the run has exactly one
`recreate_swapchain` call; the fifth pass ends right after its acquire call;
the sixth pass is the recreation and makes no acquire, wait, reset, record,
submit or present call; the seventh pass is a normal frame, as are the first
four. -/
theorem out_of_date_at_five (window window' : VulkanWindow) (scene : Scene)
    (changes : SwapChanges) (idx : Nat → Nat)
    (h0 : ∀ k, idx k < window.swapViews.length) (h1 : idx 6 < window'.swapViews.length) :
    (outOfDateRun window window' scene changes idx).outcome = .running ∧
    (outOfDateRun window window' scene changes idx).iterations.length = 7 ∧
    (outOfDateRun window window' scene changes idx).trace.countP Event.isRecreate = 1 ∧
    (outOfDateRun window window' scene changes idx).iterations[4]? =
      some (loopHead (startup window scene) ++
        [.vkAcquireNextImageKHR ⟨0⟩ VK_ERROR_OUT_OF_DATE_KHR (idx 4)]) ∧
    (∃ t, (outOfDateRun window window' scene changes idx).iterations[5]? = some t ∧
      (∃ ev ∈ t, ev.isRecreate = true) ∧ ∀ ev ∈ t, ev.isFrameCall = false) ∧
    (∃ t, (outOfDateRun window window' scene changes idx).iterations[6]? = some t ∧
      isNormalFrame t = true) ∧
    (∀ k < 4, ∃ t, (outOfDateRun window window' scene changes idx).iterations[k]? = some t ∧
      isNormalFrame t = true) := by
  obtain ⟨f0, f1, f2, f3, f6, fbs, s6, -, hrun⟩ :=
    outOfDateRun_iterations window window' scene changes idx h0 h1
  rw [hrun]
  refine ⟨rfl, rfl, ?_, rfl, ⟨_, rfl, ?_, ?_⟩, ⟨_, rfl, isNormalFrame_frameEvents _ _ _ _ _⟩, ?_⟩
  · rcases changes with ⟨cs, cf⟩
    cases cs <;> cases cf <;>
      simp [Run.trace, frameEvents, loopHead, recreatedEvents, Event.isRecreate]
  · exact ⟨.recreate_swapchain (some changes), by simp [recreatedEvents], rfl⟩
  · exact recreatedEvents_no_frameCall _ _ _ _ _
  · intro k hk
    have hk' : k = 0 ∨ k = 1 ∨ k = 2 ∨ k = 3 := by omega
    rcases hk' with rfl | rfl | rfl | rfl <;>
      exact ⟨_, rfl, isNormalFrame_frameEvents _ _ _ _ _⟩

theorem out_of_date_at_five_witness :
    (∀ k, (fun k => k % 3) k < demoWindow.swapViews.length) ∧
    (fun k => k % 3) 6 < demoResized.swapViews.length ∧
    (outOfDateRun demoWindow demoResized demoScene ⟨true, false⟩
      (fun k => k % 3)).trace.countP Event.isRecreate = 1 :=
  ⟨fun k => Nat.mod_lt k (by decide), by decide,
   (out_of_date_at_five demoWindow demoResized demoScene ⟨true, false⟩ (fun k => k % 3)
     (fun k => Nat.mod_lt k (by decide)) (by decide)).2.2.1⟩

/-! ## What a recreation replaces -/

theorem createFramebuffersFrom_some (w : VulkanWindow) (rp : RenderPass) (db : DepthBuffer)
    (res : Nat → VkResult) (views : List VkImageView) :
    ∀ i fbs, createFramebuffersFrom w rp db res i views = some fbs →
      fbs = views.map fun v =>
        { renderPass := rp, colorView := v, depthView := db,
          width := w.swapchainExtent.width, height := w.swapchainExtent.height } := by
  induction views with
  | nil =>
    intro i fbs h
    simpa [createFramebuffersFrom, eq_comm] using h
  | cons v vs ih =>
    intro i fbs h
    unfold createFramebuffersFrom at h
    split at h
    · simp at h
    · split at h
      · simp at h
      next rest hrest =>
        rw [ih _ _ hrest] at h
        simpa [eq_comm] using h

theorem iteration_recreated {s s' : MainState} {e : IterEnv} {t : List Event}
    {w : VulkanWindow} {ch : SwapChanges}
    (hflag : s.recreateSwapchain = true) (hrec : e.recreated = some (w, ch))
    (hit : iteration s e = (t, .continues s')) :
    ∃ fbs, s' = recreatedState s w ch fbs ∧ t = loopHead s ++ recreatedEvents s w ch fbs ∧
      fbs = w.swapViews.map fun v =>
        { renderPass := (recreatedState s w ch fbs).renderPass, colorView := v,
          depthView := (recreatedState s w ch fbs).depthBuffer,
          width := w.swapchainExtent.width, height := w.swapchainExtent.height } := by
  rw [iteration_stale s e hflag] at hit
  have h1 := congrArg Prod.fst hit
  have h2 := congrArg Prod.snd hit
  dsimp only [] at h1 h2
  obtain ⟨w', ch', fbs, hrec', hfbs, hs', ht⟩ :=
    recreation_continues (t := (recreation s e).1) (Prod.ext rfl h2)
  rw [hrec] at hrec'
  obtain ⟨rfl, rfl⟩ := Prod.mk.inj (Option.some.inj hrec')
  refine ⟨fbs, hs', ?_, ?_⟩
  · rw [← h1, ht]
  · exact createFramebuffersFrom_some _ _ _ _ _ _ _ hfbs

/-- C6: in a recreation that runs to its end, the render pass is replaced
exactly when `changedFormat` is reported (and `create_render_pass` is called
exactly then); when only `changedSize` is reported, the render pass is the
object it was, while the depth buffer, the framebuffers and both pipelines
are created anew, the new framebuffers and pipelines referring to the kept
render pass. -/
theorem recreation_replaces (s s' : MainState) (e : IterEnv) (t : List Event)
    (w : VulkanWindow) (ch : SwapChanges)
    (hflag : s.recreateSwapchain = true) (hrec : e.recreated = some (w, ch))
    (hit : iteration s e = (t, .continues s')) :
    (s'.renderPass ≠ s.renderPass ↔ ch.changedFormat = true) ∧
    ((∃ made, Event.create_render_pass made ∈ t) ↔ ch.changedFormat = true) ∧
    (ch.changedFormat = false → ch.changedSize = true →
      s'.renderPass = s.renderPass ∧
      s'.depthBuffer ≠ s.depthBuffer ∧ Event.create_depth_buffer (some s'.depthBuffer) ∈ t ∧
      Event.create_swapchain_framebuffers (some s'.framebuffers) ∈ t ∧
      (∀ fb ∈ s'.framebuffers, fb.depthView = s'.depthBuffer ∧ fb.renderPass = s.renderPass) ∧
      s'.pipe ≠ s.pipe ∧ Event.create_pipeline (some s'.pipe) ∈ t ∧
      s'.pipe.renderPass = s.renderPass ∧
      s'.alphaPipe ≠ s.alphaPipe ∧ Event.create_alpha_pipeline (some s'.alphaPipe) ∈ t ∧
      s'.alphaPipe.renderPass = s.renderPass) := by
  obtain ⟨fbs, rfl, rfl, hfbs⟩ := iteration_recreated hflag hrec hit
  have hgen : ∀ (a b : RenderPass), a.generation ≠ b.generation → a ≠ b :=
    fun a b h hab => h (by rw [hab])
  have hgenD : ∀ (a b : DepthBuffer), a.generation ≠ b.generation → a ≠ b :=
    fun a b h hab => h (by rw [hab])
  have hgenP : ∀ (a b : Pipeline), a.generation ≠ b.generation → a ≠ b :=
    fun a b h hab => h (by rw [hab])
  rcases ch with ⟨cs, cf⟩
  refine ⟨?_, ?_, ?_⟩
  · cases cf
    · simp [recreatedState]
    · simpa [recreatedState] using hgen _ _ (Nat.succ_ne_self _)
  · cases cf <;> cases cs <;> simp [recreatedEvents, loopHead]
  · rintro rfl rfl
    refine ⟨by simp [recreatedState], ?_, by simp [recreatedEvents, loopHead, recreatedState],
      by simp [recreatedEvents, loopHead, recreatedState], ?_, ?_,
      by simp [recreatedEvents, loopHead, recreatedState], by simp [recreatedState], ?_,
      by simp [recreatedEvents, loopHead, recreatedState], by simp [recreatedState]⟩
    · simpa [recreatedState] using hgenD _ _ (Nat.succ_ne_self _)
    · intro fb hfb
      have hfb' : fb ∈ fbs := by simpa [recreatedState] using hfb
      rw [hfbs] at hfb'
      simp only [List.mem_map] at hfb'
      obtain ⟨v, -, rfl⟩ := hfb'
      simp [recreatedState]
    · simpa [recreatedState] using hgenP _ _ (Nat.succ_ne_self _)
    · simpa [recreatedState] using hgenP _ _ (Nat.succ_ne_self _)

theorem recreation_replaces_witness :
    demoStale.recreateSwapchain = true ∧
    (okEnv demoResized ⟨true, false⟩ 0).recreated = some (demoResized, ⟨true, false⟩) ∧
    (iteration demoStale (okEnv demoResized ⟨true, false⟩ 0)).2 =
      .continues (recreatedState demoStale demoResized ⟨true, false⟩
        (framebuffersOf demoResized ⟨0, 50⟩ ⟨1, ⟨800, 600⟩⟩)) ∧
    ((recreatedState demoStale demoResized ⟨true, false⟩
        (framebuffersOf demoResized ⟨0, 50⟩ ⟨1, ⟨800, 600⟩⟩)).renderPass ≠ demoStale.renderPass ↔
      (⟨true, false⟩ : SwapChanges).changedFormat = true) :=
  ⟨rfl, rfl, by decide,
   (recreation_replaces demoStale _ (okEnv demoResized ⟨true, false⟩ 0) _ demoResized
      ⟨true, false⟩ rfl rfl
      (show iteration demoStale (okEnv demoResized ⟨true, false⟩ 0) =
        ((iteration demoStale (okEnv demoResized ⟨true, false⟩ 0)).1,
          .continues (recreatedState demoStale demoResized ⟨true, false⟩
            (framebuffersOf demoResized ⟨0, 50⟩ ⟨1, ⟨800, 600⟩⟩))) by decide)).1⟩

/-- C7, as stated, fails: a recreation whose report has only `changedFormat`
set, and one whose report has neither flag set, runs to its end without
calling `create_depth_buffer` and keeps the depth buffer it had. -/
theorem depth_buffer_kept :
    (iteration demoStale (okEnv demoWindow ⟨false, true⟩ 0)).1.any
        Event.isDepthBufferCreation = false ∧
    (iteration demoStale (okEnv demoWindow ⟨false, true⟩ 0)).2 =
      .continues (recreatedState demoStale demoWindow ⟨false, true⟩
        (framebuffersOf demoWindow ⟨1, 50⟩ demoStale.depthBuffer)) ∧
    (iteration demoStale (okEnv demoWindow ⟨false, false⟩ 0)).1.any
        Event.isDepthBufferCreation = false ∧
    (iteration demoStale (okEnv demoWindow ⟨false, false⟩ 0)).2 =
      .continues (recreatedState demoStale demoWindow ⟨false, false⟩
        (framebuffersOf demoWindow ⟨0, 50⟩ demoStale.depthBuffer)) ∧
    (recreatedState demoStale demoWindow ⟨false, true⟩
        (framebuffersOf demoWindow ⟨1, 50⟩ demoStale.depthBuffer)).depthBuffer =
      demoStale.depthBuffer ∧
    (recreatedState demoStale demoWindow ⟨false, false⟩
        (framebuffersOf demoWindow ⟨0, 50⟩ demoStale.depthBuffer)).depthBuffer =
      demoStale.depthBuffer := by
  decide

/-- C7, amended: in a recreation that runs to its end the framebuffers are
always created anew, one per image view of the new swapchain, each with the
width and height of the new extent and attached to the current depth buffer
and render pass; the depth buffer is created anew exactly when `changedSize`
is reported, and then has the new extent; otherwise it is kept. -/
theorem recreation_rebuilds (s s' : MainState) (e : IterEnv) (t : List Event)
    (w : VulkanWindow) (ch : SwapChanges)
    (hflag : s.recreateSwapchain = true) (hrec : e.recreated = some (w, ch))
    (hit : iteration s e = (t, .continues s')) :
    s'.window = w ∧
    Event.create_swapchain_framebuffers (some s'.framebuffers) ∈ t ∧
    s'.framebuffers.length = w.swapViews.length ∧
    (∀ fb ∈ s'.framebuffers,
      fb.width = w.swapchainExtent.width ∧ fb.height = w.swapchainExtent.height ∧
      fb.depthView = s'.depthBuffer ∧ fb.renderPass = s'.renderPass) ∧
    (s'.depthBuffer ≠ s.depthBuffer ↔ ch.changedSize = true) ∧
    ((∃ made, Event.create_depth_buffer made ∈ t) ↔ ch.changedSize = true) ∧
    (ch.changedSize = true → s'.depthBuffer.extent = w.swapchainExtent) ∧
    (ch.changedSize = false → s'.depthBuffer = s.depthBuffer) := by
  obtain ⟨fbs, rfl, rfl, hfbs⟩ := iteration_recreated hflag hrec hit
  have hgenD : ∀ (a b : DepthBuffer), a.generation ≠ b.generation → a ≠ b :=
    fun a b h hab => h (by rw [hab])
  have hfb : (recreatedState s w ch fbs).framebuffers = fbs := by simp [recreatedState]
  refine ⟨by simp [recreatedState], ?_, ?_, ?_, ?_, ?_, ?_, ?_⟩
  · rw [hfb]
    rcases ch with ⟨cs, cf⟩
    cases cf <;> cases cs <;> simp [recreatedEvents, loopHead]
  · rw [hfb, hfbs, List.length_map]
  · intro fb hmem
    rw [hfb, hfbs] at hmem
    simp only [List.mem_map] at hmem
    obtain ⟨v, -, rfl⟩ := hmem
    simp
  · rcases ch with ⟨cs, cf⟩
    cases cs
    · simp [recreatedState]
    · simpa [recreatedState] using hgenD _ _ (Nat.succ_ne_self _)
  · rcases ch with ⟨cs, cf⟩
    cases cf <;> cases cs <;> simp [recreatedEvents, loopHead]
  · intro hcs
    simp [recreatedState, hcs]
  · intro hcs
    simp [recreatedState, hcs]

theorem recreation_rebuilds_witness :
    demoStale.recreateSwapchain = true ∧
    (okEnv demoResized ⟨true, false⟩ 0).recreated = some (demoResized, ⟨true, false⟩) ∧
    (iteration demoStale (okEnv demoResized ⟨true, false⟩ 0)).2 =
      .continues (recreatedState demoStale demoResized ⟨true, false⟩
        (framebuffersOf demoResized ⟨0, 50⟩ ⟨1, ⟨800, 600⟩⟩)) ∧
    (recreatedState demoStale demoResized ⟨true, false⟩
        (framebuffersOf demoResized ⟨0, 50⟩ ⟨1, ⟨800, 600⟩⟩)).framebuffers.length =
      demoResized.swapViews.length :=
  ⟨rfl, rfl, by decide,
   (recreation_rebuilds demoStale _ (okEnv demoResized ⟨true, false⟩ 0) _ demoResized
      ⟨true, false⟩ rfl rfl
      (show iteration demoStale (okEnv demoResized ⟨true, false⟩ 0) =
        ((iteration demoStale (okEnv demoResized ⟨true, false⟩ 0)).1,
          .continues (recreatedState demoStale demoResized ⟨true, false⟩
            (framebuffersOf demoResized ⟨0, 50⟩ ⟨1, ⟨800, 600⟩⟩))) by decide)).2.2.1⟩

/-! ## What is submitted and presented -/

/-- C9: in a pass through the body that makes the submit call, the acquire
call of the same pass returned success and delivered the index `i` of the
pass; the submit passes exactly the command buffer at index `i`, waits on
exactly the semaphore given to that acquire call at the colour attachment
output stage, signals exactly one semaphore, `renderFinished`, and the fence
at index `i`; and a present call of the pass waits on exactly that
`renderFinished` semaphore and presents image `i` of the current swapchain. -/
theorem submit_and_present_contents (s : MainState) (e : IterEnv) (info : VkSubmitInfo)
    (fence : VkFence) (res : VkResult)
    (h : Event.vkQueueSubmit info fence res ∈ (iteration s e).1) :
    ∃ cbuffer sem,
      s.cbuffers[e.imageIndex]? = some cbuffer ∧ s.cbfences[e.imageIndex]? = some fence ∧
      Event.vkAcquireNextImageKHR sem VK_SUCCESS e.imageIndex ∈ (iteration s e).1 ∧
      (∀ sem' r i, Event.vkAcquireNextImageKHR sem' r i ∈ (iteration s e).1 →
        sem' = sem ∧ r = VK_SUCCESS ∧ i = e.imageIndex) ∧
      info.pCommandBuffers = [cbuffer] ∧
      info.pWaitSemaphores = [sem] ∧
      info.pWaitDstStageMask = [.VK_PIPELINE_STAGE_COLOR_ATTACHMENT_OUTPUT_BIT] ∧
      info.pSignalSemaphores = [s.renderFinished] ∧
      (∀ info' fence' res', Event.vkQueueSubmit info' fence' res' ∈ (iteration s e).1 →
        info' = info ∧ fence' = fence) ∧
      (∀ pinfo pres, Event.vkQueuePresentKHR pinfo pres ∈ (iteration s e).1 →
        pinfo.pWaitSemaphores = [s.renderFinished] ∧ pinfo.pImageIndices = [e.imageIndex] ∧
        pinfo.pSwapchains = [s.window.swapchain]) ∧
      (res = VK_SUCCESS → ∃ pinfo pres,
        Event.vkQueuePresentKHR pinfo pres ∈ (iteration s e).1) := by
  cases hflag : s.recreateSwapchain
  swap
  · exact absurd (stale_no_frameCall s e hflag _ h) (by simp [Event.isFrameCall])
  obtain ⟨p, hpath, hit⟩ := iteration_fresh s e hflag
  rw [hit] at h ⊢
  cases hpath <;> simp [loopHead, acquireEvent, submitEvent, presentEvent] at h
  case submitError fence' cbuffer framebuffer ha hf hw hr hc hb hbeg hend hs =>
    obtain ⟨rfl, rfl, rfl⟩ := h
    refine ⟨cbuffer, s.imageAvailable, hc, hf, ?_⟩
    simp [loopHead, acquireEvent, submitEvent, presentEvent, submitInfo, ha, hs]
    intro _ _ _ h1 h2 _
    exact ⟨h1, h2⟩
  case presented fence' cbuffer framebuffer flow ha hf hw hr hc hb hbeg hend hs hp =>
    obtain ⟨rfl, rfl, rfl⟩ := h
    refine ⟨cbuffer, s.imageAvailable, hc, hf, ?_⟩
    simp [loopHead, acquireEvent, submitEvent, presentEvent, submitInfo, presentInfo, ha, hs]
    intro _ _ _ h1 h2 _
    exact ⟨h1, h2⟩

theorem submit_and_present_contents_witness :
    Event.vkQueueSubmit (submitInfo ⟨1⟩ ⟨0⟩ ⟨1⟩) ⟨1⟩ VK_SUCCESS ∈
        (iteration (startup demoWindow demoScene) (okEnv demoWindow ⟨false, false⟩ 1)).1 ∧
    ∃ pinfo pres, Event.vkQueuePresentKHR pinfo pres ∈
        (iteration (startup demoWindow demoScene) (okEnv demoWindow ⟨false, false⟩ 1)).1 :=
  ⟨by decide,
   by
    obtain ⟨_, _, _, _, _, _, _, _, _, _, _, _, hpres⟩ :=
      submit_and_present_contents (startup demoWindow demoScene)
        (okEnv demoWindow ⟨false, false⟩ 1) (submitInfo ⟨1⟩ ⟨0⟩ ⟨1⟩) ⟨1⟩ VK_SUCCESS (by decide)
    exact hpres rfl⟩

/-! ## Semaphores and slots -/

theorem Safe_mem {σ : Type} {step : σ → Event → σ} {P : Event → Prop} {t : List Event} :
    ∀ {q : σ}, Safe step (fun _ ev => P ev) q t → ∀ ev ∈ t, P ev := by
  induction t with
  | nil => intro q _ ev hmem; simp at hmem
  | cons e t ih =>
    intro q h ev hmem
    rcases List.mem_cons.1 hmem with rfl | hmem
    · exact h.1
    · exact ih h.2 ev hmem

theorem usesSemaphores_iteration (s : MainState) (e : IterEnv) :
    ∀ ev ∈ (iteration s e).1, usesSemaphores s.imageAvailable s.renderFinished ev := by
  cases hflag : s.recreateSwapchain
  · obtain ⟨r, hpath, hit⟩ := iteration_fresh s e hflag
    rw [hit]
    cases hpath <;>
      simp [loopHead, acquireEvent, submitEvent, presentEvent, usesSemaphores, submitInfo,
        presentInfo]
  · intro ev hmem
    have := stale_no_frameCall s e hflag ev hmem
    cases ev <;> simp_all [Event.isFrameCall, usesSemaphores]

theorem usesSemaphores_run (s : MainState) (envs : List IterEnv) :
    ∀ ev ∈ (frameLoop s envs).trace, usesSemaphores s.imageAvailable s.renderFinished ev :=
  Safe_mem
    (frameLoop_safe (fun (_ : Unit) _ => ())
      (fun _ ev => usesSemaphores s.imageAvailable s.renderFinished ev)
      (fun s' _ => s'.imageAvailable = s.imageAvailable ∧ s'.renderFinished = s.renderFinished)
      (fun _ => True) (fun _ _ _ => trivial)
      (fun s' e q hinv => by
        refine ⟨?_, trivial, fun s'' hcont => ?_⟩
        · refine Safe_of_forall _ _ _ (fun _ ev hmem => ?_) q
          rw [← hinv.1, ← hinv.2]
          exact usesSemaphores_iteration s' e ev hmem
        · obtain ⟨-, -, h1, h2⟩ := iteration_continues_fixed hcont
          exact ⟨h1.trans hinv.1, h2.trans hinv.2⟩)
      envs s () ⟨rfl, rfl⟩).1

/-- C10, as stated, fails: a frame on image 0 and a frame on image 1 pass the
same semaphores to the driver. -/
theorem slots_share_semaphores :
    (0 : Nat) ≠ 1 ∧
    semaphoresUsed
        (iteration (startup demoWindow demoScene) (okEnv demoWindow ⟨false, false⟩ 0)).1 =
      [⟨0⟩, ⟨0⟩, ⟨1⟩, ⟨1⟩] ∧
    semaphoresUsed
        (iteration (startup demoWindow demoScene) (okEnv demoWindow ⟨false, false⟩ 1)).1 =
      [⟨0⟩, ⟨0⟩, ⟨1⟩, ⟨1⟩] := by
  decide

/-- C10, amended: the command buffers and the fences are one per image index,
those at distinct indices being distinct objects, while there is a single
`imageAvailable` and a single `renderFinished` semaphore: in every run of the
loop every acquire call is given `imageAvailable`, every submit waits on
exactly `imageAvailable` and signals exactly `renderFinished`, and every
present waits on exactly `renderFinished`, whatever the image index. -/
theorem one_semaphore_pair_for_all_slots :
    (∀ (s : MainState) (envs : List IterEnv), ∀ ev ∈ (frameLoop s envs).trace,
      usesSemaphores s.imageAvailable s.renderFinished ev) ∧
    (∀ (window : VulkanWindow) (scene : Scene) (i j : Nat) (c c' : VkCommandBuffer),
      i ≠ j → (startup window scene).cbuffers[i]? = some c →
      (startup window scene).cbuffers[j]? = some c' → c ≠ c') ∧
    (∀ (window : VulkanWindow) (scene : Scene) (i j : Nat) (f f' : VkFence),
      i ≠ j → (startup window scene).cbfences[i]? = some f →
      (startup window scene).cbfences[j]? = some f' → f ≠ f') ∧
    (∀ (window : VulkanWindow) (scene : Scene),
      (startup window scene).imageAvailable ≠ (startup window scene).renderFinished) := by
  refine ⟨usesSemaphores_run, ?_, ?_, ?_⟩
  · intro window scene i j c c' hij hc hc'
    have hi : i < window.swapViews.length := by
      have := (List.getElem?_eq_some_iff.1 hc).1
      simpa [startup, framebuffersOf_length] using this
    have hj : j < window.swapViews.length := by
      have := (List.getElem?_eq_some_iff.1 hc').1
      simpa [startup, framebuffersOf_length] using this
    rw [startup_cbuffers window scene i hi] at hc
    rw [startup_cbuffers window scene j hj] at hc'
    rw [← Option.some.inj hc, ← Option.some.inj hc']
    intro h
    exact hij (VkCommandBuffer.mk.inj h)
  · intro window scene i j f f' hij hf hf'
    have hi : i < window.swapViews.length := by
      have := (List.getElem?_eq_some_iff.1 hf).1
      simpa [startup, framebuffersOf_length] using this
    have hj : j < window.swapViews.length := by
      have := (List.getElem?_eq_some_iff.1 hf').1
      simpa [startup, framebuffersOf_length] using this
    rw [startup_cbfences window scene i hi] at hf
    rw [startup_cbfences window scene j hj] at hf'
    rw [← Option.some.inj hf, ← Option.some.inj hf']
    intro h
    exact hij (VkFence.mk.inj h)
  · intro window scene h
    simp [startup] at h

theorem one_semaphore_pair_for_all_slots_witness :
    Event.vkQueueSubmit (submitInfo ⟨2⟩ ⟨0⟩ ⟨1⟩) ⟨2⟩ VK_SUCCESS ∈
        (frameLoop (startup demoWindow demoScene) demoFourFrames).trace ∧
    usesSemaphores (startup demoWindow demoScene).imageAvailable
      (startup demoWindow demoScene).renderFinished
      (Event.vkQueueSubmit (submitInfo ⟨2⟩ ⟨0⟩ ⟨1⟩) ⟨2⟩ VK_SUCCESS) :=
  ⟨by decide,
   one_semaphore_pair_for_all_slots.1 (startup demoWindow demoScene) demoFourFrames _
     (by decide)⟩

/-! ## The recorded command sequence -/

theorem record_commands_some {a : RecordArgs} {b n : VkResult} {cmds : List Cmd}
    (h : record_commands a b n = some cmds) : cmds = recordedCommands a := by
  unfold record_commands at h
  split at h
  · exact absurd h (by simp)
  · split at h
    · exact absurd h (by simp)
    · exact (Option.some.inj h).symm

/-- C15: the size of `glsl::SceneUniform`, three matrices of sixteen 4-byte
floats, is 192 bytes; it is at most 65536 and a multiple of 4 (the two
`static_assert`s); and whenever `record_commands` returns, the command
sequence has exactly one `vkCmdUpdateBuffer`, whose byte count is this size. -/
theorem scene_uniform_size :
    sizeof_SceneUniform = 192 ∧ sizeof_SceneUniform ≤ 65536 ∧ sizeof_SceneUniform % 4 = 0 ∧
    (∀ (a : RecordArgs) (b n : VkResult) (cmds : List Cmd),
      record_commands a b n = some cmds →
      updateSizes cmds = [sizeof_SceneUniform] ∧
      Cmd.vkCmdUpdateBuffer a.aSceneUBO 0 192 a.aSceneUniform ∈ cmds) := by
  refine ⟨rfl, by decide, by decide, fun a b n cmds h => ?_⟩
  rw [record_commands_some h]
  exact ⟨rfl, by simp [recordedCommands, sizeof_SceneUniform]⟩

theorem scene_uniform_size_witness :
    record_commands demoArgs VK_SUCCESS VK_SUCCESS = some (recordedCommands demoArgs) ∧
    updateSizes (recordedCommands demoArgs) = [192] :=
  ⟨by decide,
   (scene_uniform_size.2.2.2 demoArgs VK_SUCCESS VK_SUCCESS (recordedCommands demoArgs)
     (by decide)).1⟩

theorem record_args_iteration (s : MainState) (e : IterEnv) (args : RecordArgs)
    (recorded : Option (List Cmd))
    (h : Event.record_commands args recorded ∈ (iteration s e).1) :
    ∃ cbuffer framebuffer,
      s.cbuffers[e.imageIndex]? = some cbuffer ∧
      s.framebuffers[e.imageIndex]? = some framebuffer ∧
      args = recordArgs s ⟨s.window.swapchainExtent.width, s.window.swapchainExtent.height⟩
        cbuffer framebuffer := by
  cases hflag : s.recreateSwapchain
  swap
  · exact absurd (stale_no_frameCall s e hflag _ h) (by simp [Event.isFrameCall])
  obtain ⟨p, hpath, hit⟩ := iteration_fresh s e hflag
  rw [hit] at h
  cases hpath <;> simp [loopHead, acquireEvent, submitEvent, presentEvent] at h
  case recordError fence cbuffer framebuffer ha hf hw hr hc hb hrec =>
    exact ⟨cbuffer, framebuffer, hc, hb, h.1⟩
  case submitError fence cbuffer framebuffer ha hf hw hr hc hb hbeg hend hs =>
    exact ⟨cbuffer, framebuffer, hc, hb, h.1⟩
  case presented fence cbuffer framebuffer flow ha hf hw hr hc hb hbeg hend hs hp =>
    exact ⟨cbuffer, framebuffer, hc, hb, h.1⟩

theorem iteration_continues_pipes {s s' : MainState} {e : IterEnv}
    (h : (iteration s e).2 = .continues s')
    (hinv : s.pipe.alpha = false ∧ s.alphaPipe.alpha = true) :
    s'.pipe.alpha = false ∧ s'.alphaPipe.alpha = true := by
  cases hflag : s.recreateSwapchain
  · obtain ⟨r, hpath, hit⟩ := iteration_fresh s e hflag
    rw [hit] at h
    cases hpath <;> simp at h
    case acquireStale => subst h; exact hinv
    case presented fence cbuffer framebuffer flow ha hf hw hr hc hb hbeg hend hs hp =>
      subst h
      rcases hp with ⟨_, h⟩ | ⟨_, h⟩ | ⟨_, h⟩
      · rw [Flow.continues.inj h]; exact hinv
      · simp at h
      · rw [Flow.continues.inj h]; exact hinv
  · rw [iteration_stale s e hflag] at h
    obtain ⟨w, ch, fbs, -, -, rfl, -⟩ :=
      recreation_continues (t := (recreation s e).1) (Prod.ext rfl h)
    rcases ch with ⟨cs, cf⟩
    cases cs <;> simp [recreatedState, hinv.1, hinv.2]

theorem record_pipelines_run (s : MainState) (envs : List IterEnv)
    (hinv : s.pipe.alpha = false ∧ s.alphaPipe.alpha = true) :
    ∀ ev ∈ (frameLoop s envs).trace, ∀ args recorded, ev = .record_commands args recorded →
      args.aGraphicsPipe.alpha = false ∧ args.aAlphaPipeline.alpha = true :=
  Safe_mem
    (frameLoop_safe (fun (_ : Unit) _ => ())
      (fun _ ev => ∀ args recorded, ev = .record_commands args recorded →
        args.aGraphicsPipe.alpha = false ∧ args.aAlphaPipeline.alpha = true)
      (fun s' _ => s'.pipe.alpha = false ∧ s'.alphaPipe.alpha = true)
      (fun _ => True) (fun _ _ _ => trivial)
      (fun s' e q hinv' => by
        refine ⟨?_, trivial, fun s'' hcont => iteration_continues_pipes hcont hinv'⟩
        refine Safe_of_forall _ _ _ (fun _ ev hmem args recorded hev => ?_) q
        subst hev
        obtain ⟨cb, fb, -, -, rfl⟩ := record_args_iteration s' e args recorded hmem
        exact hinv')
      envs s () hinv).1

/-- C16: the command sequence of `record_commands` has exactly two draw
calls, both between the begin and the end of the render pass, the first with
`aGraphicsPipe` bound, drawing `aVertexCount` vertices, the second, later
one with `aAlphaPipeline` bound, drawing `aSpriteVertexCount` vertices, each
a `vkCmdDraw` of one instance from vertex 0 and instance 0; and in every run
of the loop entered from `startup` the pipeline passed as `aGraphicsPipe` is
the one made by `create_pipeline` and the one passed as `aAlphaPipeline` the
one made by `create_alpha_pipeline`. -/
theorem draws_in_pass_in_order :
    (∀ (a : RecordArgs) (bound : Option Pipeline) (inPass : Bool),
      drawContexts bound inPass (recordedCommands a) =
        [(.vkCmdDraw a.aVertexCount 1 0 0, some a.aGraphicsPipe, true),
         (.vkCmdDraw a.aSpriteVertexCount 1 0 0, some a.aAlphaPipeline, true)]) ∧
    (∀ (a : RecordArgs), (recordedCommands a).filter Cmd.isDraw =
        [.vkCmdDraw a.aVertexCount 1 0 0, .vkCmdDraw a.aSpriteVertexCount 1 0 0]) ∧
    (∀ (a : RecordArgs) (b n : VkResult) (cmds : List Cmd),
      record_commands a b n = some cmds → cmds = recordedCommands a) ∧
    (∀ (window : VulkanWindow) (scene : Scene) (envs : List IterEnv) (args : RecordArgs)
        (recorded : Option (List Cmd)),
      Event.record_commands args recorded ∈ (frameLoop (startup window scene) envs).trace →
      args.aGraphicsPipe.alpha = false ∧ args.aAlphaPipeline.alpha = true) := by
  refine ⟨fun a bound inPass => rfl, fun a => ?_, fun a b n cmds h => record_commands_some h,
    fun window scene envs args recorded hmem => ?_⟩
  · simp [recordedCommands, List.filter, Cmd.isDraw]
  · exact record_pipelines_run (startup window scene) envs ⟨rfl, rfl⟩ _ hmem args recorded rfl

theorem draws_in_pass_in_order_witness :
    Event.record_commands demoArgs (some (recordedCommands demoArgs)) ∈
        (frameLoop (startup demoWindow demoScene) demoFourFrames).trace ∧
    demoArgs.aGraphicsPipe.alpha = false ∧ demoArgs.aAlphaPipeline.alpha = true :=
  ⟨by decide,
   draws_in_pass_in_order.2.2.2 demoWindow demoScene demoFourFrames demoArgs
     (some (recordedCommands demoArgs)) (by decide)⟩

/-- C17: the command sequence of `record_commands` starts with a barrier on
the scene uniform buffer from uniform read at the vertex shader stage to
transfer write at the transfer stage, then the update of that buffer, then a
barrier on the same buffer with source and destination swapped for both
access and stage; what follows starts with the begin of the render pass,
contains both draws, and has no further barrier or buffer update. -/
theorem uniform_update_between_barriers (a : RecordArgs) :
    ∃ rest,
      recordedCommands a =
        [.buffer_barrier a.aSceneUBO
            .VK_ACCESS_UNIFORM_READ_BIT .VK_ACCESS_TRANSFER_WRITE_BIT
            .VK_PIPELINE_STAGE_VERTEX_SHADER_BIT .VK_PIPELINE_STAGE_TRANSFER_BIT,
         .vkCmdUpdateBuffer a.aSceneUBO 0 sizeof_SceneUniform a.aSceneUniform,
         .buffer_barrier a.aSceneUBO
            .VK_ACCESS_TRANSFER_WRITE_BIT .VK_ACCESS_UNIFORM_READ_BIT
            .VK_PIPELINE_STAGE_TRANSFER_BIT .VK_PIPELINE_STAGE_VERTEX_SHADER_BIT] ++ rest ∧
      rest.head? = some (.vkCmdBeginRenderPass a.aRenderPass a.aFramebuffer a.aImageExtent 2) ∧
      (∀ c ∈ rest, c.isBarrier = false ∧ c.isUpdate = false) ∧
      rest.filter Cmd.isDraw =
        [.vkCmdDraw a.aVertexCount 1 0 0, .vkCmdDraw a.aSpriteVertexCount 1 0 0] ∧
      ((recordedCommands a).filter Cmd.isBarrier).length = 2 := by
  refine ⟨_, rfl, rfl, ?_, ?_, ?_⟩
  · simp [Cmd.isBarrier, Cmd.isUpdate]
  · simp [List.filter, Cmd.isDraw]
  · simp [recordedCommands, List.filter, Cmd.isBarrier]

/-! ## The parameter block -/

theorem mat4.toMatrix_mul {α : Type} [CommSemiring α] (m1 m2 : mat4 α) :
    (m1.mul m2).toMatrix = m1.toMatrix * m2.toMatrix := by
  ext r c
  fin_cases r <;> fin_cases c <;>
    simp [mat4.toMatrix, mat4.get, mat4.col, vec4.get, mat4.mul, mat4.mulCol, vec4.add,
      vec4.scale, Matrix.mul_apply, Fin.sum_univ_four]

/-- C11: after `update_scene_uniforms`, for every scalar arithmetic, the
field `projCam` is glm's product of the stored `projection` by the stored
`camera`, the stored projection being the perspective matrix with element
`[1][1]` already multiplied by -1; and in exact arithmetic that product is
the matrix product projection × camera, in this order. -/
theorem projCam_is_product :
    (∀ (α : Type) [Zero α] [One α] [Add α] [Sub α] [Mul α] [Div α] [Neg α] [NatCast α]
        [OfScientific α] (math : CameraMath α) (u : SceneUniform α) (w h : Nat),
      (update_scene_uniforms math u w h).projCam =
          (update_scene_uniforms math u w h).projection.mul
            (update_scene_uniforms math u w h).camera ∧
      (update_scene_uniforms math u w h).projection =
          (perspectiveRH_ZO math.tan math.kCameraFovRadians (aspectRatio w h)
              kCameraNear kCameraFar).set 1 1
            ((perspectiveRH_ZO math.tan math.kCameraFovRadians (aspectRatio w h)
              kCameraNear kCameraFar).get 1 1 * (-1))) ∧
    (∀ (α : Type) [Field α] (math : CameraMath α) (u : SceneUniform α) (w h : Nat),
      (update_scene_uniforms math u w h).projCam.toMatrix =
        (update_scene_uniforms math u w h).projection.toMatrix *
          (update_scene_uniforms math u w h).camera.toMatrix) := by
  refine ⟨fun α _ _ _ _ _ _ _ _ _ math u w h => ⟨rfl, rfl⟩, fun α _ math u w h => ?_⟩
  rw [← mat4.toMatrix_mul]
  rfl

/-- C12: for every width and every height above zero, in exact arithmetic,
every entry of row 1 of the stored projection is the negation of the entry
of the plain `perspectiveRH_ZO` matrix (same aspect, field of view, near and
far planes) at the same place, and the entries of every other row are those
of that matrix; the same holds of the entries `[1][r]` of column 1; the
stored projection is that matrix with the single element `[1][1]`
multiplied by -1. -/
theorem projection_y_row_negated {α : Type} [Field α] (math : CameraMath α)
    (u : SceneUniform α) (w h : Nat) (_hh : 0 < h) :
    (∀ c : Fin 4,
      (update_scene_uniforms math u w h).projection.get c 1 =
        -(perspectiveRH_ZO math.tan math.kCameraFovRadians (aspectRatio w h)
            kCameraNear kCameraFar).get c 1) ∧
    (∀ c r : Fin 4, r ≠ 1 →
      (update_scene_uniforms math u w h).projection.get c r =
        (perspectiveRH_ZO math.tan math.kCameraFovRadians (aspectRatio w h)
            kCameraNear kCameraFar).get c r) ∧
    (∀ r : Fin 4,
      (update_scene_uniforms math u w h).projection.get 1 r =
        -(perspectiveRH_ZO math.tan math.kCameraFovRadians (aspectRatio w h)
            kCameraNear kCameraFar).get 1 r) ∧
    (update_scene_uniforms math u w h).projection =
      (perspectiveRH_ZO math.tan math.kCameraFovRadians (aspectRatio w h)
          kCameraNear kCameraFar).set 1 1
        ((perspectiveRH_ZO math.tan math.kCameraFovRadians (aspectRatio w h)
          kCameraNear kCameraFar).get 1 1 * (-1)) := by
  refine ⟨fun c => ?_, fun c r hr => ?_, fun r => ?_, rfl⟩
  rotate_left 2
  · fin_cases r <;>
      simp [update_scene_uniforms, perspectiveRH_ZO, mat4.set, mat4.get, mat4.col, vec4.set,
        vec4.get, mat4.diagonal]
  · fin_cases c <;>
      simp [update_scene_uniforms, perspectiveRH_ZO, mat4.set, mat4.get, mat4.col, vec4.set,
        vec4.get, mat4.diagonal]
  · fin_cases c <;> fin_cases r <;>
      first
        | exact absurd rfl hr
        | simp [update_scene_uniforms, perspectiveRH_ZO, mat4.set, mat4.get, mat4.col,
            vec4.set, vec4.get, mat4.diagonal]

theorem projection_y_row_negated_witness :
    0 < 720 ∧
    (update_scene_uniforms demoMath zeroUniform 1280 720).projection.get 1 1 =
      -(perspectiveRH_ZO demoMath.tan demoMath.kCameraFovRadians (aspectRatio 1280 720)
          kCameraNear kCameraFar).get 1 1 :=
  ⟨by decide, (projection_y_row_negated demoMath zeroUniform 1280 720 (by decide)).1 1⟩

/-- C14: the block that `update_scene_uniforms` leaves is the same whatever
block it was given, for every scalar arithmetic: it is a function of width
and height alone; its camera is glm's translation by (0, -0.3, -1), which in
exact arithmetic is the identity matrix with fourth column (0, -0.3, -1, 1),
for every width and height. -/
theorem update_scene_uniforms_pure :
    (∀ (α : Type) [Zero α] [One α] [Add α] [Sub α] [Mul α] [Div α] [Neg α] [NatCast α]
        [OfScientific α] (math : CameraMath α) (u u' : SceneUniform α) (w h : Nat),
      update_scene_uniforms math u w h = update_scene_uniforms math u' w h ∧
      (update_scene_uniforms math u w h).camera = translate 0 (-(0.3 : α)) (-1)) ∧
    (∀ (α : Type) [Field α] (math : CameraMath α) (u : SceneUniform α) (w h : Nat),
      (update_scene_uniforms math u w h).camera =
        { col0 := ⟨1, 0, 0, 0⟩, col1 := ⟨0, 1, 0, 0⟩, col2 := ⟨0, 0, 1, 0⟩,
          col3 := ⟨0, -(0.3 : α), -1, 1⟩ }) := by
  refine ⟨fun α _ _ _ _ _ _ _ _ _ math u u' w h => ⟨rfl, rfl⟩, fun α _ math u w h => ?_⟩
  simp [update_scene_uniforms, translate, mat4.diagonal, vec4.add, vec4.scale]

/-! ## Slots and image indices -/

theorem framebufferAt_get (s : MainState) (i : Nat) (h : i < s.framebuffers.length) :
    s.framebuffers[i]? = some (s.framebufferAt i) := by
  simp [MainState.framebufferAt, List.getD, List.getElem?_eq_getElem h]

theorem frameLoop_all_ok (window w' : VulkanWindow) (scene : Scene) (ch : SwapChanges)
    (is : List Nat) (h : ∀ i ∈ is, i < window.swapViews.length) :
    frameLoop (startup window scene) (is.map (okEnv w' ch)) =
      { iterations := is.map fun i =>
          frameEvents (startup window scene) i ⟨i⟩ ⟨i⟩ ((startup window scene).framebufferAt i),
        outcome := .running, final := startup window scene } := by
  induction is with
  | nil => rfl
  | cons i is ih =>
    have hi : i < window.swapViews.length := h i (by simp)
    have hfb : (startup window scene).framebuffers[i]? =
        some ((startup window scene).framebufferAt i) :=
      framebufferAt_get _ _ (by simpa [startup, framebuffersOf_length] using hi)
    rw [List.map_cons, frameLoop_continues _ _ _ _ _ rfl
      (iteration_okEnv (startup window scene) w' ch i ⟨i⟩ ⟨i⟩ _ rfl
        (startup_cbfences window scene i hi) (startup_cbuffers window scene i hi) hfb),
      ih (fun j hj => h j (by simp [hj]))]
    rfl

theorem countP_frameEvents_submitted (s : MainState) (i : Nat) (fb : Framebuffer) :
    (frameEvents s i ⟨i⟩ ⟨i⟩ fb).countP Event.isSubmitted = 1 := by
  simp [frameEvents, loopHead, List.countP_cons, Event.isSubmitted]

theorem countP_frameEvents_submittedOn (s : MainState) (i j : Nat) (fb : Framebuffer) :
    (frameEvents s i ⟨i⟩ ⟨i⟩ fb).countP (Event.isSubmittedOn j) = if i = j then 1 else 0 := by
  by_cases hij : i = j <;>
    simp [frameEvents, loopHead, List.countP_cons, Event.isSubmittedOn, submitInfo, hij]

/-- C20: in a pass through the body that submits, the fence waited on, reset
and passed to the submit, the command buffer recorded and submitted, and the
framebuffer recorded against are those at the image index that the acquire
call of the pass delivered; and for a chain of three images and ten passes in
which every call succeeds and acquire delivers 0, 1, 2, 0, ..., all ten passes
are normal frames, ten frames are submitted, and slots 0, 1, 2 are used 4, 3
and 3 times, each being the quotient of 10 by 3 rounded down or up. -/
theorem slot_is_image_index :
    (∀ (s : MainState) (e : IterEnv) (info : VkSubmitInfo) (fence : VkFence) (res : VkResult),
      Event.vkQueueSubmit info fence res ∈ (iteration s e).1 →
      ∃ cbuffer framebuffer sem,
        Event.vkAcquireNextImageKHR sem VK_SUCCESS e.imageIndex ∈ (iteration s e).1 ∧
        s.cbfences[e.imageIndex]? = some fence ∧
        s.cbuffers[e.imageIndex]? = some cbuffer ∧
        s.framebuffers[e.imageIndex]? = some framebuffer ∧
        Event.vkWaitForFences fence VK_SUCCESS ∈ (iteration s e).1 ∧
        Event.vkResetFences fence VK_SUCCESS ∈ (iteration s e).1 ∧
        (∃ args recorded, Event.record_commands args recorded ∈ (iteration s e).1 ∧
          args.aCmdBuff = cbuffer ∧ args.aFramebuffer = framebuffer) ∧
        info.pCommandBuffers = [cbuffer]) ∧
    (∀ (window w' : VulkanWindow) (scene : Scene) (ch : SwapChanges),
      window.swapViews.length = 3 →
      (frameLoop (startup window scene) (tenFrames w' ch)).iterations.length = 10 ∧
      (∀ t ∈ (frameLoop (startup window scene) (tenFrames w' ch)).iterations,
        isNormalFrame t = true) ∧
      (frameLoop (startup window scene) (tenFrames w' ch)).trace.countP Event.isSubmitted
        = 10 ∧
      (frameLoop (startup window scene) (tenFrames w' ch)).trace.countP (Event.isSubmittedOn 0)
        = 4 ∧
      (frameLoop (startup window scene) (tenFrames w' ch)).trace.countP (Event.isSubmittedOn 1)
        = 3 ∧
      (frameLoop (startup window scene) (tenFrames w' ch)).trace.countP (Event.isSubmittedOn 2)
        = 3 ∧
      10 / 3 = 3 ∧ (10 + 2) / 3 = 4) := by
  refine ⟨fun s e info fence res h => ?_, fun window w' scene ch h3 => ?_⟩
  · cases hflag : s.recreateSwapchain
    swap
    · exact absurd (stale_no_frameCall s e hflag _ h) (by simp [Event.isFrameCall])
    obtain ⟨p, hpath, hit⟩ := iteration_fresh s e hflag
    rw [hit] at h ⊢
    cases hpath <;> simp [loopHead, acquireEvent, submitEvent, presentEvent] at h
    case submitError fence' cbuffer framebuffer ha hf hw hr hc hb hbeg hend hs =>
      obtain ⟨rfl, rfl, rfl⟩ := h
      refine ⟨cbuffer, framebuffer, s.imageAvailable, ?_, hf, hc, hb, ?_, ?_,
        ⟨recordArgs s ⟨s.window.swapchainExtent.width, s.window.swapchainExtent.height⟩
          cbuffer framebuffer,
         some (recordedCommands (recordArgs s
          ⟨s.window.swapchainExtent.width, s.window.swapchainExtent.height⟩
          cbuffer framebuffer)), ?_, rfl, rfl⟩, rfl⟩ <;>
        simp [loopHead, acquireEvent, ha]
    case presented fence' cbuffer framebuffer flow ha hf hw hr hc hb hbeg hend hs hp =>
      obtain ⟨rfl, rfl, rfl⟩ := h
      refine ⟨cbuffer, framebuffer, s.imageAvailable, ?_, hf, hc, hb, ?_, ?_,
        ⟨recordArgs s ⟨s.window.swapchainExtent.width, s.window.swapchainExtent.height⟩
          cbuffer framebuffer,
         some (recordedCommands (recordArgs s
          ⟨s.window.swapchainExtent.width, s.window.swapchainExtent.height⟩
          cbuffer framebuffer)), ?_, rfl, rfl⟩, rfl⟩ <;>
        simp [loopHead, acquireEvent, ha]
  · have hall : ∀ i ∈ [0, 1, 2, 0, 1, 2, 0, 1, 2, 0], i < window.swapViews.length := by
      intro i hi
      rw [h3]
      simp at hi
      omega
    rw [tenFrames, frameLoop_all_ok window w' scene ch _ hall]
    refine ⟨rfl, ?_, ?_, ?_, ?_, ?_, rfl, rfl⟩
    · intro t ht
      simp only [List.mem_map] at ht
      obtain ⟨i, -, rfl⟩ := ht
      exact isNormalFrame_frameEvents _ _ _ _ _
    · simp [Run.trace, List.countP_append, countP_frameEvents_submitted]
    · simp [Run.trace, List.countP_append, countP_frameEvents_submittedOn]
    · simp [Run.trace, List.countP_append, countP_frameEvents_submittedOn]
    · simp [Run.trace, List.countP_append, countP_frameEvents_submittedOn]

theorem slot_is_image_index_witness :
    demoWindow.swapViews.length = 3 ∧
    (frameLoop (startup demoWindow demoScene) (tenFrames demoWindow ⟨false, false⟩)).trace.countP
      (Event.isSubmittedOn 0) = 4 :=
  ⟨rfl, (slot_is_image_index.2 demoWindow demoWindow demoScene ⟨false, false⟩ rfl).2.2.2.1⟩

/-! ## Errors and the exit status -/

theorem recreation_raises (s : MainState) (e : IterEnv) :
    ((recreation s e).2 = .thrown → RaisedLast (recreation s e).1) ∧
    ((recreation s e).2 ≠ .thrown → ∀ x ∈ (recreation s e).1, x.raises = false) := by
  unfold recreation RaisedLast
  split
  · simp [Event.raises]
  next w ch hre =>
  rcases ch with ⟨cs, cf⟩
  cases cs <;> cases cf <;> dsimp only [] <;>
    simp only [if_true, if_false, Bool.false_eq_true] <;>
    (repeat' split) <;> simp_all [Event.raises]

theorem iteration_raises (s : MainState) (e : IterEnv) :
    ((iteration s e).2 = .thrown → RaisedLast (iteration s e).1) ∧
    ((iteration s e).2 ≠ .thrown → ∀ x ∈ (iteration s e).1, x.raises = false) := by
  cases hflag : s.recreateSwapchain
  · obtain ⟨r, hpath, hit⟩ := iteration_fresh s e hflag
    rw [hit]
    have hne1 : VK_SUCCESS ≠ VK_SUBOPTIMAL_KHR := by decide
    have hne2 : VK_SUCCESS ≠ VK_ERROR_OUT_OF_DATE_KHR := by decide
    cases hpath
    case acquireStale ha =>
      rcases ha with ha | ha <;>
        simp [RaisedLast, loopHead, acquireEvent, Event.raises, ha]
    case presented fence cbuffer framebuffer flow ha hf hw hr hc hb hbeg hend hs hp =>
      rcases hp with ⟨h | h, rfl⟩ | ⟨⟨h0, h1, h2⟩, rfl⟩ | ⟨h, rfl⟩ <;>
        simp [RaisedLast, loopHead, acquireEvent, submitEvent, presentEvent, Event.raises, *]
    all_goals
      simp [RaisedLast, loopHead, acquireEvent, submitEvent, presentEvent, Event.raises, *]
  · rw [iteration_stale s e hflag]
    obtain ⟨h1, h2⟩ := recreation_raises s e
    obtain ⟨r, rest, hev, -, -⟩ := recreation_events s e
    constructor
    · intro hthrown
      obtain ⟨hlast, hdrop⟩ := h1 hthrown
      dsimp only [] at hthrown ⊢
      rw [hev] at hlast hdrop ⊢
      refine ⟨?_, ?_⟩
      · simpa [loopHead, List.getLast?_cons_cons] using hlast
      · intro x hx
        simp only [loopHead, List.cons_append, List.nil_append, List.dropLast_cons₂,
          List.mem_cons] at hx
        rcases hx with rfl | rfl | hx
        · rfl
        · rfl
        · exact hdrop x (by simpa [List.dropLast_cons₂] using hx)
    · intro hne x hx
      simp only [loopHead, List.mem_append, List.mem_cons, List.mem_singleton] at hx
      rcases hx with (rfl | rfl | hx) | hx
      · rfl
      · rfl
      · simp at hx
      · exact h2 hne x hx

theorem RaisedLast_iff (t : List Event) :
    RaisedLast t ↔ ∃ pre ev, t = pre ++ [ev] ∧ ev.raises = true ∧ ∀ x ∈ pre, x.raises = false := by
  constructor
  · rintro ⟨hlast, hdrop⟩
    rcases hl : t.getLast? with _ | a
    · rw [hl] at hlast; simp at hlast
    · obtain ⟨ys, rfl⟩ := List.getLast?_eq_some_iff.1 hl
      rw [hl] at hlast
      refine ⟨ys, a, rfl, by simpa using hlast, ?_⟩
      simpa using hdrop
  · rintro ⟨pre, ev, rfl, hev, hpre⟩
    exact ⟨by simp [hev], by simpa using hpre⟩

theorem RaisedLast_append (t t' : List Event) (h : ∀ x ∈ t, x.raises = false)
    (h' : RaisedLast t') : RaisedLast (t ++ t') := by
  obtain ⟨pre, ev, rfl, hev, hpre⟩ := (RaisedLast_iff t').1 h'
  refine (RaisedLast_iff _).2 ⟨t ++ pre, ev, by simp, hev, ?_⟩
  intro x hx
  rcases List.mem_append.1 hx with hx | hx
  · exact h x hx
  · exact hpre x hx

theorem frameLoop_raises (envs : List IterEnv) :
    ∀ s, ((frameLoop s envs).outcome = .error → RaisedLast (frameLoop s envs).trace) ∧
      ((frameLoop s envs).outcome ≠ .error →
        ∀ x ∈ (frameLoop s envs).trace, x.raises = false) := by
  induction envs with
  | nil => intro s; simp [frameLoop_nil, Run.trace]
  | cons e es ih =>
    intro s
    cases hclose : e.glfwWindowShouldClose
    swap
    · simp [frameLoop_closed s e es hclose, Run.trace]
    obtain ⟨hthrown, hquiet⟩ := iteration_raises s e
    rcases hit : iteration s e with ⟨t, flow⟩
    rw [hit] at hthrown hquiet
    cases flow with
    | continues s' =>
      rw [frameLoop_continues s s' e es t hclose hit]
      have ht := hquiet (by simp)
      obtain ⟨ih1, ih2⟩ := ih s'
      simp only [Run.trace, List.flatten_cons] at ih1 ih2 ⊢
      refine ⟨fun herr => RaisedLast_append _ _ ht (ih1 herr), fun hne x hx => ?_⟩
      rcases List.mem_append.1 hx with hx | hx
      · exact ht x hx
      · exact ih2 hne x hx
    | thrown =>
      rw [frameLoop_thrown s e es t hclose hit]
      simpa [Run.trace] using hthrown rfl
    | assertFailed =>
      rw [frameLoop_assertFailed s e es t hclose hit]
      simpa [Run.trace] using hquiet (by simp)

theorem runStartup_cases (returns : StartupCall → Bool) (cs : List StartupCall) :
    ((runStartup returns cs).2 = true ∧
      ∀ x ∈ (runStartup returns cs).1, x.raises = false) ∨
    ((runStartup returns cs).2 = false ∧
      ∃ pre c, (runStartup returns cs).1 = pre ++ [.startup c false] ∧
        ∀ x ∈ pre, x.raises = false) := by
  induction cs with
  | nil => left; simp [runStartup]
  | cons c cs ih =>
    unfold runStartup
    cases hc : returns c
    · right
      exact ⟨by simp, [], c, by simp, by simp⟩
    · rcases ih with ⟨h1, h2⟩ | ⟨h1, pre, c', h2, h3⟩
      · left
        refine ⟨by simpa using h1, ?_⟩
        intro x hx
        simp only [if_true, List.mem_cons] at hx
        rcases hx with rfl | hx
        · rfl
        · exact h2 x hx
      · right
        refine ⟨by simpa using h1, .startup c true :: pre, c', by simp [h2], ?_⟩
        intro x hx
        rcases List.mem_cons.1 hx with rfl | hx
        · rfl
        · exact h3 x hx

theorem quietAfterRaise_append (a b : List MainEvent) (h : ∀ x ∈ a, x.raises = false) :
    quietAfterRaise (a ++ b) = quietAfterRaise b := by
  induction a with
  | nil => rfl
  | cons x a ih =>
    rw [List.cons_append, quietAfterRaise, if_neg (by simp [h x (by simp)])]
    exact ih (fun y hy => h y (by simp [hy]))

theorem quietAfterRaise_of_quiet (a : List MainEvent) (h : ∀ x ∈ a, x.raises = false) :
    quietAfterRaise a = true := by
  have := quietAfterRaise_append a [] h
  rw [List.append_nil] at this
  rw [this]
  rfl

theorem quietAfterRaise_split {l pre post : List MainEvent} {ev : MainEvent}
    (h : quietAfterRaise l = true) (hl : l = pre ++ ev :: post) (hev : ev.raises = true) :
    (∀ x ∈ pre, x.raises = false) ∧ ∀ x ∈ post, x.isCall = false := by
  induction pre generalizing l with
  | nil =>
    subst hl
    rw [List.nil_append, quietAfterRaise, if_pos hev] at h
    exact ⟨by simp, fun x hx => by simpa using List.all_eq_true.1 h x hx⟩
  | cons p pre ih =>
    subst hl
    rw [List.cons_append, quietAfterRaise] at h
    cases hp : p.raises
    · rw [hp] at h
      obtain ⟨h1, h2⟩ := ih (by simpa using h) rfl
      refine ⟨fun x hx => ?_, h2⟩
      rcases List.mem_cons.1 hx with rfl | hx
      · exact hp
      · exact h1 x hx
    · rw [hp, if_pos rfl] at h
      have hcall := List.all_eq_true.1 h ev (by simp)
      cases ev <;> simp [MainEvent.raises, MainEvent.isCall] at hev hcall

theorem frameLoop_closed_flag (envs : List IterEnv) :
    ∀ s, (frameLoop s envs).outcome = .closed → ∃ e ∈ envs, e.glfwWindowShouldClose = true := by
  induction envs with
  | nil => intro s h; simp [frameLoop_nil] at h
  | cons e es ih =>
    intro s h
    cases hclose : e.glfwWindowShouldClose
    swap
    · exact ⟨e, by simp, hclose⟩
    rcases hit : iteration s e with ⟨t, flow⟩
    cases flow with
    | continues s' =>
      rw [frameLoop_continues s s' e es t hclose hit] at h
      obtain ⟨e', he', hflag⟩ := ih s' h
      exact ⟨e', by simp [he'], hflag⟩
    | thrown => rw [frameLoop_thrown s e es t hclose hit] at h; simp at h
    | assertFailed => rw [frameLoop_assertFailed s e es t hclose hit] at h; simp at h

theorem main_startup_failed (se : StartupEnv) (envs : List IterEnv)
    (h : (runStartup se.returns (startupCalls se.window.swapViews.length)).2 = false) :
    main se envs =
      { trace := (runStartup se.returns (startupCalls se.window.swapViews.length)).1 ++
          [.destructors, .handler],
        status := some 1 } := by
  simp [main, h]

theorem main_startup_ok (se : StartupEnv) (envs : List IterEnv)
    (h : (runStartup se.returns (startupCalls se.window.swapViews.length)).2 = true) :
    main se envs =
      match (frameLoop (startup se.window se.scene) envs).outcome with
      | .running =>
        { trace := (runStartup se.returns (startupCalls se.window.swapViews.length)).1 ++
            (frameLoop (startup se.window se.scene) envs).trace.map .loop,
          status := none }
      | .closed =>
        { trace := (runStartup se.returns (startupCalls se.window.swapViews.length)).1 ++
            (frameLoop (startup se.window se.scene) envs).trace.map .loop ++
            [.vkDeviceWaitIdle, .destructors],
          status := some 0 }
      | .error =>
        { trace := (runStartup se.returns (startupCalls se.window.swapViews.length)).1 ++
            (frameLoop (startup se.window se.scene) envs).trace.map .loop ++
            [.destructors, .handler],
          status := some 1 }
      | .assertFailed =>
        { trace := (runStartup se.returns (startupCalls se.window.swapViews.length)).1 ++
            (frameLoop (startup se.window se.scene) envs).trace.map .loop,
          status := none } := by
  simp [main, h]

theorem main_quiet_and_status (se : StartupEnv) (envs : List IterEnv) :
    quietAfterRaise (main se envs).trace = true ∧
    ((main se envs).status = some 1 ↔ ∃ ev ∈ (main se envs).trace, ev.raises = true) ∧
    ((main se envs).status = some 0 ↔
      (runStartup se.returns (startupCalls se.window.swapViews.length)).2 = true ∧
        (frameLoop (startup se.window se.scene) envs).outcome = .closed) := by
  rcases runStartup_cases se.returns (startupCalls se.window.swapViews.length) with
    ⟨hok, hquiet⟩ | ⟨hfail, pre, c, hpre, hquiet⟩
  · rw [main_startup_ok se envs hok]
    obtain ⟨herr, hrest⟩ := frameLoop_raises envs (startup se.window se.scene)
    have hmap : ∀ (l : List Event), (∀ x ∈ l, x.raises = false) →
        ∀ y ∈ l.map MainEvent.loop, y.raises = false := by
      intro l hl y hy
      obtain ⟨x, hx, rfl⟩ := List.mem_map.1 hy
      exact hl x hx
    cases hout : (frameLoop (startup se.window se.scene) envs).outcome
    case error =>
      obtain ⟨p, ev, htrace, hev, hp⟩ := (RaisedLast_iff _).1 (herr hout)
      rw [htrace]
      dsimp only []
      refine ⟨?_, ?_, ?_⟩
      · rw [List.append_assoc, quietAfterRaise_append _ _ hquiet, List.map_append,
          List.append_assoc, quietAfterRaise_append _ _ (hmap p hp)]
        simp [quietAfterRaise, MainEvent.raises, hev, MainEvent.isCall]
      · simp only [true_iff]
        exact ⟨.loop ev, by simp, hev⟩
      · simp [hok]
    case closed =>
      have hq := hrest (by rw [hout]; simp)
      have hall : ∀ x ∈ (runStartup se.returns (startupCalls se.window.swapViews.length)).1 ++
          (frameLoop (startup se.window se.scene) envs).trace.map MainEvent.loop ++
          [.vkDeviceWaitIdle, .destructors], x.raises = false := by
        intro x hx
        rcases List.mem_append.1 hx with hx | hx
        · rcases List.mem_append.1 hx with hx | hx
          · exact hquiet x hx
          · exact hmap _ hq x hx
        · simp only [List.mem_cons, List.mem_singleton, List.not_mem_nil, or_false] at hx
          rcases hx with rfl | rfl <;> rfl
      dsimp only []
      refine ⟨quietAfterRaise_of_quiet _ hall, ⟨fun h => absurd h (by simp), ?_⟩, by simp [hok]⟩
      rintro ⟨ev, hev, hr⟩
      rw [hall ev hev] at hr
      exact absurd hr (by simp)
    all_goals
      have hq := hrest (by rw [hout]; simp)
      have hall : ∀ x ∈ (runStartup se.returns (startupCalls se.window.swapViews.length)).1 ++
          (frameLoop (startup se.window se.scene) envs).trace.map MainEvent.loop,
          x.raises = false := by
        intro x hx
        rcases List.mem_append.1 hx with hx | hx
        · exact hquiet x hx
        · exact hmap _ hq x hx
      dsimp only []
      refine ⟨quietAfterRaise_of_quiet _ hall, ⟨fun h => absurd h (by simp), ?_⟩, by simp⟩
      rintro ⟨ev, hev, hr⟩
      rw [hall ev hev] at hr
      exact absurd hr (by simp)
  · rw [main_startup_failed se envs hfail, hpre]
    dsimp only []
    refine ⟨?_, ?_, ?_⟩
    · rw [List.append_assoc, quietAfterRaise_append _ _ hquiet]
      simp [quietAfterRaise, MainEvent.raises, MainEvent.isCall]
    · simp only [true_iff]
      exact ⟨.startup c false, by simp, rfl⟩
    · simp [hfail]

/-- C18: `main` returns 1 exactly when some call before or in the loop
raised an error, and returns 0 exactly when every call before the loop
returned and the loop ended at its condition, which then found the
window-close flag set; `main` returns no other value; and after the first
call that raised an error no further call is made: what follows it in the
trace is only the destructors and the handler. -/
theorem exit_status (se : StartupEnv) (envs : List IterEnv) :
    ((main se envs).status = some 1 ↔ ∃ ev ∈ (main se envs).trace, ev.raises = true) ∧
    ((main se envs).status = some 0 ↔
      (runStartup se.returns (startupCalls se.window.swapViews.length)).2 = true ∧
        (frameLoop (startup se.window se.scene) envs).outcome = .closed) ∧
    ((main se envs).status = some 0 → ∃ e ∈ envs, e.glfwWindowShouldClose = true) ∧
    (∀ n, (main se envs).status = some n → n = 0 ∨ n = 1) ∧
    (∀ (pre post : List MainEvent) (ev : MainEvent),
      (main se envs).trace = pre ++ ev :: post → ev.raises = true →
      (∀ x ∈ pre, x.raises = false) ∧ ∀ x ∈ post, x.isCall = false) := by
  obtain ⟨hquiet, h1, h0⟩ := main_quiet_and_status se envs
  refine ⟨h1, h0, fun hs => frameLoop_closed_flag envs _ (h0.1 hs).2, fun n hn => ?_,
    fun pre post ev htrace hev => quietAfterRaise_split hquiet htrace hev⟩
  cases hok : (runStartup se.returns (startupCalls se.window.swapViews.length)).2
  · rw [main_startup_failed se envs hok] at hn
    right
    exact (Option.some.inj hn).symm
  · rw [main_startup_ok se envs hok] at hn
    cases hout : (frameLoop (startup se.window se.scene) envs).outcome <;>
      rw [hout] at hn <;> simp at hn
    · left; exact hn.symm
    · right; exact hn.symm

theorem exit_status_witness :
    (main demoStartupFails demoFourFrames).status = some 1 ∧
    (main demoStartup surfaceLostAfterFrame).status = some 1 ∧
    (main demoStartup closedAfterFrame).status = some 0 :=
  ⟨(exit_status demoStartupFails demoFourFrames).1.2
      ⟨.startup .create_pipeline false, by decide, rfl⟩,
   by decide, by decide⟩

theorem runStartup_events (returns : StartupCall → Bool) (cs : List StartupCall) :
    ∀ x ∈ (runStartup returns cs).1, ∃ c b, x = .startup c b := by
  induction cs with
  | nil => intro x hx; simp [runStartup] at hx
  | cons c cs ih =>
    intro x hx
    unfold runStartup at hx
    split at hx
    · rcases List.mem_cons.1 hx with rfl | hx
      · exact ⟨c, true, rfl⟩
      · exact ih x hx
    · rw [List.mem_singleton] at hx
      exact ⟨c, false, hx⟩

theorem syncedAtTeardown_normal (l : List MainEvent) (h : ∀ x ∈ l, x ≠ .destructors) :
    ∀ q, syncedAtTeardown q (l ++ [.vkDeviceWaitIdle, .destructors]) = true := by
  induction l with
  | nil => intro q; simp [syncedAtTeardown]
  | cons x l ih =>
    intro q
    have ih' := ih (fun y hy => h y (by simp [hy]))
    have hx := h x (by simp)
    rw [List.cons_append]
    unfold syncedAtTeardown
    split
    · exact ih' _
    · exact ih' _
    · exact ih' _
    · exact absurd rfl hx
    · exact ih' _

/-- C19, evaluated: when `main` returns 0 the destructors run right after
the `vkDeviceWaitIdle` that follows the loop; but on the error path they run
with no `vkDeviceWaitIdle` since the last successful submit: after one
submitted frame and an acquire that returns `VK_ERROR_SURFACE_LOST_KHR`,
the trace ends with submit, present, poll, update, the failed acquire, the
destructors and the handler. -/
theorem no_wait_idle_on_error_path :
    (∀ (se : StartupEnv) (envs : List IterEnv), (main se envs).status = some 0 →
      syncedAtTeardown true (main se envs).trace = true) ∧
    (main demoStartup surfaceLostAfterFrame).status = some 1 ∧
    syncedAtTeardown true (main demoStartup surfaceLostAfterFrame).trace = false ∧
    (main demoStartup surfaceLostAfterFrame).trace.drop 39 =
      [.loop (.vkQueueSubmit (submitInfo ⟨0⟩ ⟨0⟩ ⟨1⟩) ⟨0⟩ VK_SUCCESS),
       .loop (.vkQueuePresentKHR (presentInfo (startup demoWindow demoScene) 0) VK_SUCCESS),
       .loop .glfwPollEvents,
       .loop (.update_scene_uniforms 1280 720),
       .loop (.vkAcquireNextImageKHR ⟨0⟩ VK_ERROR_SURFACE_LOST_KHR 1),
       .destructors, .handler] := by
  refine ⟨fun se envs hs => ?_, by decide, by decide, by decide⟩
  obtain ⟨-, -, h0⟩ := main_quiet_and_status se envs
  obtain ⟨hok, hclosed⟩ := h0.1 hs
  rw [main_startup_ok se envs hok, hclosed]
  dsimp only []
  refine syncedAtTeardown_normal _ (fun x hx => ?_) true
  rcases List.mem_append.1 hx with hx | hx
  · obtain ⟨c, b, rfl⟩ := runStartup_events _ _ x hx
    simp
  · obtain ⟨y, -, rfl⟩ := List.mem_map.1 hx
    simp

theorem no_wait_idle_on_error_path_witness :
    (main demoStartup closedAfterFrame).status = some 0 ∧
    syncedAtTeardown true (main demoStartup closedAfterFrame).trace = true :=
  ⟨by decide, no_wait_idle_on_error_path.1 demoStartup closedAfterFrame (by decide)⟩


/-! ## The recreation pass -/

/-- C21: a pass through the body calls `vkDeviceWaitIdle`, `recreate_swapchain`
or one of the creation functions only if it starts with the stale flag set;
a pass that starts with the flag set makes, after the two calls at the top of
the body, first `vkDeviceWaitIdle`, then `recreate_swapchain`, then creation
calls only; it makes no acquire, fence wait, fence reset, record, submit or
present call, no assertion fails in it, and if it runs to its end the flag is
clear. -/
theorem recreate_only_when_stale (s : MainState) (e : IterEnv) :
    (∀ ev ∈ (iteration s e).1,
        ev = .vkDeviceWaitIdle ∨ ev.isRecreate = true ∨ ev.isCreation = true →
        s.recreateSwapchain = true) ∧
    (s.recreateSwapchain = true →
      (∃ r rest, (iteration s e).1 =
          loopHead s ++ .vkDeviceWaitIdle :: .recreate_swapchain r :: rest ∧
        ∀ ev ∈ rest, ev.isCreation = true) ∧
      (∀ ev ∈ (iteration s e).1, ev.isFrameCall = false) ∧
      (iteration s e).2 ≠ .assertFailed ∧
      ∀ s', (iteration s e).2 = .continues s' → s'.recreateSwapchain = false) := by
  constructor
  · cases hflag : s.recreateSwapchain
    swap
    · exact fun _ _ _ => rfl
    obtain ⟨p, hpath, hit⟩ := iteration_fresh s e hflag
    rw [hit]
    cases hpath <;>
      simp [loopHead, acquireEvent, submitEvent, presentEvent, Event.isRecreate,
        Event.isCreation]
  · intro hflag
    obtain ⟨r, rest, hev, hrest, hna⟩ := recreation_events s e
    refine ⟨⟨r, rest, ?_, hrest⟩, stale_no_frameCall s e hflag, ?_, fun s' hcont => ?_⟩
    · rw [iteration_stale s e hflag, hev]
    · rw [iteration_stale s e hflag]; exact hna
    · rw [iteration_stale s e hflag] at hcont
      obtain ⟨w, ch, fbs, -, -, rfl, -⟩ :=
        recreation_continues (t := (recreation s e).1) (Prod.ext rfl hcont)
      simp [recreatedState]

theorem recreate_only_when_stale_witness :
    demoStale.recreateSwapchain = true ∧
    (∃ r rest, (iteration demoStale (okEnv demoResized ⟨true, false⟩ 0)).1 =
        loopHead demoStale ++ .vkDeviceWaitIdle :: .recreate_swapchain r :: rest ∧
      ∀ ev ∈ rest, ev.isCreation = true) :=
  ⟨rfl, ((recreate_only_when_stale demoStale (okEnv demoResized ⟨true, false⟩ 0)).2 rfl).1⟩

/-! ## Vertex counts of the meshes -/

/-- C28, evaluated: `create_plane_mesh` and `create_sprite_mesh` return the
vertex count 6, the number of positions (three floats each) and of texture
coordinates (two floats each) in their arrays; `create_triangle_mesh` returns
2, though its arrays hold 3 positions (two floats each) and 3 colours (three
floats each). -/
theorem triangle_vertex_count_is_two :
    (∀ p c, (create_triangle_mesh true p c).map (·.vertexCount) = some 2) ∧
    create_triangle_mesh_positions.length / 2 = 3 ∧
    create_triangle_mesh_colors.length / 3 = 3 ∧
    (∀ p c, (create_plane_mesh true p c).map (·.vertexCount) = some 6) ∧
    create_plane_mesh_positions.length / 3 = 6 ∧
    create_plane_mesh_texcoord.length / 2 = 6 ∧
    (∀ p c, (create_sprite_mesh true p c).map (·.vertexCount) = some 6) ∧
    create_sprite_mesh_positions.length / 3 = 6 ∧
    create_sprite_mesh_texcoord.length / 2 = 6 :=
  ⟨fun _ _ => rfl, rfl, rfl, fun _ _ => rfl, rfl, rfl, fun _ _ => rfl, rfl, rfl⟩


/-! ## Slots after a recreation -/

/-- C23, evaluated: a recreation that runs to its end leaves the fences and
the command buffers as they were and makes one framebuffer per image of the
new chain; so after a recreation that yields a chain of four images, where
there were three at startup, there are four framebuffers and three fences
and command buffers, and when the next acquire delivers image 3 the assertion
on the number of fences fails. -/
theorem slots_not_rebuilt_on_recreation :
    (∀ (s s' : MainState) (e : IterEnv) (t : List Event) (w : VulkanWindow) (ch : SwapChanges),
      s.recreateSwapchain = true → e.recreated = some (w, ch) →
      iteration s e = (t, .continues s') →
      s'.cbfences = s.cbfences ∧ s'.cbuffers = s.cbuffers ∧
        s'.framebuffers.length = w.swapViews.length) ∧
    (frameLoop (startup demoWindow demoScene) fourthImageAcquired).outcome = .assertFailed ∧
    (frameLoop (startup demoWindow demoScene) fourthImageAcquired).final.framebuffers.length = 4 ∧
    (frameLoop (startup demoWindow demoScene) fourthImageAcquired).final.cbfences.length = 3 ∧
    (frameLoop (startup demoWindow demoScene) fourthImageAcquired).final.cbuffers.length = 3 ∧
    (frameLoop (startup demoWindow demoScene) fourthImageAcquired).iterations.getLast? =
      some [.glfwPollEvents, .update_scene_uniforms 800 600,
            .vkAcquireNextImageKHR ⟨0⟩ VK_SUCCESS 3] := by
  refine ⟨fun s s' e t w ch hflag hrec hit => ?_, by decide, by decide, by decide, by decide,
    by decide⟩
  have hcont : (iteration s e).2 = .continues s' := by rw [hit]
  obtain ⟨h1, h2, -, -⟩ := iteration_continues_fixed hcont
  obtain ⟨fbs, hs', -, hfbs⟩ := iteration_recreated hflag hrec hit
  refine ⟨h2, h1, ?_⟩
  rw [hs']
  have : (recreatedState s w ch fbs).framebuffers = fbs := rfl
  rw [this, hfbs, List.length_map]

theorem slots_not_rebuilt_on_recreation_witness :
    ((iteration demoStale (okEnv demoFourImages ⟨true, false⟩ 0)).2 =
        .continues (recreatedState demoStale demoFourImages ⟨true, false⟩
          (framebuffersOf demoFourImages ⟨0, 50⟩ ⟨1, ⟨800, 600⟩⟩))) ∧
    (recreatedState demoStale demoFourImages ⟨true, false⟩
        (framebuffersOf demoFourImages ⟨0, 50⟩ ⟨1, ⟨800, 600⟩⟩)).cbfences = demoStale.cbfences ∧
    (recreatedState demoStale demoFourImages ⟨true, false⟩
        (framebuffersOf demoFourImages ⟨0, 50⟩ ⟨1, ⟨800, 600⟩⟩)).cbuffers = demoStale.cbuffers ∧
    (recreatedState demoStale demoFourImages ⟨true, false⟩
        (framebuffersOf demoFourImages ⟨0, 50⟩ ⟨1, ⟨800, 600⟩⟩)).framebuffers.length =
      demoFourImages.swapViews.length :=
  ⟨by decide,
   slots_not_rebuilt_on_recreation.1 demoStale _ (okEnv demoFourImages ⟨true, false⟩ 0)
     (iteration demoStale (okEnv demoFourImages ⟨true, false⟩ 0)).1 demoFourImages
     ⟨true, false⟩ rfl rfl (by decide)⟩

/-! ## Pipelines and the current render pass -/

/-- C24, evaluated: a recreation that reports a changed format and an
unchanged size, and runs to its end, puts a new render pass into `renderPass`
and leaves `pipe` and `alphaPipe` the objects they were; so in the frame
recorded after such a recreation `record_commands` is passed the new render
pass (generation 1, format 44) and two pipelines created against the render
pass of startup (generation 0, format 50). -/
theorem pipelines_kept_on_format_change :
    (∀ (s s' : MainState) (e : IterEnv) (t : List Event) (w : VulkanWindow) (ch : SwapChanges),
      s.recreateSwapchain = true → e.recreated = some (w, ch) →
      iteration s e = (t, .continues s') →
      ch.changedFormat = true → ch.changedSize = false →
      s'.renderPass = { generation := s.renderPass.generation + 1, format := w.swapchainFormat } ∧
        s'.pipe = s.pipe ∧ s'.alphaPipe = s.alphaPipe) ∧
    (frameLoop (startup demoWindow demoScene) formatChanged).outcome = .running ∧
    (frameLoop (startup demoWindow demoScene) formatChanged).trace.filterMap
        recordedRenderPasses = [(⟨1, 44⟩, ⟨0, 50⟩, ⟨0, 50⟩)] := by
  refine ⟨fun s s' e t w ch hflag hrec hit hf hs => ?_, by decide, by decide⟩
  obtain ⟨fbs, hs', -, -⟩ := iteration_recreated hflag hrec hit
  rw [hs']
  simp [recreatedState, hf, hs]

theorem pipelines_kept_on_format_change_witness :
    ((iteration demoStale (okEnv demoReformatted ⟨false, true⟩ 0)).2 =
        .continues (recreatedState demoStale demoReformatted ⟨false, true⟩
          (framebuffersOf demoReformatted ⟨1, 44⟩ ⟨0, ⟨1280, 720⟩⟩))) ∧
    (recreatedState demoStale demoReformatted ⟨false, true⟩
        (framebuffersOf demoReformatted ⟨1, 44⟩ ⟨0, ⟨1280, 720⟩⟩)).renderPass =
      { generation := demoStale.renderPass.generation + 1,
        format := demoReformatted.swapchainFormat } ∧
    (recreatedState demoStale demoReformatted ⟨false, true⟩
        (framebuffersOf demoReformatted ⟨1, 44⟩ ⟨0, ⟨1280, 720⟩⟩)).pipe = demoStale.pipe ∧
    (recreatedState demoStale demoReformatted ⟨false, true⟩
        (framebuffersOf demoReformatted ⟨1, 44⟩ ⟨0, ⟨1280, 720⟩⟩)).alphaPipe =
      demoStale.alphaPipe :=
  ⟨by decide,
   pipelines_kept_on_format_change.1 demoStale _ (okEnv demoReformatted ⟨false, true⟩ 0)
     (iteration demoStale (okEnv demoReformatted ⟨false, true⟩ 0)).1 demoReformatted
     ⟨false, true⟩ rfl rfl (by decide) rfl rfl⟩

/-! ## The image-available semaphore -/

/-- C26, evaluated: in a pass entered with `imageAvailable` unsignaled, the
acquire call finds it unsignaled, and when the pass runs to its end the
semaphore is left signaled exactly when the acquire returned
`VK_SUBOPTIMAL_KHR`; a recreation pass leaves the semaphore as it finds it;
so after an acquire that returns `VK_SUBOPTIMAL_KHR` the acquire of the pass
after the recreation is given a semaphore that is still signaled. -/
theorem suboptimal_acquire_leaves_semaphore_signaled :
    (∀ (s : MainState) (e : IterEnv),
      Safe (signaledStep s.imageAvailable) unsignaledAtAcquire false (iteration s e).1 ∧
      (∀ s', (iteration s e).2 = .continues s' →
        ((iteration s e).1.foldl (signaledStep s.imageAvailable) false = true ↔
          s.recreateSwapchain = false ∧ e.acquireRes = VK_SUBOPTIMAL_KHR)) ∧
      (s.recreateSwapchain = true →
        (iteration s e).1.foldl (signaledStep s.imageAvailable) true = true)) ∧
    (frameLoop (startup demoWindow demoScene) suboptimalAcquire).outcome = .running ∧
    (frameLoop (startup demoWindow demoScene) suboptimalAcquire).iterations.map
        (fun t => (t.filter Event.isAcquire, t.foldl (signaledStep ⟨0⟩) true)) =
      [([.vkAcquireNextImageKHR ⟨0⟩ VK_SUBOPTIMAL_KHR 0], true), ([], true),
       ([.vkAcquireNextImageKHR ⟨0⟩ VK_SUCCESS 0], false)] ∧
    ¬ Safe (signaledStep ⟨0⟩) unsignaledAtAcquire false
      (frameLoop (startup demoWindow demoScene) suboptimalAcquire).trace := by
  refine ⟨fun s e => ?_, by decide, by decide, by decide⟩
  cases hflag : s.recreateSwapchain
  · obtain ⟨r, hpath, hit⟩ := iteration_fresh s e hflag
    rw [hit]
    have hne1 : VK_SUCCESS ≠ VK_SUBOPTIMAL_KHR := by decide
    have hne2 : VK_ERROR_OUT_OF_DATE_KHR ≠ VK_SUBOPTIMAL_KHR := by decide
    have hne3 : VK_ERROR_OUT_OF_DATE_KHR ≠ VK_SUCCESS := by decide
    cases hpath
    case acquireStale ha =>
      rcases ha with h | h <;>
        simp [Safe, signaledStep, unsignaledAtAcquire, Event.isAcquire, loopHead,
          acquireEvent, h, hne2, hne3]
    case presented fence cbuffer framebuffer flow ha hf hw hr hc hb hbeg hend hs hp =>
      simp [Safe, signaledStep, unsignaledAtAcquire, Event.isAcquire, loopHead, acquireEvent,
        submitEvent, presentEvent, submitInfo, ha, hs, hne1]
    all_goals
      simp [Safe, signaledStep, unsignaledAtAcquire, Event.isAcquire, loopHead, acquireEvent,
        submitEvent, presentEvent]
  · have hnone := stale_no_frameCall s e hflag
    have hq : ∀ q, (iteration s e).1.foldl (signaledStep s.imageAvailable) q = q := by
      intro q
      refine foldl_step_of_forall _ _ _ (fun ev hmem q => ?_)
      have := hnone ev hmem
      cases ev <;> simp_all [Event.isFrameCall, signaledStep]
    refine ⟨?_, fun s' _ => ?_, fun _ => hq true⟩
    · refine Safe_of_forall _ _ _ (fun q ev hmem hacq => ?_) _
      have := hnone ev hmem
      cases ev <;> simp_all [Event.isFrameCall, Event.isAcquire]
    · rw [hq false]; simp

theorem suboptimal_acquire_leaves_semaphore_signaled_witness :
    demoStale.recreateSwapchain = true ∧
    (iteration demoStale (okEnv demoResized ⟨true, false⟩ 0)).1.foldl
      (signaledStep demoStale.imageAvailable) true = true :=
  ⟨rfl, (suboptimal_acquire_leaves_semaphore_signaled.1 demoStale
    (okEnv demoResized ⟨true, false⟩ 0)).2.2 rfl⟩


/-! ## The two pipeline descriptions -/

/-- C22: for the same window, render pass and pipeline layout, the
description built by `create_alpha_pipeline` is the one built by
`create_pipeline` with the module of the fragment stage and the blend state
of the colour attachment replaced, every other member being equal: depth
test and depth write enabled with compare op less-or-equal, the vertex input
bindings and attributes, the topology, one viewport and one scissor of the
swapchain extent, the rasterization and multisample states, the layout, the
render pass, subpass 0 and no dynamic state. The opaque description has
blending disabled; the alpha description has it enabled with colour op add,
source factor source-alpha and destination factor one-minus-source-alpha.
The two fragment modules differ, the two vertex modules do not. -/
theorem pipeline_descriptions_differ_in_blend_and_fragment_shader
    (aWindow : VulkanWindow) (aRenderPass : RenderPass) (aPipelineLayout : VkPipelineLayout) :
    create_alpha_pipeline_pipeInfo aWindow aRenderPass aPipelineLayout =
      { create_pipeline_pipeInfo aWindow aRenderPass aPipelineLayout with
        pStages :=
          [{ stage := .VK_SHADER_STAGE_VERTEX_BIT, module := kVertShaderPath, pName := "main" },
           { stage := .VK_SHADER_STAGE_FRAGMENT_BIT, module := kAlphaFragShaderPath,
             pName := "main" }]
        pColorBlendState :=
          { (create_pipeline_pipeInfo aWindow aRenderPass aPipelineLayout).pColorBlendState with
            pAttachments :=
              (create_alpha_pipeline_pipeInfo aWindow aRenderPass
                aPipelineLayout).pColorBlendState.pAttachments } } ∧
    (create_pipeline_pipeInfo aWindow aRenderPass aPipelineLayout).pStages =
      [{ stage := .VK_SHADER_STAGE_VERTEX_BIT, module := kVertShaderPath, pName := "main" },
       { stage := .VK_SHADER_STAGE_FRAGMENT_BIT, module := kFragShaderPath, pName := "main" }] ∧
    kFragShaderPath ≠ kAlphaFragShaderPath ∧
    (create_pipeline_pipeInfo aWindow aRenderPass aPipelineLayout).pDepthStencilState =
      { depthTestEnable := true, depthWriteEnable := true,
        depthCompareOp := .VK_COMPARE_OP_LESS_OR_EQUAL,
        minDepthBounds := 0, maxDepthBounds := 1 } ∧
    (create_pipeline_pipeInfo aWindow aRenderPass aPipelineLayout).pVertexInputState =
      { vertexBindingDescriptionCount := 2
        pVertexBindingDescriptions :=
          [{ binding := 0, stride := 12, inputRate := .VK_VERTEX_INPUT_RATE_VERTEX },
           { binding := 1, stride := 8, inputRate := .VK_VERTEX_INPUT_RATE_VERTEX }]
        vertexAttributeDescriptionCount := 2
        pVertexAttributeDescriptions :=
          [{ binding := 0, location := 0, format := .VK_FORMAT_R32G32B32_SFLOAT, offset := 0 },
           { binding := 1, location := 1, format := .VK_FORMAT_R32G32_SFLOAT, offset := 0 }] } ∧
    (create_pipeline_pipeInfo aWindow aRenderPass aPipelineLayout).pInputAssemblyState.topology =
      .VK_PRIMITIVE_TOPOLOGY_TRIANGLE_LIST ∧
    (create_pipeline_pipeInfo aWindow aRenderPass aPipelineLayout).pViewportState =
      { viewportCount := 1
        pViewports := [{ x := 0, y := 0, width := aWindow.swapchainExtent.width,
                         height := aWindow.swapchainExtent.height, minDepth := 0, maxDepth := 1 }]
        scissorCount := 1
        pScissors := [{ offset := (0, 0), extent := aWindow.swapchainExtent }] } ∧
    (create_pipeline_pipeInfo aWindow aRenderPass aPipelineLayout).pRasterizationState =
      { depthClampEnable := false, rasterizerDiscardEnable := false,
        polygonMode := .VK_POLYGON_MODE_FILL, cullMode := .VK_CULL_MODE_BACK_BIT,
        frontFace := .VK_FRONT_FACE_COUNTER_CLOCKWISE, depthBiasEnable := false,
        lineWidth := 1 } ∧
    (create_pipeline_pipeInfo aWindow aRenderPass
      aPipelineLayout).pMultisampleState.rasterizationSamples = .VK_SAMPLE_COUNT_1_BIT ∧
    (create_pipeline_pipeInfo aWindow aRenderPass aPipelineLayout).layout = aPipelineLayout ∧
    (create_pipeline_pipeInfo aWindow aRenderPass aPipelineLayout).renderPass = aRenderPass ∧
    (create_pipeline_pipeInfo aWindow aRenderPass aPipelineLayout).subpass = 0 ∧
    (create_pipeline_pipeInfo aWindow aRenderPass aPipelineLayout).pDynamicState = false ∧
    (create_pipeline_pipeInfo aWindow aRenderPass
        aPipelineLayout).pColorBlendState.pAttachments.map (·.blendEnable) = [false] ∧
    (create_alpha_pipeline_pipeInfo aWindow aRenderPass
        aPipelineLayout).pColorBlendState.pAttachments.map
      (fun b => (b.blendEnable, b.colorBlendOp, b.srcColorBlendFactor, b.dstColorBlendFactor)) =
      [(true, .VK_BLEND_OP_ADD, .VK_BLEND_FACTOR_SRC_ALPHA,
        .VK_BLEND_FACTOR_ONE_MINUS_SRC_ALPHA)] := by
  refine ⟨rfl, rfl, by decide, rfl, rfl, rfl, ?_, rfl, rfl, rfl, rfl, rfl, rfl, rfl, rfl⟩
  rfl


/-! ## The state of a fence at a wait -/

theorem fence_monitor_iteration (f : VkFence) (s : MainState) (e : IterEnv)
    (q : FenceState × Bool) (hq : q.1 ≠ .unsignaled ∧ (q.2 = false → q.1 = .signaled)) :
    Safe (fenceStep f) (fenceGuard f) q (iteration s e).1 ∧
      ∀ s', (iteration s e).2 = .continues s' →
        ((iteration s e).1.foldl (fenceStep f) q).1 ≠ .unsignaled ∧
        (((iteration s e).1.foldl (fenceStep f) q).2 = false →
          ((iteration s e).1.foldl (fenceStep f) q).1 = .signaled) := by
  cases hflag : s.recreateSwapchain
  · obtain ⟨r, hpath, hit⟩ := iteration_fresh s e hflag
    rw [hit]
    rcases q with ⟨st, wd⟩
    cases hpath
    case acquireStale ha =>
      simp_all [Safe, fenceStep, fenceGuard, Event.isWaitOn, loopHead, acquireEvent]
    case acquireError h0 h1 h2 =>
      simp_all [Safe, fenceStep, fenceGuard, Event.isWaitOn, loopHead, acquireEvent]
    case fenceAssert ha hf =>
      simp_all [Safe, fenceStep, fenceGuard, Event.isWaitOn, loopHead, acquireEvent]
    case waitError fence ha hf hw =>
      by_cases hfe : fence = f <;>
        simp_all [Safe, fenceStep, fenceGuard, Event.isWaitOn, loopHead, acquireEvent]
    case resetError fence ha hf hw hr =>
      by_cases hfe : fence = f <;>
        simp_all [Safe, fenceStep, fenceGuard, Event.isWaitOn, loopHead, acquireEvent]
    case bufferAssert fence ha hf hw hr hc =>
      by_cases hfe : fence = f <;>
        simp_all [Safe, fenceStep, fenceGuard, Event.isWaitOn, loopHead, acquireEvent]
    case recordError fence cbuffer framebuffer ha hf hw hr hc hb hrec =>
      by_cases hfe : fence = f <;>
        simp_all [Safe, fenceStep, fenceGuard, Event.isWaitOn, loopHead, acquireEvent]
    case submitError fence cbuffer framebuffer ha hf hw hr hc hb hbeg hend hs =>
      by_cases hfe : fence = f <;>
        simp_all [Safe, fenceStep, fenceGuard, Event.isWaitOn, loopHead, acquireEvent,
          submitEvent]
    case presented fence cbuffer framebuffer flow ha hf hw hr hc hb hbeg hend hs hp =>
      by_cases hfe : fence = f <;>
        simp_all [Safe, fenceStep, fenceGuard, Event.isWaitOn, loopHead, acquireEvent,
          submitEvent, presentEvent]
  · have hnone := stale_no_frameCall s e hflag
    have hfold : (iteration s e).1.foldl (fenceStep f) q = q := by
      refine foldl_step_of_forall _ _ _ (fun ev hmem q => ?_)
      have := hnone ev hmem
      cases ev <;> simp_all [Event.isFrameCall, fenceStep]
    refine ⟨?_, fun s' _ => by rw [hfold]; exact hq⟩
    refine Safe_of_forall _ _ _ (fun q ev hmem hw => ?_) _
    have := hnone ev hmem
    cases ev <;> simp_all [Event.isFrameCall, Event.isWaitOn]

theorem fence_monitor_run (f : VkFence) (s : MainState) (envs : List IterEnv) :
    Safe (fenceStep f) (fenceGuard f) (createdFenceState cbfencesFlags, false)
      (frameLoop s envs).trace :=
  (frameLoop_safe (fenceStep f) (fenceGuard f)
    (fun _ q => q.1 ≠ .unsignaled ∧ (q.2 = false → q.1 = .signaled)) (fun _ => True)
    (fun _ _ _ => trivial)
    (fun s e q hq =>
      ⟨(fence_monitor_iteration f s e q hq).1, trivial, (fence_monitor_iteration f s e q hq).2⟩)
    envs s _ ⟨by decide, fun _ => rfl⟩).1

theorem fenceStep_not_waited (f : VkFence) (pre : List Event) :
    ∀ q : FenceState × Bool, (∀ ev ∈ pre, ev.isWaitOn f = false) →
      (pre.foldl (fenceStep f) q).2 = q.2 := by
  induction pre with
  | nil => intro q _; rfl
  | cons ev t ih =>
    intro q h
    rw [List.foldl_cons, ih _ (fun ev' hmem => h ev' (by simp [hmem]))]
    have hw := h ev (by simp)
    cases ev with
    | vkWaitForFences f' res =>
      have hne : f' ≠ f := by simpa [Event.isWaitOn] using hw
      simp [fenceStep, hne]
    | vkResetFences f' res => simp only [fenceStep]; split <;> rfl
    | vkQueueSubmit info f' res => simp only [fenceStep]; split <;> rfl
    | _ => rfl

/-- C25: each fence of `cbfences` is created signaled. In every run of the
loop, following for a fence `f` whether it is signaled, unsignaled with
nothing to signal it, or pending on an accepted submission, every wait on
`f` finds it signaled or pending, and the first wait on `f` finds it
signaled, as it was created. And in a pass that resets `f` and runs to its
end, the reset is followed, after the `record_commands` call, by a submit
with `f` as completion fence that returns success. -/
theorem wait_finds_fence_signaled_or_pending (f : VkFence) :
    createdFenceState cbfencesFlags = .signaled ∧
    (∀ (s : MainState) (envs : List IterEnv) (pre post : List Event) (res : VkResult),
      (frameLoop s envs).trace = pre ++ .vkWaitForFences f res :: post →
      (pre.foldl (fenceStep f) (createdFenceState cbfencesFlags, false)).1 ≠ .unsignaled ∧
      ((∀ ev ∈ pre, ev.isWaitOn f = false) →
        (pre.foldl (fenceStep f) (createdFenceState cbfencesFlags, false)).1 = .signaled)) ∧
    (∀ (s s' : MainState) (e : IterEnv) (res : VkResult),
      .vkResetFences f res ∈ (iteration s e).1 → (iteration s e).2 = .continues s' →
      ∃ pre args recorded info post,
        (iteration s e).1 =
          pre ++ [.vkResetFences f VK_SUCCESS, .record_commands args recorded,
                  .vkQueueSubmit info f VK_SUCCESS] ++ post) := by
  refine ⟨by decide, fun s envs pre post res htr => ?_, fun s s' e res hmem hcont => ?_⟩
  · have hsafe := fence_monitor_run f s envs
    rw [htr] at hsafe
    have hok := Safe_at hsafe (by simp [Event.isWaitOn])
    exact ⟨hok.1, fun hno => hok.2 (by rw [fenceStep_not_waited f pre _ hno])⟩
  · cases hflag : s.recreateSwapchain
    swap
    · exact absurd (stale_no_frameCall s e hflag _ hmem) (by simp [Event.isFrameCall])
    obtain ⟨p, hpath, hit⟩ := iteration_fresh s e hflag
    rw [hit] at hmem hcont ⊢
    cases hpath <;> simp [loopHead, acquireEvent, submitEvent, presentEvent] at hmem hcont
    case presented fence cbuffer framebuffer flow ha hf hw hr hc hb hbeg hend hs hp =>
      obtain ⟨rfl, -⟩ := hmem
      exact ⟨loopHead s ++ [acquireEvent s e, .vkWaitForFences f VK_SUCCESS],
        recordArgs s ⟨s.window.swapchainExtent.width, s.window.swapchainExtent.height⟩
          cbuffer framebuffer,
        some (recordedCommands (recordArgs s
          ⟨s.window.swapchainExtent.width, s.window.swapchainExtent.height⟩ cbuffer framebuffer)),
        submitInfo cbuffer s.imageAvailable s.renderFinished,
        [presentEvent s e], by simp [submitEvent, hs]⟩

theorem wait_finds_fence_signaled_or_pending_witness :
    (((frameLoop (startup demoWindow demoScene) demoFourFrames).trace.take 3).foldl
        (fenceStep ⟨0⟩) (createdFenceState cbfencesFlags, false)).1 ≠ .unsignaled ∧
    ((∀ ev ∈ (frameLoop (startup demoWindow demoScene) demoFourFrames).trace.take 3,
        ev.isWaitOn ⟨0⟩ = false) →
      (((frameLoop (startup demoWindow demoScene) demoFourFrames).trace.take 3).foldl
        (fenceStep ⟨0⟩) (createdFenceState cbfencesFlags, false)).1 = .signaled) :=
  (wait_finds_fence_signaled_or_pending ⟨0⟩).2.1 (startup demoWindow demoScene) demoFourFrames
    ((frameLoop (startup demoWindow demoScene) demoFourFrames).trace.take 3)
    ((frameLoop (startup demoWindow demoScene) demoFourFrames).trace.drop 4) VK_SUCCESS
    (by decide)


/-! ## The extent in use -/

theorem startup_sized (window : VulkanWindow) (scene : Scene) :
    SizedForWindow (startup window scene) := by
  refine ⟨fun fb hfb => ?_, rfl, rfl⟩
  have h := createFramebuffersFrom_some window ⟨0, window.swapchainFormat⟩
    ⟨0, ⟨window.swapchainExtent.width, window.swapchainExtent.height⟩⟩ (fun _ => VK_SUCCESS)
    window.swapViews 0 _ (framebuffersOf_eq window _ _)
  have hfb' : fb ∈ framebuffersOf window ⟨0, window.swapchainFormat⟩
      ⟨0, ⟨window.swapchainExtent.width, window.swapchainExtent.height⟩⟩ := hfb
  rw [h] at hfb'
  obtain ⟨v, -, rfl⟩ := List.mem_map.1 hfb'
  exact ⟨rfl, rfl⟩

theorem recorded_iteration (s : MainState) (e : IterEnv) (args : RecordArgs)
    (cmds : List Cmd) (h : Event.record_commands args (some cmds) ∈ (iteration s e).1) :
    cmds = recordedCommands args := by
  cases hflag : s.recreateSwapchain
  swap
  · exact absurd (stale_no_frameCall s e hflag _ h) (by simp [Event.isFrameCall])
  obtain ⟨p, hpath, hit⟩ := iteration_fresh s e hflag
  rw [hit] at h
  cases hpath <;> simp [loopHead, acquireEvent, submitEvent, presentEvent] at h
  all_goals
    obtain ⟨rfl, rfl⟩ := h
    rfl

theorem record_for_extent (s : MainState) (e : IterEnv) (hs : SizedForWindow s)
    (args : RecordArgs) (recorded : Option (List Cmd))
    (h : Event.record_commands args recorded ∈ (iteration s e).1) :
    RecordedForExtent s.window.swapchainExtent.width s.window.swapchainExtent.height
      args recorded := by
  obtain ⟨cbuffer, framebuffer, -, hfb, hargs⟩ := record_args_iteration s e args recorded h
  have hmem : framebuffer ∈ s.framebuffers := List.mem_iff_getElem?.2 ⟨_, hfb⟩
  obtain ⟨hw, hh⟩ := hs.1 framebuffer hmem
  refine ⟨by rw [hargs]; rfl, by rw [hargs]; rfl, by rw [hargs]; exact hw,
    by rw [hargs]; exact hh, by rw [hargs]; exact hs.2.1, by rw [hargs]; exact hs.2.2,
    fun cmds hc => ?_⟩
  subst hc
  rw [recorded_iteration s e args cmds h, hargs]
  simp [recordedCommands, recordArgs]

theorem fresh_no_recreation (s : MainState) (e : IterEnv) (h : s.recreateSwapchain = false) :
    ∀ ev ∈ (iteration s e).1, ev.isRecreate = false := by
  obtain ⟨p, hpath, hit⟩ := iteration_fresh s e h
  rw [hit]
  cases hpath <;>
    simp [loopHead, acquireEvent, submitEvent, presentEvent, Event.isRecreate]

theorem sized_preserved {s s' : MainState} {e : IterEnv} (hs : SizedForWindow s)
    (hrep : s.recreateSwapchain = true → ∀ w ch, e.recreated = some (w, ch) →
      ch = reportedChanges s.window w)
    (h : (iteration s e).2 = .continues s') : SizedForWindow s' := by
  cases hflag : s.recreateSwapchain
  · obtain ⟨r, hpath, hit⟩ := iteration_fresh s e hflag
    rw [hit] at h
    cases hpath <;> simp at h
    case acquireStale => subst h; exact hs
    case presented fence cbuffer framebuffer flow ha hf hw hr hc hb hbeg hend hs' hp =>
      subst h
      rcases hp with ⟨_, h⟩ | ⟨_, h⟩ | ⟨_, h⟩
      · rw [Flow.continues.inj h]; exact hs
      · simp at h
      · rw [Flow.continues.inj h]; exact hs
  · rw [iteration_stale s e hflag] at h
    obtain ⟨w, ch, fbs, hrec, hfbs, rfl, -⟩ :=
      recreation_continues (t := (recreation s e).1) (Prod.ext rfl h)
    have hch := hrep hflag w ch hrec
    have hfbs' := createFramebuffersFrom_some _ _ _ _ _ _ _ hfbs
    refine ⟨fun fb hfb => ?_, ?_, ?_⟩
    · have hfb' : fb ∈ fbs := hfb
      rw [hfbs'] at hfb'
      obtain ⟨v, -, rfl⟩ := List.mem_map.1 hfb'
      exact ⟨rfl, rfl⟩
    · cases hsz : ch.changedSize
      · have : w.swapchainExtent = s.window.swapchainExtent := by
          rw [hch] at hsz
          simpa [reportedChanges] using hsz
        simp [recreatedState, hsz, this, hs.2.1]
      · simp [recreatedState, hsz]
    · cases hsz : ch.changedSize
      · have : w.swapchainExtent = s.window.swapchainExtent := by
          rw [hch] at hsz
          simpa [reportedChanges] using hsz
        simp [recreatedState, hsz, this, hs.2.2]
      · simp [recreatedState, hsz]

theorem recorded_for_extent_run (envs : List IterEnv) :
    ∀ s : MainState, SizedForWindow s → reportsChanges s envs = true →
      ∀ t ∈ (frameLoop s envs).iterations,
        ∃ width height, t.take 2 = [.glfwPollEvents, .update_scene_uniforms width height] ∧
          ∀ args recorded, Event.record_commands args recorded ∈ t →
            RecordedForExtent width height args recorded ∧
            ∀ ev ∈ t, ev.isRecreate = false := by
  induction envs with
  | nil => intro s _ _ t ht; simp [frameLoop_nil] at ht
  | cons e es ih =>
    intro s hs hrep t ht
    cases hclose : e.glfwWindowShouldClose
    swap
    · simp [frameLoop_closed s e es hclose] at ht
    have hhere : ∃ width height,
        (iteration s e).1.take 2 = [.glfwPollEvents, .update_scene_uniforms width height] ∧
        ∀ args recorded, Event.record_commands args recorded ∈ (iteration s e).1 →
          RecordedForExtent width height args recorded ∧
          ∀ ev ∈ (iteration s e).1, ev.isRecreate = false := by
      refine ⟨s.window.swapchainExtent.width, s.window.swapchainExtent.height, ?_,
        fun args recorded hmem => ⟨record_for_extent s e hs args recorded hmem, ?_⟩⟩
      · unfold iteration
        dsimp only []
        split <;> rfl
      · cases hflag : s.recreateSwapchain
        · exact fresh_no_recreation s e hflag
        · exact absurd (stale_no_frameCall s e hflag _ hmem) (by simp [Event.isFrameCall])
    rcases hit : iteration s e with ⟨t0, flow⟩
    rw [hit] at hhere
    cases flow with
    | continues s' =>
      rw [frameLoop_continues s s' e es t0 hclose hit] at ht
      rcases List.mem_cons.1 ht with rfl | ht
      · exact hhere
      · have hrep' : (match s.recreateSwapchain, e.recreated with
            | true, some (window, changes) => decide (changes = reportedChanges s.window window)
            | _, _ => true) = true ∧ reportsChanges s' es = true := by
          simpa [reportsChanges, hclose, hit] using hrep
        refine ih s' (sized_preserved hs (fun hflag w ch hrec => ?_) (by rw [hit])) hrep'.2 t ht
        have := hrep'.1
        rw [hflag, hrec] at this
        simpa using this
    | thrown =>
      rw [frameLoop_thrown s e es t0 hclose hit] at ht
      rw [List.mem_singleton.1 ht]
      exact hhere
    | assertFailed =>
      rw [frameLoop_assertFailed s e es t0 hclose hit] at ht
      rw [List.mem_singleton.1 ht]
      exact hhere

/-- C27: in a run of the loop entered from `startup` in which every
`recreate_swapchain` call reports the changes that took place, every pass
through the body starts with `glfwPollEvents` and an `update_scene_uniforms`
call for some width and height, and if the pass calls `record_commands`, then
the parameter block passed and written into the command buffer is the one
computed by that call, the render area, the framebuffer passed and the
viewports of both pipelines passed have that width and height, and the pass
makes no `recreate_swapchain` call. -/
theorem recorded_uniforms_match_extent (window : VulkanWindow) (scene : Scene)
    (envs : List IterEnv) (hrep : reportsChanges (startup window scene) envs = true) :
    ∀ t ∈ (frameLoop (startup window scene) envs).iterations,
      ∃ width height, t.take 2 = [.glfwPollEvents, .update_scene_uniforms width height] ∧
        ∀ args recorded, Event.record_commands args recorded ∈ t →
          RecordedForExtent width height args recorded ∧
          ∀ ev ∈ t, ev.isRecreate = false :=
  recorded_for_extent_run envs (startup window scene) (startup_sized window scene) hrep

theorem recorded_uniforms_match_extent_witness :
    reportsChanges (startup demoWindow demoScene) resizedBetweenFrames = true ∧
    ∀ t ∈ (frameLoop (startup demoWindow demoScene) resizedBetweenFrames).iterations,
      ∃ width height, t.take 2 = [.glfwPollEvents, .update_scene_uniforms width height] ∧
        ∀ args recorded, Event.record_commands args recorded ∈ t →
          RecordedForExtent width height args recorded ∧
          ∀ ev ∈ t, ev.isRecreate = false :=
  ⟨by decide,
   recorded_uniforms_match_extent demoWindow demoScene resizedBetweenFrames (by decide)⟩


/-! ## Single-precision arithmetic -/

theorem roundHalfEven_eq (y : ℚ) (k : ℤ)
    (h : |y - k| < 1 / 2 ∨ (|y - k| = 1 / 2 ∧ k % 2 = 0)) : roundHalfEven y = k := by
  have h1 : (⌊y⌋ : ℚ) ≤ y := Int.floor_le y
  have h2 : y < ⌊y⌋ + 1 := Int.lt_floor_add_one y
  have hle : |y - k| ≤ 1 / 2 := by
    rcases h with h | h
    · exact le_of_lt h
    · exact le_of_eq h.1
  obtain ⟨h3, h4⟩ := abs_le.1 hle
  have hfk : ⌊y⌋ ≤ k := by
    have : (⌊y⌋ : ℚ) < k + 1 := by linarith
    have : ⌊y⌋ < k + 1 := by exact_mod_cast this
    omega
  have hkf : k ≤ ⌊y⌋ + 1 := by
    have : (k : ℚ) < ⌊y⌋ + 2 := by linarith
    have : k < ⌊y⌋ + 2 := by exact_mod_cast this
    omega
  have hcases : ⌊y⌋ = k ∨ ⌊y⌋ = k - 1 := by omega
  unfold roundHalfEven
  rcases hcases with hf | hf
  · rw [hf]
    rcases h with h | ⟨h, hev⟩
    · rw [if_pos (by linarith [(abs_lt.1 h).2])]
    · have hy : y - k = 1 / 2 ∨ y - k = -(1 / 2) := by
        rcases abs_cases (y - k) with ⟨ha, _⟩ | ⟨ha, _⟩
        · left; linarith
        · right; linarith
      rcases hy with hy | hy
      · rw [if_neg (by linarith), if_neg (by linarith), if_pos hev]
      · rw [hf] at h1
        linarith
  · rw [hf]
    have hc : ((k - 1 : ℤ) : ℚ) = k - 1 := by push_cast; ring
    rw [hc]
    rcases h with h | ⟨h, hev⟩
    · rw [if_neg (by linarith [(abs_lt.1 h).1]), if_pos (by linarith [(abs_lt.1 h).1])]
      ring
    · have hy : y - k = 1 / 2 ∨ y - k = -(1 / 2) := by
        rcases abs_cases (y - k) with ⟨ha, _⟩ | ⟨ha, _⟩
        · left; linarith
        · right; linarith
      rcases hy with hy | hy
      · rw [hf, hc] at h2
        linarith
      · rw [if_neg (by linarith), if_neg (by linarith), if_neg (by omega)]
        ring

theorem roundHalfEven_near (y : ℚ) : |(roundHalfEven y : ℚ) - y| ≤ 1 / 2 := by
  have h1 : (⌊y⌋ : ℚ) ≤ y := Int.floor_le y
  have h2 : y < ⌊y⌋ + 1 := Int.lt_floor_add_one y
  unfold roundHalfEven
  split_ifs with ha hb hc
  · rw [abs_le]; constructor <;> linarith
  · rw [abs_le]; push_cast; constructor <;> linarith
  · rw [abs_le]; constructor <;> linarith
  · rw [abs_le]; push_cast; constructor <;> linarith

theorem log_two_eq (m : ℚ) (e : ℤ) (hlo : (2 : ℚ) ^ e ≤ m) (hhi : m < (2 : ℚ) ^ (e + 1)) :
    Int.log 2 m = e := by
  have hpos : 0 < m := lt_of_lt_of_le (by positivity) hlo
  have h1 : e ≤ Int.log 2 m :=
    (Int.zpow_le_iff_le_log (by norm_num : 1 < 2) hpos).1 (by exact_mod_cast hlo)
  have h2 : Int.log 2 m < e + 1 :=
    (Int.lt_zpow_iff_log_lt (by norm_num : 1 < 2) hpos).1 (by exact_mod_cast hhi)
  omega

theorem float.round_eq (s : Bool) (m : ℚ) (e k : ℤ) (hlo : (2 : ℚ) ^ e ≤ m)
    (hhi : m < (2 : ℚ) ^ (e + 1)) (he : -126 ≤ e)
    (hk : |m / 2 ^ (e - 23) - k| < 1 / 2 ∨ (|m / 2 ^ (e - 23) - k| = 1 / 2 ∧ k % 2 = 0))
    (hov : (k : ℚ) * 2 ^ (e - 23) < 2 ^ (128 : ℕ)) :
    float.round s m = .finite s (k * 2 ^ (e - 23)) := by
  have hpos : 0 < m := lt_of_lt_of_le (by positivity) hlo
  unfold float.round
  rw [if_neg (ne_of_gt hpos), log_two_eq m e hlo hhi, max_eq_left he]
  dsimp only []
  rw [roundHalfEven_eq _ k hk, if_neg (not_le.2 hov)]

theorem float.ofRat_eq (q : ℚ) (b : Bool) (e k : ℤ) (hlo : (2 : ℚ) ^ e ≤ q)
    (hhi : q < (2 : ℚ) ^ (e + 1)) (he : -126 ≤ e)
    (hk : |q / 2 ^ (e - 23) - k| < 1 / 2 ∨ (|q / 2 ^ (e - 23) - k| = 1 / 2 ∧ k % 2 = 0))
    (hov : (k : ℚ) * 2 ^ (e - 23) < 2 ^ (128 : ℕ)) :
    float.ofRat q b = .finite false (k * 2 ^ (e - 23)) := by
  have hpos : 0 < q := lt_of_lt_of_le (by positivity) hlo
  unfold float.ofRat
  rw [if_neg (ne_of_gt hpos), abs_of_pos hpos, float.round_eq _ q e k hlo hhi he hk hov]
  simp [not_lt.2 (le_of_lt hpos)]

theorem float.round_error (s : Bool) (m : ℚ) (hlo : (2 : ℚ) ^ (-126 : ℤ) ≤ m)
    (hhi : m < (2 : ℚ) ^ (127 : ℤ)) :
    ∃ r, float.round s m = .finite s r ∧ |r - m| ≤ m / 2 ^ (24 : ℕ) := by
  have hpos : 0 < m := lt_of_lt_of_le (by positivity) hlo
  have h1 : (-126 : ℤ) ≤ Int.log 2 m :=
    (Int.zpow_le_iff_le_log (by norm_num : 1 < 2) hpos).1 (by exact_mod_cast hlo)
  have h2 : Int.log 2 m < 127 :=
    (Int.lt_zpow_iff_log_lt (by norm_num : 1 < 2) hpos).1 (by exact_mod_cast hhi)
  have h3 : (2 : ℚ) ^ (Int.log 2 m) ≤ m := by
    exact_mod_cast Int.zpow_log_le_self (by norm_num : 1 < 2) hpos
  have hulp : (2 : ℚ) ^ (Int.log 2 m - 23) = 2 ^ (Int.log 2 m) / 2 ^ (23 : ℕ) := by
    rw [zpow_sub₀ (by norm_num : (2 : ℚ) ≠ 0)]
    norm_num
  have hupos : (0 : ℚ) < 2 ^ (Int.log 2 m - 23) := by positivity
  have hnear := roundHalfEven_near (m / 2 ^ (Int.log 2 m - 23))
  have herr : |(roundHalfEven (m / 2 ^ (Int.log 2 m - 23)) : ℚ) * 2 ^ (Int.log 2 m - 23) - m| ≤
      m / 2 ^ (24 : ℕ) := by
    have hfac : (roundHalfEven (m / 2 ^ (Int.log 2 m - 23)) : ℚ) * 2 ^ (Int.log 2 m - 23) - m =
        ((roundHalfEven (m / 2 ^ (Int.log 2 m - 23)) : ℚ) - m / 2 ^ (Int.log 2 m - 23)) *
          2 ^ (Int.log 2 m - 23) := by
      field_simp
    rw [hfac, abs_mul, abs_of_pos hupos]
    calc |(roundHalfEven (m / 2 ^ (Int.log 2 m - 23)) : ℚ) - m / 2 ^ (Int.log 2 m - 23)| *
          2 ^ (Int.log 2 m - 23)
        ≤ 1 / 2 * 2 ^ (Int.log 2 m - 23) := mul_le_mul_of_nonneg_right hnear (le_of_lt hupos)
      _ = 2 ^ (Int.log 2 m) / 2 ^ (24 : ℕ) := by rw [hulp]; norm_num; ring
      _ ≤ m / 2 ^ (24 : ℕ) := div_le_div_of_nonneg_right h3 (by positivity)
  refine ⟨roundHalfEven (m / 2 ^ (Int.log 2 m - 23)) * 2 ^ (Int.log 2 m - 23), ?_, herr⟩
  unfold float.round
  rw [if_neg (ne_of_gt hpos), max_eq_left h1]
  dsimp only []
  rw [if_neg]
  rw [not_le]
  have hb := (abs_le.1 herr).2
  have : m / 2 ^ (24 : ℕ) ≤ m := div_le_self (le_of_lt hpos) (by norm_num)
  have h128 : (2 : ℚ) ^ (127 : ℤ) * 2 = 2 ^ (128 : ℕ) := by norm_num
  linarith

theorem float.ofRat_val (q : ℚ) (b : Bool) (e k : ℤ) (v : ℚ) (hlo : (2 : ℚ) ^ e ≤ q)
    (hhi : q < (2 : ℚ) ^ (e + 1)) (he : -126 ≤ e)
    (hk : |q / 2 ^ (e - 23) - k| < 1 / 2 ∨ (|q / 2 ^ (e - 23) - k| = 1 / 2 ∧ k % 2 = 0))
    (hov : (k : ℚ) * 2 ^ (e - 23) < 2 ^ (128 : ℕ)) (hv : (k : ℚ) * 2 ^ (e - 23) = v) :
    float.ofRat q b = .finite false v := by
  rw [float.ofRat_eq q b e k hlo hhi he hk hov, hv]

theorem float.natCast_eq (n : ℕ) : ((n : ℕ) : float) = float.ofRat n false := rfl

theorem float.mul_finite (s t : Bool) (m n : ℚ) :
    float.finite s m * float.finite t n =
      float.ofRat (float.signed s m * float.signed t n) (xor s t) := rfl

theorem float.div_finite (s t : Bool) (m n : ℚ) (hn : n ≠ 0) :
    float.finite s m / float.finite t n =
      float.ofRat (float.signed s m / float.signed t n) (xor s t) := by
  show float.div _ _ = _
  simp [float.div, hn]

theorem float.ofRat_natCast_small (n : ℕ) (h : n < 2 ^ 24) :
    float.ofRat (n : ℚ) false = .finite false n := by
  rcases Nat.eq_zero_or_pos n with rfl | hpos
  · simp [float.ofRat]
  have hn0 : n ≠ 0 := Nat.pos_iff_ne_zero.1 hpos
  have hlog : Nat.log 2 n < 24 := (Nat.lt_pow_iff_log_lt (by norm_num) hn0).1 h
  have hlo : (2 : ℚ) ^ ((Nat.log 2 n : ℕ) : ℤ) ≤ (n : ℚ) := by
    rw [zpow_natCast]
    exact_mod_cast Nat.pow_log_le_self 2 hn0
  have hhi : (n : ℚ) < (2 : ℚ) ^ (((Nat.log 2 n : ℕ) : ℤ) + 1) := by
    have : (n : ℚ) < (2 : ℚ) ^ (Nat.log 2 n + 1) := by
      exact_mod_cast Nat.lt_pow_succ_log_self (by norm_num : 1 < 2) n
    rw [show ((Nat.log 2 n : ℕ) : ℤ) + 1 = ((Nat.log 2 n + 1 : ℕ) : ℤ) by push_cast; rfl,
      zpow_natCast]
    exact this
  have hulp : (2 : ℚ) ^ (((Nat.log 2 n : ℕ) : ℤ) - 23) * 2 ^ (23 - Nat.log 2 n) = 1 := by
    rw [← zpow_natCast, ← zpow_add₀ (by norm_num : (2 : ℚ) ≠ 0)]
    rw [show ((Nat.log 2 n : ℕ) : ℤ) - 23 + ((23 - Nat.log 2 n : ℕ) : ℤ) = 0 by omega]
    simp
  have hupos : (0 : ℚ) < (2 : ℚ) ^ (((Nat.log 2 n : ℕ) : ℤ) - 23) := by positivity
  have hval : (((n * 2 ^ (23 - Nat.log 2 n) : ℕ) : ℤ) : ℚ) *
      2 ^ (((Nat.log 2 n : ℕ) : ℤ) - 23) = n := by
    push_cast
    rw [mul_assoc, mul_comm ((2 : ℚ) ^ (23 - Nat.log 2 n)), hulp, mul_one]
  refine float.ofRat_val n false (Nat.log 2 n : ℕ) ((n * 2 ^ (23 - Nat.log 2 n) : ℕ) : ℤ) n
    hlo hhi (by omega) (Or.inl ?_) ?_ hval
  · have : (n : ℚ) / 2 ^ (((Nat.log 2 n : ℕ) : ℤ) - 23) -
        (((n * 2 ^ (23 - Nat.log 2 n) : ℕ) : ℤ) : ℚ) = 0 := by
      rw [sub_eq_zero, div_eq_iff (ne_of_gt hupos), hval]
    rw [this]
    norm_num
  · rw [hval]
    have : (n : ℚ) < 2 ^ (24 : ℕ) := by exact_mod_cast h
    have h2 : (2 : ℚ) ^ (24 : ℕ) < 2 ^ (128 : ℕ) := by norm_num
    linarith

theorem float.natCast_small (n : ℕ) (h : n < 2 ^ 24) : ((n : ℕ) : float) = .finite false n := by
  rw [float.natCast_eq]
  exact float.ofRat_natCast_small n h

theorem aspectRatio_float_eq (w h : ℕ) :
    (aspectRatio w h : float) = float.ofRat w false / float.ofRat h false := rfl

theorem aspectRatio_float (w h : ℕ) (hw0 : 0 < w) (hw : w < 2 ^ 24) (hh0 : 0 < h)
    (hh : h < 2 ^ 24) : (aspectRatio w h : float) = float.round false ((w : ℚ) / h) := by
  have hhq : (0 : ℚ) < h := by exact_mod_cast hh0
  have hwq : (0 : ℚ) < w := by exact_mod_cast hw0
  have hq : (0 : ℚ) < (w : ℚ) / h := div_pos hwq hhq
  unfold aspectRatio
  rw [float.natCast_small w hw, float.natCast_small h hh,
    float.div_finite _ _ _ _ (ne_of_gt hhq)]
  simp only [float.signed, Bool.false_eq_true, if_false, float.ofRat, Bool.xor_false]
  rw [if_neg (ne_of_gt hq), abs_of_pos hq]
  simp [not_lt.2 (le_of_lt hq)]

theorem projection_entries {α : Type} [Zero α] [One α] [Add α] [Sub α] [Mul α] [Div α] [Neg α]
    [NatCast α] [OfScientific α] (math : CameraMath α) (u : SceneUniform α) (w h : Nat) :
    (update_scene_uniforms math u w h).projection.get 0 0 =
        1 / (aspectRatio w h * math.tan (math.kCameraFovRadians / ((2 : Nat) : α))) ∧
    (update_scene_uniforms math u w h).projection.get 1 1 =
        1 / math.tan (math.kCameraFovRadians / ((2 : Nat) : α)) * (-1) :=
  ⟨rfl, rfl⟩

theorem float.one_eq : (1 : float) = .finite false 1 := rfl

theorem floatMath_projection00 (w h : ℕ) (a b p : ℚ)
    (ha : (aspectRatio w h : float) = .finite false a)
    (hb : float.ofRat (a * (9686330 / 16777216)) false = .finite false b) (hb0 : b ≠ 0)
    (hp : float.ofRat (1 / b) false = .finite false p) :
    (update_scene_uniforms floatMath zeroFloatUniform w h).projection.get 0 0 =
      .finite false p := by
  rw [(projection_entries floatMath zeroFloatUniform w h).1, ha]
  show (1 : float) / (float.finite false a * float.finite false (9686330 / 16777216)) = _
  rw [float.mul_finite]
  simp only [float.signed, Bool.false_eq_true, if_false, Bool.xor_false]
  rw [hb, float.one_eq, float.div_finite _ _ _ _ hb0]
  simp only [float.signed, Bool.false_eq_true, if_false, Bool.xor_false]
  exact hp

theorem aspectRatio_800_600 : (aspectRatio 800 600 : float) = .finite false (11184811 / 8388608) := by
  rw [aspectRatio_float 800 600 (by norm_num) (by norm_num) (by norm_num) (by norm_num)]
  rw [float.round_eq false _ 0 11184811 (by norm_num) (by norm_num) (by norm_num)
    (Or.inl (by norm_num [abs_lt])) (by norm_num)]
  norm_num

theorem aspectRatio_800_1800 :
    (aspectRatio 800 (3 * 600) : float) = .finite false (14913081 / 33554432) := by
  rw [aspectRatio_float 800 (3 * 600) (by norm_num) (by norm_num) (by norm_num) (by norm_num)]
  rw [float.round_eq false _ (-2) 14913081 (by norm_num) (by norm_num) (by norm_num)
    (Or.inl (by norm_num [abs_lt])) (by norm_num)]
  norm_num

theorem aspectRatio_float_near (w h : ℕ) (hw : w < 2 ^ 24) (hh0 : 0 < h) (hh : h < 2 ^ 24) :
    ∃ r, (aspectRatio w h : float) = .finite false r ∧
      |r - (w : ℚ) / h| ≤ (w : ℚ) / h / 2 ^ (24 : ℕ) := by
  have hhq : (0 : ℚ) < h := by exact_mod_cast hh0
  rcases Nat.eq_zero_or_pos w with rfl | hw0
  · refine ⟨0, ?_, by simp⟩
    rw [aspectRatio_float_eq, float.ofRat_natCast_small 0 (by norm_num),
      float.ofRat_natCast_small h hh, float.div_finite _ _ _ _ (ne_of_gt hhq)]
    simp [float.signed, float.ofRat]
  have hwq : (1 : ℚ) ≤ w := by exact_mod_cast hw0
  have hhq1 : (1 : ℚ) ≤ h := by exact_mod_cast hh0
  have hwlt : (w : ℚ) < 2 ^ (24 : ℕ) := by exact_mod_cast hw
  have hhlt : (h : ℚ) < 2 ^ (24 : ℕ) := by exact_mod_cast hh
  rw [aspectRatio_float w h hw0 hw hh0 hh]
  refine float.round_error false _ ?_ ?_
  · rw [le_div_iff₀ hhq]
    have : (2 : ℚ) ^ (-126 : ℤ) * h ≤ (2 : ℚ) ^ (-126 : ℤ) * 2 ^ (24 : ℕ) :=
      mul_le_mul_of_nonneg_left (le_of_lt hhlt) (by positivity)
    have h2 : (2 : ℚ) ^ (-126 : ℤ) * 2 ^ (24 : ℕ) ≤ 1 := by norm_num
    linarith
  · rw [div_lt_iff₀ hhq]
    have : (2 : ℚ) ^ (127 : ℤ) * 1 ≤ (2 : ℚ) ^ (127 : ℤ) * h :=
      mul_le_mul_of_nonneg_left hhq1 (by positivity)
    have h2 : (2 : ℚ) ^ (24 : ℕ) < (2 : ℚ) ^ (127 : ℤ) := by norm_num
    linarith

end Exercise4
